import Mathlib

/-! Verification development for the ESP-MDF firmware example.

Shallow embedding of two units of the repository:

* `src/lib/mupgrade/mupgrade_node.c`: the node side of the over-the-air
  upgrade (`mupgrade_status`, `mupgrade_write`, `mupgrade_stop`);
* `src/lib/mespnow/mespnow.c`: the fragmenting ESP-NOW transport
  (`mespnow_write`, `mespnow_recv_cb`, `mespnow_read`, `mespnow_add_peer`).

Global variables of the C files become fields of an explicit state record.
Calls into the SDK (flash, OTA, mesh, radio, RTOS) are collaborators: their
results are read from an environment record and every call is appended, in
program order, to a trace kept in the state.
-/

set_option autoImplicit false
set_option maxRecDepth 20000

/-! ## Error codes shared by both units -/

/-- Values of `mdf_err_t` used by the two units. The numeric values live in
`mdf_err.h`, which is not part of the sources; only their distinctness is
used. `other` stands for any further code a collaborator may return. -/
inductive MdfErr where
  | MDF_OK
  | ESP_FAIL
  | MDF_ERR_NO_MEM
  | MDF_ERR_INVALID_ARG
  | MDF_ERR_TIMEOUT
  | MDF_ERR_NOT_SUPPORTED
  | ESP_ERR_ESPNOW_NOT_INIT
  | MDF_ERR_MUPGRADE_FIRMWARE_PARTITION
  | MDF_ERR_MUPGRADE_FIRMWARE_DOWNLOAD
  | MDF_ERR_MUPGRADE_NOT_INIT
  | MDF_ERR_MUPGRADE_STOP
  | other (code : Nat)
  deriving DecidableEq

/-- Range of a 32-bit unsigned machine word (`uint32_t`, `size_t` on the ESP32). -/
def U32 : Nat := 4294967296

namespace Mupgrade

/-! ## Data model of `mupgrade_node.c` -/

/-- Compile-time constants of `mupgrade.h` and `sdkconfig`, which are not part
of the sources; they are parameters of the model. -/
structure Consts where
  MUPGRADE_PACKET_MAX_SIZE : Nat
  MUPGRADE_PACKET_MAX_NUM : Nat
  CONFIG_MUPGRADE_STATUS_REPORT_INTERVAL : Nat
  MUPGRADE_TYPE_STATUS : Nat
  MUPGRADE_TYPE_DATA : Nat
  deriving DecidableEq

/-- Record `mupgrade_status_t`: the header fields and the trailing
`progress_array`, kept as the set of the indices of its set bits. -/
structure Status where
  type : Nat
  name : String
  total_size : Nat
  written_size : Nat
  error_code : MdfErr
  progress_array : Finset Nat
  deriving DecidableEq

/-- Record `mupgrade_config_t`. A partition pointer is `none` when `NULL`. -/
structure Config where
  start_time : Nat
  handle : Nat
  partition : Option Nat
  status : Status
  deriving DecidableEq

/-- Record `mupgrade_packet_t` (the `type` byte selected the handler already). -/
structure Packet where
  seq : Nat
  size : Nat
  data : List Nat
  deriving DecidableEq

/-- Events of `mdf_event_loop_send` raised by this unit. -/
inductive MdfEvent where
  | MDF_EVENT_MUPGRADE_STARTED
  | MDF_EVENT_MUPGRADE_STATUS
  | MDF_EVENT_MUPGRADE_FINISH
  deriving DecidableEq

/-- Result of `esp_mesh_get_type`. -/
inductive MeshType where
  | MESH_IDLE
  | MESH_ROOT
  | MESH_NODE
  | MESH_LEAF
  | MESH_STA
  deriving DecidableEq

/-- One collaborator call with its arguments. `mwifi_write` records the status
sent and whether the response size included the bitmap
(`sizeof(mupgrade_status_t) + MUPGRADE_PACKET_MAX_NUM / 8`). -/
inductive Call where
  | mdf_event_loop_send (ev : MdfEvent) (arg : Nat)
  | esp_ota_set_boot_partition (p : Option Nat)
  | esp_ota_begin (p : Option Nat) (image_size : Nat)
  | esp_ota_end (handle : Nat)
  | esp_partition_write (p : Option Nat) (offset : Nat) (data : List Nat) (size : Nat)
  | mdf_info_save (c : Config)
  | mdf_info_erase
  | mwifi_write (st : Status) (with_bitmap : Bool)
  | esp_mesh_set_ap_assoc_expire (seconds : Nat)
  deriving DecidableEq

/-- Results the collaborators give during one call of a handler. -/
structure Env where
  calloc_ok : Bool
  xTaskGetTickCount : Nat
  mdf_info_load : Option Config
  esp_ota_get_next_update_partition : Option Nat
  esp_ota_get_running_partition : Option Nat
  esp_mesh_get_type : MeshType
  esp_ota_set_boot_partition : MdfErr
  esp_ota_begin : MdfErr
  ota_handle : Nat
  mdf_info_save : MdfErr
  esp_partition_write : MdfErr
  mwifi_write : MdfErr
  deriving DecidableEq

/-- File-scope and function-scope statics of `mupgrade_node.c`, the link
keepalive of the mesh stack, and the trace of collaborator calls. -/
structure NodeState where
  g_upgrade_config : Option Config
  g_upgrade_finished_flag : Bool
  s_next_written_percentage : Nat
  assoc_expire : Nat
  trace : List Call
  deriving DecidableEq

/-- Number of bits held by `progress_array`, an array of
`MUPGRADE_PACKET_MAX_NUM / 8` bytes. -/
def bitmap_bits (K : Consts) : Nat := K.MUPGRADE_PACKET_MAX_NUM / 8 * 8

/-- Modelled from the spec: macro `MUPGRADE_GET_BITS` of `mupgrade.h` is not in
the sources; it tests the bit of one chunk in the progress bitmap. -/
def MUPGRADE_GET_BITS (arr : Finset Nat) (i : Nat) : Bool := decide (i ∈ arr)

/-- Modelled from the spec: macro `MUPGRADE_SET_BITS` of `mupgrade.h` is not in
the sources; it sets the bit of one chunk in the progress bitmap. -/
def MUPGRADE_SET_BITS (arr : Finset Nat) (i : Nat) : Finset Nat := insert i arr

/-- Effect of `memset(progress_array, 0, MUPGRADE_PACKET_MAX_NUM / 8)`. -/
def bitmap_clear : Finset Nat := ∅

/-- Effect of `memset(progress_array, 0xff, MUPGRADE_PACKET_MAX_NUM / 8)`. -/
def bitmap_fill (K : Consts) : Finset Nat := Finset.range (bitmap_bits K)

/-- Block returned by `MDF_CALLOC(1, config_size)`: every field zero. -/
def calloc_config : Config :=
  { start_time := 0, handle := 0, partition := none,
    status := { type := 0, name := "", total_size := 0, written_size := 0,
                error_code := MdfErr.MDF_OK, progress_array := bitmap_clear } }

/-- Append one collaborator call to the trace. -/
def NodeState.log (s : NodeState) (c : Call) : NodeState :=
  { s with trace := s.trace ++ [c] }

/-- Boot state of the unit: no session, flag clear, the threshold static at
its initialiser. -/
def init_state (K : Consts) (assoc : Nat) : NodeState :=
  { g_upgrade_config := none, g_upgrade_finished_flag := false,
    s_next_written_percentage := K.CONFIG_MUPGRADE_STATUS_REPORT_INTERVAL,
    assoc_expire := assoc, trace := [] }

/-! ## `mupgrade_status` -/

/-- Label `EXIT` of `mupgrade_status` (source lines 110-132): choose the
response size, report 100 percent when complete, mark the record as a data
reply, store `ret` unless the session is stopped, and send the reply. -/
def mupgrade_status_exit (K : Consts) (env : Env) (s : NodeState) (cfg : Config)
    (ret : MdfErr) : MdfErr × NodeState :=
  let st := cfg.status
  let with_bitmap : Bool := st.written_size ≠ 0 ∧ st.written_size ≠ st.total_size
  let s1 : NodeState :=
    if with_bitmap then s
    else if st.written_size = st.total_size then
      s.log (Call.mdf_event_loop_send MdfEvent.MDF_EVENT_MUPGRADE_STATUS 100)
    else s
  let st1 : Status := { st with type := K.MUPGRADE_TYPE_DATA }
  let st2 : Status :=
    if st1.error_code ≠ MdfErr.MDF_ERR_MUPGRADE_STOP then { st1 with error_code := ret } else st1
  let cfg2 : Config := { cfg with status := st2 }
  let s2 : NodeState := { s1 with g_upgrade_config := some cfg2 }
  let s3 := s2.log (Call.mwifi_write st2 with_bitmap)
  if env.mwifi_write ≠ MdfErr.MDF_OK then (env.mwifi_write, s3) else (MdfErr.MDF_OK, s3)

/-- Lines 50-108 of `mupgrade_status`: a firmware other than the session's is
announced. The record is reset and takes the header of the announcement; the
root and station roles switch the boot partition at once, the other roles
prepare the update partition. Every exit goes through `mupgrade_status_exit`. -/
def mupgrade_status_new (K : Consts) (env : Env) (s : NodeState) (status : Status) :
    MdfErr × NodeState :=
  let cfg1 : Config :=
    { start_time := 0, handle := 0, partition := none,
      status := { status with progress_array := bitmap_clear, written_size := 0 } }
  if env.esp_mesh_get_type = MeshType.MESH_ROOT ∨ env.esp_mesh_get_type = MeshType.MESH_STA then
    let s1 := s.log (Call.esp_ota_set_boot_partition env.esp_ota_get_next_update_partition)
    if env.esp_ota_set_boot_partition ≠ MdfErr.MDF_OK then
      mupgrade_status_exit K env s1 cfg1 env.esp_ota_set_boot_partition
    else
      let s2 : NodeState := { s1 with g_upgrade_finished_flag := true }
      let s3 := s2.log (Call.mdf_event_loop_send MdfEvent.MDF_EVENT_MUPGRADE_STARTED 0)
      let cfg2 : Config :=
        { cfg1 with status := { cfg1.status with written_size := cfg1.status.total_size,
                                                 progress_array := bitmap_fill K } }
      let s4 := s3.log (Call.mdf_event_loop_send MdfEvent.MDF_EVENT_MUPGRADE_FINISH 0)
      mupgrade_status_exit K env s4 cfg2 MdfErr.MDF_OK
  else
    let s1 : NodeState := { s with g_upgrade_finished_flag := false }
    if env.esp_ota_get_running_partition = none ∨ env.esp_ota_get_next_update_partition = none then
      mupgrade_status_exit K env s1 cfg1 MdfErr.MDF_ERR_MUPGRADE_FIRMWARE_PARTITION
    else
      let cfg2 : Config :=
        { cfg1 with partition := env.esp_ota_get_next_update_partition,
                    start_time := env.xTaskGetTickCount }
      let assoc := s1.assoc_expire
      let s2 : NodeState := { s1 with assoc_expire := 60 }
      let s3 := s2.log (Call.esp_mesh_set_ap_assoc_expire 60)
      let s4 := s3.log (Call.esp_ota_begin env.esp_ota_get_next_update_partition
                          cfg2.status.total_size)
      if env.esp_ota_begin ≠ MdfErr.MDF_OK then
        mupgrade_status_exit K env s4 cfg2 env.esp_ota_begin
      else
        let cfg3 : Config := { cfg2 with handle := env.ota_handle }
        let s5 : NodeState := { s4 with assoc_expire := assoc }
        let s6 := s5.log (Call.esp_mesh_set_ap_assoc_expire assoc)
        let s7 := s6.log (Call.mdf_info_save cfg3)
        if env.mdf_info_save ≠ MdfErr.MDF_OK then
          mupgrade_status_exit K env s7 cfg3 env.mdf_info_save
        else
          let s8 := s7.log (Call.mdf_event_loop_send MdfEvent.MDF_EVENT_MUPGRADE_STARTED 0)
          mupgrade_status_exit K env s8 cfg3 MdfErr.MDF_OK

/-- Session that `mupgrade_status` and `mupgrade_write` work on when
`g_upgrade_config` is `NULL`: a zeroed block, overwritten by the persisted
record when `mdf_info_load` finds one, then stamped with the tick count and the
next update partition. -/
def load_config (env : Env) : Config :=
  let c := match env.mdf_info_load with
    | some c => c
    | none => calloc_config
  { c with start_time := env.xTaskGetTickCount,
           partition := env.esp_ota_get_next_update_partition }

/-- Function `mupgrade_status` (source lines 23-133). The result is `none`
where the C code leaves defined behaviour: a failed allocation jumps to `EXIT`,
which dereferences the `NULL` session. -/
def mupgrade_status (K : Consts) (env : Env) (s : NodeState) (status : Status) :
    Option (MdfErr × NodeState) :=
  let cfg? : Option Config :=
    match s.g_upgrade_config with
    | some c => some c
    | none => if env.calloc_ok then some (load_config env) else none
  match cfg? with
  | none => none
  | some cfg =>
    let s1 : NodeState := { s with g_upgrade_config := some cfg }
    if cfg.status.name = status.name ∧ cfg.status.total_size = status.total_size then
      some (mupgrade_status_exit K env s1 cfg MdfErr.MDF_OK)
    else
      some (mupgrade_status_new K env s1 status)

/-! ## `mupgrade_write` -/

/-- Lines 160-173 of `mupgrade_write`: the session is stopped, so the packet
is answered with a zero-progress status and nothing else happens. -/
def mupgrade_write_stopped (K : Consts) (env : Env) (s : NodeState) (cfg : Config) :
    MdfErr × NodeState :=
  let st : Status :=
    { cfg.status with type := K.MUPGRADE_TYPE_DATA, written_size := 0,
                      progress_array := bitmap_clear }
  let s1 : NodeState := { s with g_upgrade_config := some { cfg with status := st } }
  let s2 := s1.log Call.mdf_info_erase
  let s3 := s2.log (Call.mwifi_write st false)
  if env.mwifi_write ≠ MdfErr.MDF_OK then (env.mwifi_write, s3) else (MdfErr.MDF_OK, s3)

/-- Lines 194-213 of `mupgrade_write`: compare the written percentage with the
static threshold; on equality persist the session and report the percentage,
above it only move the threshold. -/
def mupgrade_write_progress (K : Consts) (s : NodeState) (cfg : Config) : NodeState :=
  let written_percentage := (cfg.status.written_size * 100 % U32) / cfg.status.total_size
  if written_percentage = s.s_next_written_percentage then
    let s1 : NodeState :=
      { s with s_next_written_percentage :=
          (s.s_next_written_percentage + K.CONFIG_MUPGRADE_STATUS_REPORT_INTERVAL) % U32 }
    let s2 := s1.log (Call.mdf_info_save cfg)
    s2.log (Call.mdf_event_loop_send MdfEvent.MDF_EVENT_MUPGRADE_STATUS written_percentage)
  else if written_percentage > s.s_next_written_percentage then
    { s with s_next_written_percentage :=
        ((written_percentage / K.CONFIG_MUPGRADE_STATUS_REPORT_INTERVAL + 1)
          * K.CONFIG_MUPGRADE_STATUS_REPORT_INTERVAL) % U32 }
  else s

/-- Lines 215-245 of `mupgrade_write`: every byte is written, so close the OTA
handle, erase the persisted record and select the update partition for boot;
a failed selection stops the session, a successful one raises the finish event
and reports the final status. -/
def mupgrade_write_finish (env : Env) (s : NodeState) (cfg : Config) : MdfErr × NodeState :=
  let s1 := s.log (Call.esp_ota_end cfg.handle)
  let s2 := s1.log Call.mdf_info_erase
  let s3 := s2.log (Call.esp_ota_set_boot_partition env.esp_ota_get_next_update_partition)
  if env.esp_ota_set_boot_partition ≠ MdfErr.MDF_OK then
    let st : Status :=
      { cfg.status with written_size := 0, error_code := MdfErr.MDF_ERR_MUPGRADE_STOP }
    (env.esp_ota_set_boot_partition,
      { s3 with g_upgrade_config := some { cfg with status := st } })
  else
    let s4 := s3.log (Call.mdf_event_loop_send MdfEvent.MDF_EVENT_MUPGRADE_FINISH 0)
    let s5 : NodeState := { s4 with g_upgrade_finished_flag := true }
    let s6 := s5.log (Call.mwifi_write cfg.status false)
    if env.mwifi_write ≠ MdfErr.MDF_OK then (env.mwifi_write, s6) else (MdfErr.MDF_OK, s6)

/-- Lines 175-247 of `mupgrade_write`, for a session that is not stopped. The
result is `none` where the C code leaves defined behaviour: a bit index outside
`progress_array`, or the percentage division with `total_size` zero. -/
def mupgrade_write_active (K : Consts) (env : Env) (s : NodeState) (cfg : Config)
    (packet : Packet) : Option (MdfErr × NodeState) :=
  if packet.seq * K.MUPGRADE_PACKET_MAX_SIZE > cfg.status.total_size then
    some (MdfErr.MDF_ERR_INVALID_ARG, s)
  else if bitmap_bits K ≤ packet.seq then none
  else if MUPGRADE_GET_BITS cfg.status.progress_array packet.seq then
    some (MdfErr.MDF_OK, s)
  else
    let s1 := s.log (Call.esp_partition_write cfg.partition
                (packet.seq * K.MUPGRADE_PACKET_MAX_SIZE) packet.data packet.size)
    if env.esp_partition_write ≠ MdfErr.MDF_OK then
      some (MdfErr.MDF_ERR_MUPGRADE_FIRMWARE_DOWNLOAD, s1)
    else
      let st : Status :=
        { cfg.status with
            progress_array := MUPGRADE_SET_BITS cfg.status.progress_array packet.seq,
            written_size := (cfg.status.written_size + packet.size) % U32 }
      let cfg1 : Config := { cfg with status := st }
      let s2 : NodeState := { s1 with g_upgrade_config := some cfg1 }
      if st.total_size = 0 then none
      else
        let s3 := mupgrade_write_progress K s2 cfg1
        if st.written_size = st.total_size then some (mupgrade_write_finish env s3 cfg1)
        else some (MdfErr.MDF_OK, s3)

/-- Function `mupgrade_write` (source lines 135-248); `size` is the length of
the received message. -/
def mupgrade_write (K : Consts) (env : Env) (s : NodeState) (packet : Packet) (size : Nat) :
    Option (MdfErr × NodeState) :=
  if size = 0 then some (MdfErr.MDF_ERR_INVALID_ARG, s)
  else
    match s.g_upgrade_config with
    | none =>
      if !env.calloc_ok then some (MdfErr.MDF_ERR_NO_MEM, s)
      else
        match env.mdf_info_load with
        | none => some (MdfErr.MDF_ERR_MUPGRADE_NOT_INIT, s)
        | some _ =>
          let cfg := load_config env
          let s1 : NodeState := { s with g_upgrade_config := some cfg }
          if cfg.status.error_code = MdfErr.MDF_ERR_MUPGRADE_STOP then
            some (mupgrade_write_stopped K env s1 cfg)
          else mupgrade_write_active K env s1 cfg packet
    | some cfg =>
      if cfg.status.error_code = MdfErr.MDF_ERR_MUPGRADE_STOP then
        some (mupgrade_write_stopped K env s cfg)
      else mupgrade_write_active K env s cfg packet

/-! ## `mupgrade_stop` -/

/-- Function `mupgrade_stop` (source lines 288-315). -/
def mupgrade_stop (K : Consts) (env : Env) (s : NodeState) : MdfErr × NodeState :=
  match s.g_upgrade_config with
  | none => (MdfErr.MDF_OK, s)
  | some cfg =>
    let s1 : NodeState :=
      if s.g_upgrade_finished_flag then
        s.log (Call.esp_ota_set_boot_partition env.esp_ota_get_running_partition)
      else s
    if s.g_upgrade_finished_flag ∧ env.esp_ota_set_boot_partition ≠ MdfErr.MDF_OK then
      (env.esp_ota_set_boot_partition, s1)
    else
      let st : Status :=
        { cfg.status with type := K.MUPGRADE_TYPE_DATA,
                          error_code := MdfErr.MDF_ERR_MUPGRADE_STOP,
                          written_size := 0, progress_array := bitmap_clear }
      let s2 : NodeState := { s1 with g_upgrade_config := some { cfg with status := st } }
      let s3 := s2.log Call.mdf_info_erase
      let s4 := s3.log (Call.mwifi_write st false)
      if env.mwifi_write ≠ MdfErr.MDF_OK then (env.mwifi_write, s4) else (MdfErr.MDF_OK, s4)

/-! ## Observations on traces and scenarios of the upgrade unit -/

/-- Calls appended to the trace between state `s` and the later state `s2`. -/
def new_calls (s s2 : NodeState) : List Call := s2.trace.drop s.trace.length

/-- Arguments of the calls of `esp_ota_set_boot_partition` in a trace. -/
def boot_calls : List Call → List (Option Nat)
  | [] => []
  | Call.esp_ota_set_boot_partition p :: tr => p :: boot_calls tr
  | _ :: tr => boot_calls tr

/-- Recognises the upgrade-finished notification. -/
def is_finish_event : Call → Bool
  | Call.mdf_event_loop_send MdfEvent.MDF_EVENT_MUPGRADE_FINISH _ => true
  | _ => false

/-- Recognises a chunk write to the partition. -/
def is_partition_write : Call → Bool
  | Call.esp_partition_write _ _ _ _ => true
  | _ => false

/-- Recognises the start of an erase/prepare cycle. -/
def is_ota_begin : Call → Bool
  | Call.esp_ota_begin _ _ => true
  | _ => false

/-- Recognises a status message sent to the announcer. -/
def is_mwifi_write : Call → Bool
  | Call.mwifi_write _ _ => true
  | _ => false

/-- Every collaborator call of the environment succeeds and both partitions
are found. -/
def Env.all_ok (env : Env) : Prop :=
  env.calloc_ok = true ∧ env.esp_ota_set_boot_partition = MdfErr.MDF_OK ∧
  env.esp_ota_begin = MdfErr.MDF_OK ∧ env.mdf_info_save = MdfErr.MDF_OK ∧
  env.esp_partition_write = MdfErr.MDF_OK ∧ env.mwifi_write = MdfErr.MDF_OK ∧
  env.esp_ota_get_running_partition ≠ none ∧ env.esp_ota_get_next_update_partition ≠ none

instance (env : Env) : Decidable env.all_ok := by
  unfold Env.all_ok
  infer_instance

/-- The node is in a receiving role: neither root nor station. -/
def Env.receiving (env : Env) : Prop :=
  env.esp_mesh_get_type ≠ MeshType.MESH_ROOT ∧ env.esp_mesh_get_type ≠ MeshType.MESH_STA

instance (env : Env) : Decidable env.receiving := by
  unfold Env.receiving
  infer_instance

/-- Session that `mupgrade_status` compares the announcement with: the cached
one, or the one set up from the persisted record when none is cached. -/
def session_of (env : Env) (s : NodeState) : Config :=
  match s.g_upgrade_config with
  | some c => c
  | none => load_config env

/-- The announcement names the firmware of the session (the test of source
lines 44-45). -/
def same_firmware (c : Config) (status : Status) : Prop :=
  c.status.name = status.name ∧ c.status.total_size = status.total_size

instance (c : Config) (status : Status) : Decidable (same_firmware c status) := by
  unfold same_firmware
  infer_instance

/-- Session record after `mupgrade_status` adopted the announcement `status`
in a receiving role and every collaborator call succeeded. -/
def fresh_config (K : Consts) (env : Env) (status : Status) : Config :=
  { start_time := env.xTaskGetTickCount, handle := env.ota_handle,
    partition := env.esp_ota_get_next_update_partition,
    status := { status with type := K.MUPGRADE_TYPE_DATA, written_size := 0,
                            progress_array := ∅,
                            error_code :=
                              if status.error_code = MdfErr.MDF_ERR_MUPGRADE_STOP then
                                MdfErr.MDF_ERR_MUPGRADE_STOP
                              else MdfErr.MDF_OK } }

/-- Number of chunks of an image: `ceil(total / MUPGRADE_PACKET_MAX_SIZE)`. -/
def chunk_count (K : Consts) (total : Nat) : Nat :=
  (total + K.MUPGRADE_PACKET_MAX_SIZE - 1) / K.MUPGRADE_PACKET_MAX_SIZE

/-- Data packet number `k` of an image of `total` bytes whose content is given
by `data`. -/
def chunk (K : Consts) (total : Nat) (data : Nat → List Nat) (k : Nat) : Packet :=
  { seq := k,
    size := min K.MUPGRADE_PACKET_MAX_SIZE (total - k * K.MUPGRADE_PACKET_MAX_SIZE),
    data := data k }

/-- Data packets handed to `mupgrade_write` one after the other; `none` when
one of the calls leaves defined behaviour. -/
def feed (K : Consts) (env : Env) (size : Nat) : NodeState → List Packet → Option NodeState
  | s, [] => some s
  | s, p :: ps =>
    match mupgrade_write K env s p size with
    | some (_, s1) => feed K env size s1 ps
    | none => none

/-- Constants of the worked scenarios: chunks of 200 bytes, a bitmap of 16
bits, a report every 10 percent. -/
def K0 : Consts :=
  { MUPGRADE_PACKET_MAX_SIZE := 200, MUPGRADE_PACKET_MAX_NUM := 16,
    CONFIG_MUPGRADE_STATUS_REPORT_INTERVAL := 10,
    MUPGRADE_TYPE_STATUS := 2, MUPGRADE_TYPE_DATA := 1 }

/-- Environment of the worked scenarios: a mesh node, every call succeeds. -/
def env0 : Env :=
  { calloc_ok := true, xTaskGetTickCount := 7, mdf_info_load := none,
    esp_ota_get_next_update_partition := some 2, esp_ota_get_running_partition := some 1,
    esp_mesh_get_type := MeshType.MESH_NODE,
    esp_ota_set_boot_partition := MdfErr.MDF_OK, esp_ota_begin := MdfErr.MDF_OK,
    ota_handle := 5, mdf_info_save := MdfErr.MDF_OK,
    esp_partition_write := MdfErr.MDF_OK, mwifi_write := MdfErr.MDF_OK }

/-- Announcement of the worked scenarios: firmware `fw.bin` of 1000 bytes. -/
def ann0 : Status :=
  { type := 2, name := "fw.bin", total_size := 1000, written_size := 0,
    error_code := MdfErr.MDF_OK, progress_array := ∅ }

/-- State after the announcement `ann0` reached a node without session. -/
def s_announced : NodeState :=
  match mupgrade_status K0 env0 (init_state K0 30) ann0 with
  | some (_, s) => s
  | none => init_state K0 30

/-- Session held in `s_announced`. -/
def cfg_announced : Config :=
  { start_time := 7, handle := 5, partition := some 2,
    status := { type := 1, name := "fw.bin", total_size := 1000, written_size := 0,
                error_code := MdfErr.MDF_OK, progress_array := ∅ } }

/-- State after `mupgrade_stop` on the announced session. -/
def s_stopped : NodeState := (mupgrade_stop K0 env0 s_announced).2

/-- First data packet of the worked scenarios. -/
def pkt0 : Packet := { seq := 0, size := 200, data := List.replicate 200 0 }

/-- Status record that the `EXIT` label of `mupgrade_status` leaves and sends. -/
def exit_status (K : Consts) (cfg : Config) (ret : MdfErr) : Status :=
  { cfg.status with
      type := K.MUPGRADE_TYPE_DATA,
      error_code :=
        if cfg.status.error_code = MdfErr.MDF_ERR_MUPGRADE_STOP then MdfErr.MDF_ERR_MUPGRADE_STOP
        else ret }

/-- Calls made by the `EXIT` label of `mupgrade_status`. -/
def exit_calls (K : Consts) (cfg : Config) (ret : MdfErr) : List Call :=
  (if cfg.status.written_size ≠ 0 ∧ cfg.status.written_size ≠ cfg.status.total_size then []
   else if cfg.status.written_size = cfg.status.total_size then
     [Call.mdf_event_loop_send MdfEvent.MDF_EVENT_MUPGRADE_STATUS 100]
   else []) ++
  [Call.mwifi_write (exit_status K cfg ret)
    (decide (cfg.status.written_size ≠ 0 ∧ cfg.status.written_size ≠ cfg.status.total_size))]

/-- The five data packets of the 1000-byte image of the worked scenarios. -/
def chunks0 : List Packet := (List.range 5).map (chunk K0 1000 (fun k => List.replicate 200 k))

/-- State after the five data packets reached the announced session. -/
def s_finished : NodeState :=
  match feed K0 env0 205 s_announced chunks0 with
  | some s => s
  | none => s_announced

/-- State after `pkt0` reached the announced session. -/
def s_first : NodeState :=
  match mupgrade_write K0 env0 s_announced pkt0 205 with
  | some (_, s) => s
  | none => s_announced

/-- State after the announcement `ann0` is repeated on the stopped session. -/
def s_reannounced : NodeState :=
  match mupgrade_status K0 env0 s_stopped ann0 with
  | some (_, s) => s
  | none => s_stopped

/-- Announcement of another firmware: `fw2.bin` of 600 bytes. -/
def ann1 : Status :=
  { type := 2, name := "fw2.bin", total_size := 600, written_size := 0,
    error_code := MdfErr.MDF_OK, progress_array := ∅ }

/-! ## Further observations and scenarios of the upgrade unit -/

/-- Recognises a save of the session record to durable storage. -/
def is_info_save : Call → Bool
  | Call.mdf_info_save _ => true
  | _ => false

/-- Recognises the erasure of the persisted session record. -/
def is_info_erase : Call → Bool
  | Call.mdf_info_erase => true
  | _ => false

/-- Recognises a progress notification. -/
def is_status_event : Call → Bool
  | Call.mdf_event_loop_send MdfEvent.MDF_EVENT_MUPGRADE_STATUS _ => true
  | _ => false

/-- The node is in the root or source role: the test of source line 55. -/
def Env.root_role (env : Env) : Prop :=
  env.esp_mesh_get_type = MeshType.MESH_ROOT ∨ env.esp_mesh_get_type = MeshType.MESH_STA

instance (env : Env) : Decidable env.root_role := by
  unfold Env.root_role
  infer_instance

/-- Session record after `mupgrade_status` adopted the announcement `status`
in the root or station role and the boot selection succeeded. -/
def root_config (K : Consts) (status : Status) : Config :=
  { start_time := 0, handle := 0, partition := none,
    status := { status with type := K.MUPGRADE_TYPE_DATA,
                            written_size := status.total_size,
                            progress_array := bitmap_fill K,
                            error_code :=
                              if status.error_code = MdfErr.MDF_ERR_MUPGRADE_STOP then
                                MdfErr.MDF_ERR_MUPGRADE_STOP
                              else MdfErr.MDF_OK } }

/-- Percentage that `mupgrade_write` computes once `size` more bytes are
counted: `written_size * 100 / total_size` in 32-bit arithmetic. -/
def percentage_after (cfg : Config) (size : Nat) : Nat :=
  ((cfg.status.written_size + size) % U32 * 100 % U32) / cfg.status.total_size

/-- One call of the unit with the results of its collaborators. -/
inductive Op where
  | status (env : Env) (status : Status)
  | write (env : Env) (packet : Packet) (size : Nat)
  | stop (env : Env)

/-- State after one call; `none` when the call leaves defined behaviour. -/
def step (K : Consts) (s : NodeState) : Op → Option NodeState
  | Op.status env status => (mupgrade_status K env s status).map Prod.snd
  | Op.write env packet size => (mupgrade_write K env s packet size).map Prod.snd
  | Op.stop env => some (mupgrade_stop K env s).2

/-- State after a sequence of calls. -/
def run (K : Consts) : NodeState → List Op → Option NodeState
  | s, [] => some s
  | s, op :: ops =>
    match step K s op with
    | some s1 => run K s1 ops
    | none => none

/-- Environment of the worked scenarios in the root role. -/
def env_root : Env := { env0 with esp_mesh_get_type := MeshType.MESH_ROOT }

/-- Environment of the worked scenarios whose partition write fails. -/
def env_wfail : Env := { env0 with esp_partition_write := MdfErr.ESP_FAIL }

/-- Data packet with sequence 5 of 200 bytes: its offset `5 * 200` is the
total size of the image of `ann0`. -/
def pkt5 : Packet := { seq := 5, size := 200, data := List.replicate 200 5 }

/-- Calls of the over-run scenario: the announcement `ann0`, its five data
packets, and `pkt5`. -/
def ops_overrun : List Op :=
  Op.status env0 ann0 :: (chunks0.map (fun p => Op.write env0 p 205) ++ [Op.write env0 pkt5 205])

/-- Session held in `s_finished`. -/
def cfg_finished : Config :=
  match s_finished.g_upgrade_config with
  | some c => c
  | none => cfg_announced

/-- Data packet of 100 bytes, a tenth of the image of `ann0`. -/
def pkt_small : Packet := { seq := 0, size := 100, data := List.replicate 100 0 }

/-- Bytes of an image of `total` bytes that belong to chunk `k`:
`min(MUPGRADE_PACKET_MAX_SIZE, total - k * MUPGRADE_PACKET_MAX_SIZE)`, zero for
a chunk beyond the image. -/
def chunk_room (K : Consts) (total k : Nat) : Nat :=
  min K.MUPGRADE_PACKET_MAX_SIZE (total - k * K.MUPGRADE_PACKET_MAX_SIZE)

/-- Bytes of the image that belong to chunks whose bit is still clear. -/
def free_room (K : Consts) (cfg : Config) : Nat :=
  (Finset.range (bitmap_bits K) \ cfg.status.progress_array).sum
    (chunk_room K cfg.status.total_size)

/-- The bytes counted as written and the bytes of the chunks not yet marked
fit together into the image. -/
def cfg_inv (K : Consts) (cfg : Config) : Prop :=
  cfg.status.written_size + free_room K cfg ≤ cfg.status.total_size

instance (K : Consts) (cfg : Config) : Decidable (cfg_inv K cfg) := by
  unfold cfg_inv
  infer_instance

/-- The cached session, when there is one, satisfies `cfg_inv`. -/
def state_inv (K : Consts) (s : NodeState) : Prop :=
  match s.g_upgrade_config with
  | none => True
  | some cfg => cfg_inv K cfg

instance (K : Consts) (s : NodeState) : Decidable (state_inv K s) := by
  unfold state_inv
  cases s.g_upgrade_config <;> infer_instance

/-- The persisted record that `mdf_info_load` returns, when there is one,
satisfies `cfg_inv`. -/
def loaded_inv (K : Consts) (env : Env) : Prop :=
  match env.mdf_info_load with
  | none => True
  | some c => cfg_inv K c

instance (K : Consts) (env : Env) : Decidable (loaded_inv K env) := by
  unfold loaded_inv
  cases env.mdf_info_load <;> infer_instance

/-- The data packet lies inside the image of the session it meets (the cached
one, or the persisted one when none is cached): it carries at most the bytes
that belong to its chunk. -/
def packet_inside (K : Consts) (env : Env) (s : NodeState) (p : Packet) : Prop :=
  match s.g_upgrade_config with
  | some c => p.size ≤ chunk_room K c.status.total_size p.seq
  | none =>
    match env.mdf_info_load with
    | some c => p.size ≤ chunk_room K c.status.total_size p.seq
    | none => True

instance (K : Consts) (env : Env) (s : NodeState) (p : Packet) :
    Decidable (packet_inside K env s p) := by
  unfold packet_inside
  cases s.g_upgrade_config with
  | some c => infer_instance
  | none => cases env.mdf_info_load <;> infer_instance

/-- Condition on one call: persisted records are sound and data packets lie
inside the image. -/
def op_inside (K : Consts) (s : NodeState) : Op → Prop
  | Op.status env _ => loaded_inv K env
  | Op.write env p _ => loaded_inv K env ∧ packet_inside K env s p
  | Op.stop _ => True

instance (K : Consts) (s : NodeState) (op : Op) : Decidable (op_inside K s op) := by
  cases op <;> unfold op_inside <;> infer_instance

/-- Condition `op_inside` on every call of a sequence, each taken in the state
it meets. -/
def all_inside (K : Consts) : NodeState → List Op → Prop
  | _, [] => True
  | s, op :: ops =>
    op_inside K s op ∧
      match step K s op with
      | some s1 => all_inside K s1 ops
      | none => True

/-- Decision procedure of `all_inside`, along the calls. -/
def all_inside_decidable (K : Consts) : (s : NodeState) → (ops : List Op) →
    Decidable (all_inside K s ops)
  | _, [] => isTrue trivial
  | s, op :: ops =>
    match hst : step K s op with
    | some s1 =>
      match all_inside_decidable K s1 ops with
      | isTrue h2 =>
        if h1 : op_inside K s op then isTrue (by simp only [all_inside, hst]; exact ⟨h1, h2⟩)
        else isFalse (by simp only [all_inside, hst]; exact fun h => h1 h.1)
      | isFalse h2 => isFalse (by simp only [all_inside, hst]; exact fun h => h2 h.2)
    | none =>
      if h1 : op_inside K s op then isTrue (by simp only [all_inside, hst]; exact ⟨h1, trivial⟩)
      else isFalse (by simp only [all_inside, hst]; exact fun h => h1 h.1)

instance (K : Consts) (s : NodeState) (ops : List Op) : Decidable (all_inside K s ops) :=
  all_inside_decidable K s ops

/-- Announcement of an image of 900 bytes: four chunks of 200 bytes and a last
chunk of 100 bytes. -/
def ann900 : Status :=
  { type := 2, name := "fw9.bin", total_size := 900, written_size := 0,
    error_code := MdfErr.MDF_OK, progress_array := ∅ }

/-- Calls of the oversize scenario: the announcement `ann900` and five data
packets of 200 bytes each, the last one 100 bytes longer than its chunk. -/
def ops_oversize : List Op :=
  Op.status env0 ann900 :: chunks0.map (fun p => Op.write env0 p 205)

/-- Calls of the regular scenario: the announcement `ann0` and its five data
packets. -/
def ops_regular : List Op :=
  Op.status env0 ann0 :: chunks0.map (fun p => Op.write env0 p 205)

/-! ## Scenarios of a failed prepare, the threshold and the range test -/

/-- Arguments of the calls of `esp_mesh_set_ap_assoc_expire` in a trace. -/
def assoc_calls : List Call → List Nat
  | [] => []
  | Call.esp_mesh_set_ap_assoc_expire n :: tr => n :: assoc_calls tr
  | _ :: tr => assoc_calls tr

/-- Environment of the worked scenarios whose erase/prepare cycle fails. -/
def env_beginfail : Env := { env0 with esp_ota_begin := MdfErr.ESP_FAIL }

/-- State after the announcement `ann0` reached a node without session while
`esp_ota_begin` failed. -/
def s_unprepared : NodeState :=
  match mupgrade_status K0 env_beginfail (init_state K0 30) ann0 with
  | some (_, s) => s
  | none => init_state K0 30

/-- Session record after `mupgrade_status` adopted the announcement `status`
in a receiving role and `esp_ota_begin` failed. -/
def unprepared_config (K : Consts) (env : Env) (status : Status) : Config :=
  { start_time := env.xTaskGetTickCount, handle := 0,
    partition := env.esp_ota_get_next_update_partition,
    status := { status with type := K.MUPGRADE_TYPE_DATA, written_size := 0,
                            progress_array := ∅,
                            error_code :=
                              if status.error_code = MdfErr.MDF_ERR_MUPGRADE_STOP then
                                MdfErr.MDF_ERR_MUPGRADE_STOP
                              else env.esp_ota_begin } }

/-- Data packet of 60 bytes, a tenth of the image of `ann1`. -/
def pkt60 : Packet := { seq := 0, size := 60, data := List.replicate 60 0 }

/-- Outcome of the announcement `ann1` followed by `pkt60` from state `s`: the
result of the write, the number of saves and of progress notifications it
made, and the threshold it started from. -/
def first_chunk_report (s : NodeState) : Option (MdfErr × Nat × Nat × Nat) :=
  (mupgrade_status K0 env0 s ann1).bind (fun r =>
    (mupgrade_write K0 env0 r.2 pkt60 65).map (fun r2 =>
      (r2.1, (new_calls r.2 r2.2).countP is_info_save,
        (new_calls r.2 r2.2).countP is_status_event, r.2.s_next_written_percentage)))

/-- State after the announcement `ann900` reached a node without session. -/
def s_announced900 : NodeState :=
  match mupgrade_status K0 env0 (init_state K0 30) ann900 with
  | some (_, s) => s
  | none => init_state K0 30

/-- Data packet with sequence 4 of 200 bytes: it starts at offset 800. -/
def pkt4 : Packet := { seq := 4, size := 200, data := List.replicate 200 4 }

end Mupgrade

namespace Mespnow

/-! ## Data model of `mespnow.c` -/

/-- Compile-time constants of `mespnow.h` and `sdkconfig` and the ROM routine
`crc8_le`, none of which is part of the sources; they are parameters of the
model. `g_espnow_queue_size` gives the configured capacity of each pipe. -/
structure Consts where
  MESPNOW_PAYLOAD_LEN : Nat
  CONFIG_MESPNOW_RETRANSMIT_NUM : Nat
  g_espnow_queue_size : Nat → Nat
  crc8_le : Nat → List Nat → Nat

/-- Modelled from the spec: enumerator `MESPNOW_TRANS_PIPE_MAX` of `mespnow.h`
is not in the sources; the channels are debug, control, config and reserved,
in the order of the initialiser of `g_espnow_queue_size`. -/
def MESPNOW_TRANS_PIPE_MAX : Nat := 4

/-- Modelled from the spec: enumerator `MESPNOW_TRANS_PIPE_DEBUG` of
`mespnow.h` is not in the sources; the debug channel is the first one. -/
def MESPNOW_TRANS_PIPE_DEBUG : Nat := 0

/-- Constant `sizeof(mespnow_head_data_t)`: the packed header of 12 bytes. -/
def HEAD_LEN : Nat := 12

/-- Constant `SEND_CB_OK` (`BIT0`). -/
def SEND_CB_OK : Nat := 1

/-- Constant `SEND_CB_FAIL` (`BIT1`). -/
def SEND_CB_FAIL : Nat := 2

/-- Constant `portMAX_DELAY` of the RTOS with 32-bit ticks. -/
def portMAX_DELAY : Nat := U32 - 1

/-- Constant `g_oui`: the two marker bytes. -/
def g_oui : List Nat := [0x4E, 0x4F]

/-- Value `crc8_le(UINT8_MAX, payload, size)`, a `uint8_t`. -/
def crc8 (K : Consts) (bytes : List Nat) : Nat := K.crc8_le 255 bytes % 256

/-! ### Header fields of a raw frame (little-endian, packed) -/

/-- Field `oui` of a raw frame. -/
def hdr_oui (d : List Nat) : List Nat := [d.getD 0 0, d.getD 1 0]

/-- Field `pipe` of a raw frame. -/
def hdr_pipe (d : List Nat) : Nat := d.getD 2 0

/-- Field `crc` of a raw frame. -/
def hdr_crc (d : List Nat) : Nat := d.getD 3 0

/-- Field `seq` of a raw frame. -/
def hdr_seq (d : List Nat) : Nat := d.getD 4 0

/-- Field `size` of a raw frame. -/
def hdr_size (d : List Nat) : Nat := d.getD 5 0

/-- Field `total_size` of a raw frame. -/
def hdr_total_size (d : List Nat) : Nat := d.getD 6 0 + 256 * d.getD 7 0

/-- Field `magic` of a raw frame. -/
def hdr_magic (d : List Nat) : Nat :=
  d.getD 8 0 + 256 * d.getD 9 0 + 65536 * d.getD 10 0 + 16777216 * d.getD 11 0

/-- Bytes `payload[0 .. n)` of a raw frame. Bytes read beyond the received
frame are not determined by the frame; they are taken as zero. -/
def hdr_payload (d : List Nat) (n : Nat) : List Nat :=
  (d.drop HEAD_LEN).take n ++ List.replicate (n - (d.drop HEAD_LEN).length) 0

/-- Header bytes stored by `mespnow_write` into the frame buffer. -/
def encode_head (pipe crc seq size total_size magic : Nat) : List Nat :=
  g_oui ++ [pipe % 256, crc % 256, seq % 256, size % 256,
    total_size % 256, total_size / 256 % 256,
    magic % 256, magic / 256 % 256, magic / 65536 % 256, magic / 16777216 % 256]

/-- Record `mespnow_queue_data_t`: source address and the raw frame. -/
structure QItem where
  addr : List Nat
  data : List Nat
  deriving DecidableEq

/-- Events of `mdf_event_loop_send` raised by this unit. -/
inductive MdfEvent where
  | MDF_EVENT_MESPNOW_RECV
  | MDF_EVENT_MESPNOW_SEND
  deriving DecidableEq

/-- One collaborator call with its arguments. -/
inductive Call where
  | xSemaphoreTake (ticks : Nat)
  | xSemaphoreGive
  | esp_now_send (dest : List Nat) (frame : List Nat)
  | xEventGroupWaitBits (ticks : Nat)
  | xQueueReceive (pipe : Nat) (ticks : Nat)
  | mdf_event_loop_send (ev : MdfEvent) (pipe : Nat)
  deriving DecidableEq

/-- File-scope statics of `mespnow.c` after `mespnow_init`, with the events
raised so far. -/
structure State where
  g_espnow_init_flag : Bool
  g_last_magic : Nat → Nat
  g_espnow_queue : Nat → List QItem
  events : List Call

/-- State after `mespnow_init`: empty queues and zeroed dedup tokens. -/
def init_state : State :=
  { g_espnow_init_flag := true, g_last_magic := fun _ => 0,
    g_espnow_queue := fun _ => [], events := [] }

/-! ## `mespnow_recv_cb` -/

/-- Function `mespnow_recv_cb` (source lines 97-161). The driver passes a
source address and the received bytes; `malloc_ok` is the result of the
allocation of the queue item. -/
def mespnow_recv_cb (K : Consts) (malloc_ok : Bool) (s : State) (addr data : List Nat) : State :=
  if data.length < HEAD_LEN then s
  else if hdr_pipe data ≥ MESPNOW_TRANS_PIPE_MAX then s
  else if hdr_oui data ≠ g_oui then s
  else if s.g_last_magic (hdr_pipe data) = hdr_magic data then s
  else
    let s1 : State :=
      { s with g_last_magic := Function.update s.g_last_magic (hdr_pipe data) (hdr_magic data) }
    if hdr_crc data ≠ crc8 K (hdr_payload data (hdr_size data)) then s1
    else
      let s2 : State :=
        if hdr_seq data = 0 ∧ hdr_pipe data ≠ MESPNOW_TRANS_PIPE_DEBUG then
          { s1 with events := s1.events ++
              [Call.mdf_event_loop_send MdfEvent.MDF_EVENT_MESPNOW_RECV (hdr_pipe data)] }
        else s1
      if K.g_espnow_queue_size (hdr_pipe data) ≤ (s2.g_espnow_queue (hdr_pipe data)).length then s2
      else if !malloc_ok then s2
      else
        let q_data : QItem := { addr := addr, data := data }
        let queue := s2.g_espnow_queue (hdr_pipe data) ++ [q_data]
        { s2 with g_espnow_queue := Function.update s2.g_espnow_queue (hdr_pipe data) queue }

/-- Frames handed to `mespnow_recv_cb` one after the other, in list order. -/
def deliver (K : Consts) (malloc_ok : Bool) (s : State) (addr : List Nat)
    (frames : List (List Nat)) : State :=
  frames.foldl (fun st f => mespnow_recv_cb K malloc_ok st addr f) s

/-! ## `mespnow_write` -/

/-- Results the collaborators give during one call of `mespnow_write`:
functions of the number of the call (`esp_now_send`, `xEventGroupWaitBits`,
`esp_random`) or of the reading (`xTaskGetTickCount`). -/
structure WriteEnv where
  xSemaphoreTake : Bool
  malloc_ok : Bool
  esp_now_send : Nat → MdfErr
  xEventGroupWaitBits : Nat → Nat
  esp_random : Nat → Nat
  xTaskGetTickCount : Nat → Nat

/-- Difference of two `uint32_t` values. -/
def sub32 (a b : Nat) : Nat := (a % U32 + U32 - b % U32) % U32

/-- Expression used for `write_ticks` and `recv_ticks`:
`(wait_ticks == portMAX_DELAY) ? portMAX_DELAY :
 xTaskGetTickCount() - start_ticks < wait_ticks ?
 wait_ticks - (xTaskGetTickCount() - start_ticks) : 0`,
with `now1` and `now2` the two readings of the tick counter. -/
def remaining_ticks (wait_ticks start_ticks now1 now2 : Nat) : Nat :=
  if wait_ticks = portMAX_DELAY then portMAX_DELAY
  else if sub32 now1 start_ticks < wait_ticks then sub32 wait_ticks (sub32 now2 start_ticks)
  else 0

/-- Value of the `c`-th evaluation of the deadline expression in a call whose
tick readings are `tick`: reading 0 is `start_ticks`, evaluation `c` takes
readings `2c+1` and `2c+2`. -/
def ticks_at (tick : Nat → Nat) (wait_ticks c : Nat) : Nat :=
  remaining_ticks wait_ticks (tick 0 % U32) (tick (2 * c + 1)) (tick (2 * c + 2))

/-- Outcome of the inner `do ... while` of `mespnow_write` for one frame. -/
structure Attempts where
  ret : MdfErr
  acked : Bool
  k : Nat
  c : Nat
  trace : List Call

/-- Inner loop of `mespnow_write` (source lines 257-270) for one frame:
`k` counts the calls of `esp_now_send`, `c` the evaluations of the deadline.
With a budget of zero the counter is decremented below zero; the model gives
`none` when that attempt is not acknowledged. -/
def send_attempts (env : WriteEnv) (dest frame : List Nat) (wait_ticks : Nat) :
    (retry_count : Nat) → (write_ticks k c : Nat) → List Call → Option Attempts
  | 0, write_ticks, k, c, tr =>
    let tr1 := tr ++ [Call.esp_now_send dest frame]
    if env.esp_now_send k ≠ MdfErr.MDF_OK then
      some { ret := env.esp_now_send k, acked := false, k := k + 1, c := c, trace := tr1 }
    else
      let tr2 := tr1 ++ [Call.xEventGroupWaitBits write_ticks]
      if env.xEventGroupWaitBits k &&& SEND_CB_OK = SEND_CB_OK then
        some { ret := MdfErr.MDF_OK, acked := true, k := k + 1, c := c + 1, trace := tr2 }
      else none
  | r + 1, write_ticks, k, c, tr =>
    let tr1 := tr ++ [Call.esp_now_send dest frame]
    if env.esp_now_send k ≠ MdfErr.MDF_OK then
      some { ret := env.esp_now_send k, acked := false, k := k + 1, c := c, trace := tr1 }
    else
      let tr2 := tr1 ++ [Call.xEventGroupWaitBits write_ticks]
      if env.xEventGroupWaitBits k &&& SEND_CB_OK = SEND_CB_OK then
        some { ret := MdfErr.MDF_OK, acked := true, k := k + 1, c := c + 1, trace := tr2 }
      else if r = 0 then
        some { ret := MdfErr.MDF_OK, acked := false, k := k + 1, c := c + 1, trace := tr2 }
      else
        send_attempts env dest frame wait_ticks r (ticks_at env.xTaskGetTickCount wait_ticks c)
          (k + 1) (c + 1) tr2

/-- Outer `do ... while (write_size > 0)` of `mespnow_write` (source lines
244-281). `data` is what the advancing pointer still covers, so `write_size`
is its length; `i` counts the frames, the `seq` field is `i` as a `uint8_t`.
Each turn consumes `MESPNOW_PAYLOAD_LEN` bytes; the result is `none` when
`fuel` turns do not finish the loop. -/
def write_frames (K : Consts) (env : WriteEnv) (pipe : Nat) (dest : List Nat)
    (total_size wait_ticks : Nat) :
    (fuel : Nat) → (data : List Nat) → (i k c : Nat) → List Call → Option (MdfErr × List Call)
  | 0, _, _, _, _, _ => none
  | fuel + 1, data, i, k, c, tr =>
    let write_ticks := ticks_at env.xTaskGetTickCount wait_ticks c
    let size := min data.length K.MESPNOW_PAYLOAD_LEN % 256
    let crc := crc8 K (data.take size)
    let magic := env.esp_random i % U32
    let frame := encode_head pipe crc i size total_size magic ++ data.take size
    match send_attempts env dest frame wait_ticks K.CONFIG_MESPNOW_RETRANSMIT_NUM
        write_ticks k (c + 1) tr with
    | none => none
    | some a =>
      if a.ret ≠ MdfErr.MDF_OK then some (a.ret, a.trace)
      else if !a.acked then some (MdfErr.ESP_FAIL, a.trace)
      else if data.length > K.MESPNOW_PAYLOAD_LEN then
        write_frames K env pipe dest total_size wait_ticks fuel
          (data.drop K.MESPNOW_PAYLOAD_LEN) (i + 1) a.k a.c a.trace
      else some (MdfErr.MDF_OK, a.trace)

/-- Function `mespnow_write` (source lines 211-297): the return value and the
collaborator calls in program order. `data` is the message, `size` its
length. -/
def mespnow_write (K : Consts) (env : WriteEnv) (s : State) (pipe : Nat) (dest data : List Nat)
    (wait_ticks : Nat) : Option (MdfErr × List Call) :=
  if data.length = 0 then some (MdfErr.MDF_ERR_INVALID_ARG, [])
  else if ¬ pipe < MESPNOW_TRANS_PIPE_MAX then some (MdfErr.MDF_ERR_INVALID_ARG, [])
  else if !s.g_espnow_init_flag then some (MdfErr.ESP_ERR_ESPNOW_NOT_INIT, [])
  else
    let tr0 := [Call.xSemaphoreTake wait_ticks]
    if !env.xSemaphoreTake then some (MdfErr.MDF_ERR_TIMEOUT, tr0)
    else if !env.malloc_ok then some (MdfErr.MDF_ERR_NO_MEM, tr0)
    else
      match write_frames K env pipe dest (data.length % 65536) wait_ticks
          data.length data 0 0 0 tr0 with
      | none => none
      | some (ret, tr) =>
        if ret ≠ MdfErr.MDF_OK then some (ret, tr ++ [Call.xSemaphoreGive])
        else if pipe ≠ MESPNOW_TRANS_PIPE_DEBUG then
          some (MdfErr.MDF_OK,
            tr ++ [Call.mdf_event_loop_send MdfEvent.MDF_EVENT_MESPNOW_SEND pipe,
                   Call.xSemaphoreGive])
        else some (MdfErr.MDF_OK, tr ++ [Call.xSemaphoreGive])

/-- Frames handed to `esp_now_send`, in program order. -/
def radio_frames : List Call → List (List Nat)
  | [] => []
  | Call.esp_now_send _ frame :: tr => frame :: radio_frames tr
  | _ :: tr => radio_frames tr

/-! ## `mespnow_read` -/

/-- Result of `mespnow_read`: return value, the bytes stored into `src_addr`
and into `data` from offset zero on, the value left in `*size`, the queue of
the pipe afterwards and the waits passed to `xQueueReceive`. -/
structure ReadResult where
  ret : MdfErr
  src_addr : List Nat
  data : List Nat
  size : Nat
  queue : List QItem
  trace : List Call
  deriving DecidableEq

/-- First loop of `mespnow_read` (source lines 321-341): dequeue until a
frame with `seq == 0` and `*size > total_size` shows up; an empty queue ends
the wait with a timeout. Gives the frame, the rest of the queue, the number
of deadline evaluations and the trace. -/
def read_first (tick : Nat → Nat) (pipe size wait_ticks : Nat) :
    List QItem → Nat → List Call → Option (QItem × List QItem × Nat) × List Call
  | [], c, tr => (none, tr ++ [Call.xQueueReceive pipe (ticks_at tick wait_ticks c)])
  | q :: rest, c, tr =>
    let tr1 := tr ++ [Call.xQueueReceive pipe (ticks_at tick wait_ticks c)]
    if hdr_seq q.data = 0 ∧ size > hdr_total_size q.data then (some (q, rest, c + 1), tr1)
    else read_first tick pipe size wait_ticks rest (c + 1) tr1

/-- Second loop of `mespnow_read` (source lines 349-373):
`for (expect_seq = 1; read_size < total_size; expect_seq++)`. -/
def read_rest (tick : Nat → Nat) (pipe size wait_ticks total_size : Nat) (src : List Nat) :
    List QItem → (expect_seq read_size c : Nat) → (buf : List Nat) → List Call → ReadResult
  | [], _, read_size, c, buf, tr =>
    if read_size < total_size then
      { ret := MdfErr.MDF_ERR_TIMEOUT, src_addr := src, data := buf, size := size, queue := [],
        trace := tr ++ [Call.xQueueReceive pipe (ticks_at tick wait_ticks c)] }
    else
      { ret := MdfErr.MDF_OK, src_addr := src, data := buf, size := read_size, queue := [],
        trace := tr }
  | q :: rest, expect_seq, read_size, c, buf, tr =>
    if read_size < total_size then
      let tr1 := tr ++ [Call.xQueueReceive pipe (ticks_at tick wait_ticks c)]
      if hdr_seq q.data ≠ expect_seq then
        { ret := MdfErr.ESP_FAIL, src_addr := src, data := buf, size := size, queue := rest,
          trace := tr1 }
      else
        read_rest tick pipe size wait_ticks total_size src rest (expect_seq + 1)
          (read_size + hdr_size q.data) (c + 1)
          (buf ++ hdr_payload q.data (hdr_size q.data)) tr1
    else
      { ret := MdfErr.MDF_OK, src_addr := src, data := buf, size := read_size,
        queue := q :: rest, trace := tr }

/-- Function `mespnow_read` (source lines 299-377) on the pipe whose queue
holds `s.g_espnow_queue pipe`; `size` is the capacity the caller passes in
`*size` and `tick` the readings of the tick counter. A wait on the empty queue
runs into the timeout. -/
def mespnow_read (s : State) (tick : Nat → Nat) (pipe size wait_ticks : Nat) : ReadResult :=
  let q0 := s.g_espnow_queue pipe
  if size = 0 then
    { ret := MdfErr.MDF_ERR_INVALID_ARG, src_addr := [], data := [], size := size, queue := q0,
      trace := [] }
  else if ¬ pipe < MESPNOW_TRANS_PIPE_MAX then
    { ret := MdfErr.MDF_ERR_INVALID_ARG, src_addr := [], data := [], size := size, queue := q0,
      trace := [] }
  else if !s.g_espnow_init_flag then
    { ret := MdfErr.ESP_ERR_ESPNOW_NOT_INIT, src_addr := [], data := [], size := size,
      queue := q0, trace := [] }
  else
    match read_first tick pipe size wait_ticks q0 0 [] with
    | (none, tr) =>
      { ret := MdfErr.MDF_ERR_TIMEOUT, src_addr := [], data := [], size := size, queue := [],
        trace := tr }
    | (some (q, rest, c), tr) =>
      read_rest tick pipe size wait_ticks (hdr_total_size q.data) q.addr rest 1
        (hdr_size q.data) c (hdr_payload q.data (hdr_size q.data)) tr

/-! ## Observations and scenarios of the transport unit -/

/-- A received frame that `mespnow_recv_cb` decodes for channel `pipe`: it
holds a whole header, names that channel, carries the marker, and its checksum
byte matches its payload. -/
def well_formed (K : Consts) (pipe : Nat) (d : List Nat) : Prop :=
  HEAD_LEN ≤ d.length ∧ hdr_pipe d = pipe ∧ pipe < MESPNOW_TRANS_PIPE_MAX ∧
  hdr_oui d = g_oui ∧ hdr_crc d = crc8 K (hdr_payload d (hdr_size d))

instance (K : Consts) (pipe : Nat) (d : List Nat) : Decidable (well_formed K pipe d) := by
  unfold well_formed
  infer_instance

/-- The queued frames carry the sequence numbers `e`, `e + 1`, ... in order. -/
def in_sequence : Nat → List QItem → Prop
  | _, [] => True
  | e, q :: rest => hdr_seq q.data = e ∧ in_sequence (e + 1) rest

instance in_sequence_decidable : (e : Nat) → (l : List QItem) → Decidable (in_sequence e l)
  | _, [] => isTrue trivial
  | e, q :: rest =>
    have := in_sequence_decidable (e + 1) rest
    inferInstanceAs (Decidable (hdr_seq q.data = e ∧ in_sequence (e + 1) rest))

/-- Sum of the `size` fields of queued frames. -/
def sizes_sum : List QItem → Nat
  | [] => 0
  | q :: rest => hdr_size q.data + sizes_sum rest

/-- The first loop of `mespnow_read` discards the queued frame: it is not a
first fragment, or its `total_size` does not fit below the capacity `size`. -/
def discarded (size : Nat) (q : QItem) : Prop :=
  ¬ (hdr_seq q.data = 0 ∧ size > hdr_total_size q.data)

instance (size : Nat) (q : QItem) : Decidable (discarded size q) := by
  unfold discarded
  infer_instance

/-- Bytes `[i * MESPNOW_PAYLOAD_LEN, (i + 1) * MESPNOW_PAYLOAD_LEN)` of a message. -/
def slice (K : Consts) (msg : List Nat) (i : Nat) : List Nat :=
  (msg.drop (i * K.MESPNOW_PAYLOAD_LEN)).take K.MESPNOW_PAYLOAD_LEN

/-- Number of frames of a message of `len` bytes: `ceil(len / MESPNOW_PAYLOAD_LEN)`. -/
def frame_count (K : Consts) (len : Nat) : Nat :=
  (len + K.MESPNOW_PAYLOAD_LEN - 1) / K.MESPNOW_PAYLOAD_LEN

/-- Frame number `i` that a fragmenting sender is expected to put on the air
for `msg`: header with the checksum of the slice, the index as sequence, the
slice length, the message length and the token `rand i`, then the slice. -/
def frame_of (K : Consts) (pipe : Nat) (msg : List Nat) (rand : Nat → Nat) (i : Nat) : List Nat :=
  encode_head pipe (crc8 K (slice K msg i)) i (slice K msg i).length (msg.length % 65536)
    (rand i % U32) ++ slice K msg i

/-- Constants of the worked scenarios: payloads of 4 bytes, three attempts,
queues of 8 frames, and a byte sum in place of the ROM checksum. -/
def K0 : Consts :=
  { MESPNOW_PAYLOAD_LEN := 4, CONFIG_MESPNOW_RETRANSMIT_NUM := 3,
    g_espnow_queue_size := fun _ => 8,
    crc8_le := fun crc bytes => (crc + bytes.sum) % 256 }

/-- Sender environment of the worked scenarios: the lock and the buffer are
obtained, every transmission is acknowledged, the tokens are 1, 2, 3, ... -/
def wenv0 : WriteEnv :=
  { xSemaphoreTake := true, malloc_ok := true,
    esp_now_send := fun _ => MdfErr.MDF_OK,
    xEventGroupWaitBits := fun _ => SEND_CB_OK,
    esp_random := fun i => i + 1,
    xTaskGetTickCount := fun j => 100 + j }

/-- Message of the worked scenarios: ten bytes, two full payloads and a rest. -/
def msg0 : List Nat := [10, 11, 12, 13, 14, 15, 16, 17, 18, 19]

/-- Source address of the worked scenarios. -/
def addr0 : List Nat := [2, 0, 0, 0, 0, 1]

/-- Frame `A` of the worked scenarios: control channel, token 7. -/
def frameA : List Nat := frame_of K0 1 [1, 2, 3] (fun _ => 7) 0

/-- Frame `B` of the worked scenarios: control channel, token 9. -/
def frameB : List Nat := frame_of K0 1 [4, 5] (fun _ => 9) 0

/-- Queue item holding frame `i` of `msg0` with the tokens of `wenv0`. -/
def item0 (i : Nat) : QItem := { addr := addr0, data := frame_of K0 1 msg0 wenv0.esp_random i }

/-- Receiver whose control queue holds frames 0 and 2 of `msg0`: frame 1 was
lost on the air. -/
def s_gap : State :=
  { init_state with
      g_espnow_queue := fun p => if p = 1 then [item0 0, item0 2] else [] }

/-! ## Further scenarios of the transport unit -/

/-- Frame of the control channel whose checksum byte (0) does not match its
payload. -/
def frame_badcrc : List Nat := encode_head 1 0 0 3 3 7 ++ [1, 2, 3]

/-- Sender environment in which no completion signal ever arrives: the lock
and the buffer are obtained, `esp_now_send` succeeds, every wait returns no
bit; the budget of 50 ticks is used up by the first wait. -/
def wenv_silent : WriteEnv :=
  { xSemaphoreTake := true, malloc_ok := true,
    esp_now_send := fun _ => MdfErr.MDF_OK,
    xEventGroupWaitBits := fun _ => 0,
    esp_random := fun i => i + 1,
    xTaskGetTickCount := fun j => if j ≤ 2 then 100 else 150 }

/-- Sender environment in which the send lock is not obtained in time. -/
def wenv_locked : WriteEnv := { wenv0 with xSemaphoreTake := false }

/-- Receiver whose control queue holds only the first frame of `msg0`, which
declares a total of ten bytes. -/
def s_one : State :=
  { init_state with g_espnow_queue := fun p => if p = 1 then [item0 0] else [] }

/-- Message of six bytes: one full payload and a rest of two bytes. -/
def msgA : List Nat := [1, 2, 3, 4, 5, 6]

/-- Queue item holding the first frame of `msgA`. -/
def itemA0 : QItem := { addr := addr0, data := frame_of K0 1 msgA (fun _ => 40) 0 }

/-- Receiver whose control queue holds the first frame of `msgA` followed by
the second frame of `msg0`: the frames between them were lost. -/
def s_mixed : State :=
  { init_state with g_espnow_queue := fun p => if p = 1 then [itemA0, item0 1] else [] }

/-- Tick readings of a call that starts at tick 0 and is pre-empted between
the two readings of its first deadline evaluation: 9, then 12. -/
def tick_race : Nat → Nat
  | 0 => 0
  | 1 => 9
  | _ => 12

/-! ## Retries, the send lock and the peer list -/

/-- Transmission number `k` of a call of `mespnow_write` is signalled
successful: `esp_now_send` accepted the frame and the wait on the event group
returned `SEND_CB_OK`. -/
def acked (env : WriteEnv) (k : Nat) : Prop :=
  env.esp_now_send k = MdfErr.MDF_OK ∧ env.xEventGroupWaitBits k &&& SEND_CB_OK = SEND_CB_OK

instance (env : WriteEnv) (k : Nat) : Decidable (acked env k) := by
  unfold acked
  infer_instance

/-- Frames on the air when the frames `f i`, `f (i + 1)`, ... are transmitted
`ns` times each, one after the other. -/
def repeated (f : Nat → List Nat) : Nat → List Nat → List (List Nat)
  | _, [] => []
  | i, n :: ns => List.replicate n (f i) ++ repeated f (i + 1) ns

/-- Sender environment in which the frame buffer cannot be allocated. -/
def wenv_nomem : WriteEnv := { wenv0 with malloc_ok := false }

/-- Well-formed frame of the control channel whose dedup token is 0. -/
def frame_zero : List Nat := frame_of K0 1 [1, 2, 3] (fun _ => 0) 0

/-- Constants with payloads of one byte and queues of 300 entries: a message
of 257 bytes takes 257 frames. -/
def K1 : Consts := { K0 with MESPNOW_PAYLOAD_LEN := 1, g_espnow_queue_size := fun _ => 300 }

/-- Message of 257 bytes. -/
def msg257 : List Nat := List.replicate 257 1

/-- Message of 65536 bytes. -/
def msg65536 : List Nat := List.replicate 65536 1

/-! ## `mespnow_add_peer` -/

/-- Results the collaborators give during one call of `mespnow_add_peer`. -/
structure PeerEnv where
  esp_now_del_peer : MdfErr
  esp_wifi_get_channel : MdfErr
  esp_now_add_peer : MdfErr

/-- Function `mespnow_add_peer` (source lines 163-194). The peer list of the
ESP-NOW driver is kept as the list of the addresses it holds:
`esp_now_is_peer_exist` is membership, a successful `esp_now_del_peer` removes
the address and a successful `esp_now_add_peer` inserts it. `addr` is `none`
for a `NULL` pointer. The interface and the key only fill the peer record and
are left out. -/
def mespnow_add_peer (env : PeerEnv) (peers : List (List Nat)) (addr : Option (List Nat)) :
    MdfErr × List (List Nat) :=
  match addr with
  | none => (MdfErr.MDF_ERR_INVALID_ARG, peers)
  | some a =>
    if a ∈ peers then
      if env.esp_now_del_peer ≠ MdfErr.MDF_OK then (env.esp_now_del_peer, peers)
      else (MdfErr.MDF_OK, peers.filter (fun x => decide (x ≠ a)))
    else if env.esp_wifi_get_channel ≠ MdfErr.MDF_OK then (env.esp_wifi_get_channel, peers)
    else if env.esp_now_add_peer ≠ MdfErr.MDF_OK then (env.esp_now_add_peer, peers)
    else (MdfErr.MDF_OK, a :: peers)

/-- Collaborators of `mespnow_add_peer` that all succeed. -/
def penv0 : PeerEnv :=
  { esp_now_del_peer := MdfErr.MDF_OK, esp_wifi_get_channel := MdfErr.MDF_OK,
    esp_now_add_peer := MdfErr.MDF_OK }

/-! ## Scenarios of the round trip -/

/-- Receiver whose control queue still holds the first frame of the earlier
message `msgA` (token 40, the token accepted last on the channel). -/
def s_stale : State :=
  { init_state with
      g_last_magic := fun p => if p = 1 then 40 else 0,
      g_espnow_queue := fun p => if p = 1 then [itemA0] else [] }

/-- Receiver whose control queue still holds the last frame of an earlier
message, a frame with sequence 2. -/
def s_tail : State :=
  { init_state with g_espnow_queue := fun p => if p = 1 then [item0 2] else [] }

/-- Sender environment in which the first transmission stays without
completion signal and every later one is acknowledged. -/
def wenv_retry : WriteEnv :=
  { wenv0 with xEventGroupWaitBits := fun k => if k = 0 then SEND_CB_FAIL else SEND_CB_OK }

/-- Calls made by `mespnow_write` for `msg0` in the environment `wenv_retry`. -/
def tr_retry : List Call :=
  match mespnow_write K0 wenv_retry init_state 1 addr0 msg0 50 with
  | some (_, tr) => tr
  | none => []

end Mespnow

/-! # Theorems about the upgrade unit -/

namespace Mupgrade

/-! ### Helper lemmas -/

theorem exit_eq (K : Consts) (env : Env) (s : NodeState) (cfg : Config) (ret : MdfErr) :
    mupgrade_status_exit K env s cfg ret =
      (env.mwifi_write,
        { s with g_upgrade_config := some { cfg with status := exit_status K cfg ret },
                 trace := s.trace ++ exit_calls K cfg ret }) := by
  unfold mupgrade_status_exit exit_calls exit_status
  simp only [NodeState.log]
  split_ifs <;> simp_all

theorem exit_calls_counts (K : Consts) (cfg : Config) (ret : MdfErr) :
    (exit_calls K cfg ret).countP is_ota_begin = 0 ∧
    (exit_calls K cfg ret).countP is_mwifi_write = 1 ∧
    (exit_calls K cfg ret).countP is_partition_write = 0 ∧
    (exit_calls K cfg ret).countP is_finish_event = 0 ∧
    boot_calls (exit_calls K cfg ret) = [] := by
  unfold exit_calls
  split_ifs <;> simp [is_ota_begin, is_mwifi_write, is_partition_write, is_finish_event, boot_calls]

theorem status_same (K : Consts) (env : Env) (s : NodeState) (cfg : Config) (status : Status)
    (h : s.g_upgrade_config = some cfg) (hsame : same_firmware cfg status) :
    mupgrade_status K env s status =
      some (env.mwifi_write,
        { s with g_upgrade_config :=
                   some { cfg with status := exit_status K cfg MdfErr.MDF_OK },
                 trace := s.trace ++ exit_calls K cfg MdfErr.MDF_OK }) := by
  obtain ⟨h1, h2⟩ := hsame
  simp [mupgrade_status, h, h1, h2, exit_eq]

theorem status_new_receiving (K : Consts) (env : Env) (s : NodeState) (status : Status)
    (henv : env.all_ok) (hrole : env.receiving) :
    (mupgrade_status_new K env s status).1 = MdfErr.MDF_OK ∧
    (mupgrade_status_new K env s status).2.g_upgrade_config
      = some (fresh_config K env status) ∧
    (mupgrade_status_new K env s status).2.g_upgrade_finished_flag = false ∧
    (mupgrade_status_new K env s status).2.s_next_written_percentage
      = s.s_next_written_percentage := by
  obtain ⟨_, h2, h3, h4, _, h6, h7, h8⟩ := henv
  obtain ⟨r1, r2⟩ := hrole
  simp [mupgrade_status_new, r1, r2, h3, h4, h7, h8, exit_eq, h6, NodeState.log, fresh_config,
    exit_status, bitmap_clear]

theorem announce_fresh (K : Consts) (env : Env) (s : NodeState) (status : Status)
    (henv : env.all_ok) (hrole : env.receiving)
    (hnew : ¬ same_firmware (session_of env s) status) :
    ∃ s1, mupgrade_status K env s status = some (MdfErr.MDF_OK, s1) ∧
      s1.g_upgrade_config = some (fresh_config K env status) ∧
      s1.g_upgrade_finished_flag = false := by
  have hcal : env.calloc_ok = true := henv.1
  cases hc : s.g_upgrade_config with
  | none =>
    have hn : ¬ ((load_config env).status.name = status.name ∧
        (load_config env).status.total_size = status.total_size) := by
      simpa [same_firmware, session_of, hc] using hnew
    obtain ⟨e1, e2, e3, _⟩ := status_new_receiving K env
      { s with g_upgrade_config := some (load_config env) } status henv hrole
    refine ⟨_, ?_, e2, e3⟩
    simp only [mupgrade_status, hc, hcal, if_true, hn, if_false, ← e1]
  | some cfg =>
    have hn : ¬ (cfg.status.name = status.name ∧
        cfg.status.total_size = status.total_size) := by
      simpa [same_firmware, session_of, hc] using hnew
    obtain ⟨e1, e2, e3, _⟩ := status_new_receiving K env
      { s with g_upgrade_config := some cfg } status henv hrole
    refine ⟨_, ?_, e2, e3⟩
    simp only [mupgrade_status, hc, hn, if_false, ← e1]

theorem progress_spec (K : Consts) (s : NodeState) (cfg : Config) :
    ∃ nxt ext, mupgrade_write_progress K s cfg
        = { s with s_next_written_percentage := nxt, trace := s.trace ++ ext } ∧
      ext.countP is_finish_event = 0 ∧ boot_calls ext = [] ∧
      ext.countP is_partition_write = 0 := by
  unfold mupgrade_write_progress
  simp only [NodeState.log]
  split_ifs
  · exact ⟨(s.s_next_written_percentage + K.CONFIG_MUPGRADE_STATUS_REPORT_INTERVAL) % U32,
      [Call.mdf_info_save cfg,
        Call.mdf_event_loop_send MdfEvent.MDF_EVENT_MUPGRADE_STATUS
          (cfg.status.written_size * 100 % U32 / cfg.status.total_size)],
      by simp, by simp [is_finish_event], by simp [boot_calls], by simp [is_partition_write]⟩
  · exact ⟨_, [], by simp only [List.append_nil]; rfl, by simp, by simp [boot_calls], by simp⟩
  · exact ⟨s.s_next_written_percentage, [], by simp, by simp, by simp [boot_calls], by simp⟩

theorem progress_config (K : Consts) (s : NodeState) (cfg : Config) :
    (mupgrade_write_progress K s cfg).g_upgrade_config = s.g_upgrade_config ∧
    (mupgrade_write_progress K s cfg).g_upgrade_finished_flag = s.g_upgrade_finished_flag := by
  obtain ⟨nxt, ext, h, _⟩ := progress_spec K s cfg
  rw [h]
  exact ⟨rfl, rfl⟩

theorem finish_ok_config (env : Env) (s s1 : NodeState) (cfg : Config)
    (h : mupgrade_write_finish env s cfg = (MdfErr.MDF_OK, s1)) :
    s1.g_upgrade_config = s.g_upgrade_config := by
  unfold mupgrade_write_finish at h
  simp only [NodeState.log] at h
  split_ifs at h with h1 h2
  · simp only [Prod.mk.injEq] at h
    exact absurd h.1 h1
  · simp only [Prod.mk.injEq] at h
    exact absurd h.1 h2
  · simp only [Prod.mk.injEq] at h
    rw [← h.2]

theorem write_duplicate (K : Consts) (env : Env) (s : NodeState) (cfg : Config) (p : Packet)
    (size : Nat) (h : s.g_upgrade_config = some cfg)
    (hact : cfg.status.error_code ≠ MdfErr.MDF_ERR_MUPGRADE_STOP) (hsz : size ≠ 0)
    (hin : ¬ p.seq * K.MUPGRADE_PACKET_MAX_SIZE > cfg.status.total_size)
    (hbit : p.seq < bitmap_bits K) (hset : p.seq ∈ cfg.status.progress_array) :
    mupgrade_write K env s p size = some (MdfErr.MDF_OK, s) := by
  have hb : ¬ bitmap_bits K ≤ p.seq := by omega
  simp [mupgrade_write, h, hact, hsz, mupgrade_write_active, hin, hb, MUPGRADE_GET_BITS, hset]

theorem active_ok_inv (K : Consts) (env : Env) (s s1 : NodeState) (cfg : Config) (p : Packet)
    (h : s.g_upgrade_config = some cfg)
    (h1 : mupgrade_write_active K env s cfg p = some (MdfErr.MDF_OK, s1)) :
    ∃ cfg1, s1.g_upgrade_config = some cfg1 ∧
      cfg1.status.error_code = cfg.status.error_code ∧
      cfg1.status.total_size = cfg.status.total_size ∧
      p.seq ∈ cfg1.status.progress_array ∧ p.seq < bitmap_bits K ∧
      ¬ p.seq * K.MUPGRADE_PACKET_MAX_SIZE > cfg.status.total_size := by
  unfold mupgrade_write_active at h1
  simp only [NodeState.log] at h1
  split_ifs at h1 with c1 c2 c3 c4 c5 c6
  · simp at h1
  · simp only [Option.some.injEq, Prod.mk.injEq, true_and] at h1
    subst h1
    refine ⟨cfg, h, rfl, rfl, ?_, by omega, c1⟩
    simpa [MUPGRADE_GET_BITS] using c3
  · simp at h1
  · simp only [Option.some.injEq] at h1
    have hc := finish_ok_config env _ s1 _ h1
    rw [(progress_config K _ _).1] at hc
    exact ⟨_, hc, rfl, rfl, by simp [MUPGRADE_SET_BITS], by omega, c1⟩
  · simp only [Option.some.injEq, Prod.mk.injEq, true_and] at h1
    subst h1
    rw [(progress_config K _ _).1]
    exact ⟨_, rfl, rfl, rfl, by simp [MUPGRADE_SET_BITS], by omega, c1⟩

theorem boot_calls_append (a b : List Call) : boot_calls (a ++ b) = boot_calls a ++ boot_calls b := by
  induction a with
  | nil => rfl
  | cons c a ih => cases c <;> simp [boot_calls, ih]

theorem finish_ok (env : Env) (s : NodeState) (cfg : Config)
    (h2 : env.esp_ota_set_boot_partition = MdfErr.MDF_OK) (h6 : env.mwifi_write = MdfErr.MDF_OK) :
    mupgrade_write_finish env s cfg =
      (MdfErr.MDF_OK,
        { s with g_upgrade_finished_flag := true,
                 trace := s.trace ++ [Call.esp_ota_end cfg.handle, Call.mdf_info_erase,
                   Call.esp_ota_set_boot_partition env.esp_ota_get_next_update_partition,
                   Call.mdf_event_loop_send MdfEvent.MDF_EVENT_MUPGRADE_FINISH 0,
                   Call.mwifi_write cfg.status false] }) := by
  simp [mupgrade_write_finish, h2, h6, NodeState.log]

theorem write_unfold (K : Consts) (env : Env) (s : NodeState) (cfg cfg1 : Config) (p : Packet)
    (size : Nat) (h : s.g_upgrade_config = some cfg)
    (hact : cfg.status.error_code ≠ MdfErr.MDF_ERR_MUPGRADE_STOP) (hsz : size ≠ 0)
    (hin : p.seq * K.MUPGRADE_PACKET_MAX_SIZE ≤ cfg.status.total_size)
    (hbit : p.seq < bitmap_bits K) (hnew : p.seq ∉ cfg.status.progress_array)
    (h5 : env.esp_partition_write = MdfErr.MDF_OK) (ht : cfg.status.total_size ≠ 0)
    (hcfg1 : cfg1 = { cfg with status :=
        { cfg.status with
            progress_array := insert p.seq cfg.status.progress_array,
            written_size := (cfg.status.written_size + p.size) % U32 } }) :
    mupgrade_write K env s p size =
      if cfg1.status.written_size = cfg1.status.total_size then
        some (mupgrade_write_finish env (mupgrade_write_progress K
          { s with g_upgrade_config := some cfg1,
                   trace := s.trace ++ [Call.esp_partition_write cfg.partition
                     (p.seq * K.MUPGRADE_PACKET_MAX_SIZE) p.data p.size] } cfg1) cfg1)
      else
        some (MdfErr.MDF_OK, mupgrade_write_progress K
          { s with g_upgrade_config := some cfg1,
                   trace := s.trace ++ [Call.esp_partition_write cfg.partition
                     (p.seq * K.MUPGRADE_PACKET_MAX_SIZE) p.data p.size] } cfg1) := by
  have hb : ¬ bitmap_bits K ≤ p.seq := by omega
  have hin2 : ¬ p.seq * K.MUPGRADE_PACKET_MAX_SIZE > cfg.status.total_size := by omega
  subst hcfg1
  simp only [mupgrade_write, h, hact, hsz, mupgrade_write_active, hin2, hb, MUPGRADE_GET_BITS,
    hnew, h5, ht, if_false, decide_False, Bool.false_eq_true, ne_eq, not_true_eq_false,
    MUPGRADE_SET_BITS, NodeState.log]

theorem write_new_chunk (K : Consts) (env : Env) (s : NodeState) (cfg : Config) (p : Packet)
    (size : Nat) (h : s.g_upgrade_config = some cfg)
    (hact : cfg.status.error_code ≠ MdfErr.MDF_ERR_MUPGRADE_STOP) (hsz : size ≠ 0)
    (hin : p.seq * K.MUPGRADE_PACKET_MAX_SIZE ≤ cfg.status.total_size)
    (hbit : p.seq < bitmap_bits K) (hnew : p.seq ∉ cfg.status.progress_array)
    (henv : env.all_ok) (ht : cfg.status.total_size ≠ 0) :
    ∃ s2 ext, mupgrade_write K env s p size = some (MdfErr.MDF_OK, s2) ∧
      s2.g_upgrade_config = some { cfg with status :=
        { cfg.status with
            progress_array := insert p.seq cfg.status.progress_array,
            written_size := (cfg.status.written_size + p.size) % U32 } } ∧
      s2.trace = s.trace ++ ext ∧ ext.countP is_partition_write = 1 ∧
      (if (cfg.status.written_size + p.size) % U32 = cfg.status.total_size then
        (boot_calls ext).length = 1 ∧ ext.countP is_finish_event = 1 ∧
          s2.g_upgrade_finished_flag = true
       else
        boot_calls ext = [] ∧ ext.countP is_finish_event = 0 ∧
          s2.g_upgrade_finished_flag = s.g_upgrade_finished_flag) := by
  obtain ⟨_, h2, _, _, h5, h6, _, _⟩ := henv
  have hu := write_unfold K env s cfg _ p size h hact hsz hin hbit hnew h5 ht rfl
  obtain ⟨nxt, ext, e, c1, c2, c3⟩ := progress_spec K
    { s with
      g_upgrade_config := some { cfg with status :=
        { cfg.status with
            progress_array := insert p.seq cfg.status.progress_array,
            written_size := (cfg.status.written_size + p.size) % U32 } },
      trace := s.trace ++ [Call.esp_partition_write cfg.partition
                     (p.seq * K.MUPGRADE_PACKET_MAX_SIZE) p.data p.size] }
    { cfg with status :=
        { cfg.status with
            progress_array := insert p.seq cfg.status.progress_array,
            written_size := (cfg.status.written_size + p.size) % U32 } }
  rw [e] at hu
  by_cases hfin : (cfg.status.written_size + p.size) % U32 = cfg.status.total_size
  · rw [if_pos hfin, finish_ok env _ _ h2 h6] at hu
    refine ⟨_, Call.esp_partition_write cfg.partition (p.seq * K.MUPGRADE_PACKET_MAX_SIZE)
        p.data p.size :: (ext ++ [Call.esp_ota_end cfg.handle, Call.mdf_info_erase,
          Call.esp_ota_set_boot_partition env.esp_ota_get_next_update_partition,
          Call.mdf_event_loop_send MdfEvent.MDF_EVENT_MUPGRADE_FINISH 0,
          Call.mwifi_write { cfg.status with
            progress_array := insert p.seq cfg.status.progress_array,
            written_size := (cfg.status.written_size + p.size) % U32 } false]),
        hu, rfl, ?_, ?_, ?_⟩
    · simp
    · simp [List.countP_cons, List.countP_append, c3, is_partition_write]
    · simp [hfin, boot_calls, boot_calls_append, c2, List.countP_cons, List.countP_append, c1,
        is_finish_event]
  · rw [if_neg hfin] at hu
    refine ⟨_, Call.esp_partition_write cfg.partition (p.seq * K.MUPGRADE_PACKET_MAX_SIZE)
        p.data p.size :: ext, hu, rfl, ?_, ?_, ?_⟩
    · simp
    · simp [List.countP_cons, c3, is_partition_write]
    · simp [hfin, boot_calls, c2, List.countP_cons, c1, is_finish_event]

theorem lt_chunk_count (K : Consts) (total k : Nat) (hK : 0 < K.MUPGRADE_PACKET_MAX_SIZE) :
    k < chunk_count K total ↔ k * K.MUPGRADE_PACKET_MAX_SIZE < total := by
  unfold chunk_count
  rw [Nat.lt_iff_add_one_le, Nat.le_div_iff_mul_le hK, Nat.add_mul]
  omega

theorem feed_chunks (K : Consts) (env : Env) (size total : Nat) (data : Nat → List Nat)
    (hK : 0 < K.MUPGRADE_PACKET_MAX_SIZE) (hT32 : total < U32) (henv : env.all_ok)
    (hsz : size ≠ 0) (hfit : chunk_count K total ≤ bitmap_bits K) :
    ∀ (m k : Nat) (s : NodeState) (cfg : Config), k + m = chunk_count K total → 0 < m →
      s.g_upgrade_config = some cfg →
      cfg.status.error_code ≠ MdfErr.MDF_ERR_MUPGRADE_STOP →
      cfg.status.total_size = total →
      cfg.status.written_size = k * K.MUPGRADE_PACKET_MAX_SIZE →
      cfg.status.progress_array = Finset.range k →
      ∃ s2 cfg2 ext, feed K env size s ((List.range' k m).map (chunk K total data)) = some s2 ∧
        s2.g_upgrade_config = some cfg2 ∧ cfg2.status.written_size = total ∧
        cfg2.status.progress_array = Finset.range (chunk_count K total) ∧
        s2.trace = s.trace ++ ext ∧ (boot_calls ext).length = 1 ∧
        ext.countP is_finish_event = 1 ∧ s2.g_upgrade_finished_flag = true := by
  intro m
  induction m with
  | zero => intro k s cfg _ hm; omega
  | succ m ih =>
    intro k s cfg hkm _ hc hact htot hwr hpr
    have hk : k < chunk_count K total := by omega
    have hkM : k * K.MUPGRADE_PACKET_MAX_SIZE < total := (lt_chunk_count K total k hK).1 hk
    have hnew : (chunk K total data k).seq ∉ cfg.status.progress_array := by
      simp [chunk, hpr]
    obtain ⟨s1, ext1, w1, w2, w3, _, w5⟩ := write_new_chunk K env s cfg (chunk K total data k) size
      hc hact hsz (by simp only [chunk, htot]; omega) (by simp only [chunk]; omega) hnew henv
      (by omega)
    have hstep : feed K env size s ((List.range' k (m + 1)).map (chunk K total data))
        = feed K env size s1 ((List.range' (k + 1) m).map (chunk K total data)) := by
      simp [List.range'_succ, feed, w1]
    rw [hstep]
    by_cases hlast : m = 0
    · subst hlast
      have hn : ¬ (k + 1) * K.MUPGRADE_PACKET_MAX_SIZE < total := by
        rw [← lt_chunk_count K total (k + 1) hK]
        omega
      rw [Nat.add_mul] at hn
      have hw : (cfg.status.written_size + (chunk K total data k).size) % U32
          = cfg.status.total_size := by
        simp only [chunk, hwr, htot]
        rw [Nat.mod_eq_of_lt (by omega)]
        omega
      rw [if_pos hw] at w5
      refine ⟨s1, _, ext1, by simp [feed], w2, ?_, ?_, w3, w5.1, w5.2.1, w5.2.2⟩
      · simpa [htot] using hw
      · simp only [chunk, hpr]
        rw [← hkm, Finset.range_succ]
    · have hk1 : k + 1 < chunk_count K total := by omega
      have hk1M : (k + 1) * K.MUPGRADE_PACKET_MAX_SIZE < total :=
        (lt_chunk_count K total (k + 1) hK).1 hk1
      have hk1M2 := hk1M
      rw [Nat.add_mul] at hk1M2
      have hw : (cfg.status.written_size + (chunk K total data k).size) % U32
          = (k + 1) * K.MUPGRADE_PACKET_MAX_SIZE := by
        simp only [chunk, hwr]
        rw [Nat.mod_eq_of_lt (by omega), Nat.add_mul]
        omega
      have hnf : ¬ (cfg.status.written_size + (chunk K total data k).size) % U32
          = cfg.status.total_size := by
        rw [hw, htot]
        omega
      rw [if_neg hnf] at w5
      obtain ⟨s2, cfg2, ext2, f1, f2, f3, f4, f5, f6, f7, f8⟩ := ih (k + 1) s1 _ (by omega)
        (by omega) w2 hact htot hw (by simp only [chunk, hpr]; rw [Finset.range_succ])
      refine ⟨s2, cfg2, ext1 ++ ext2, f1, f2, f3, f4, ?_, ?_, ?_, f8⟩
      · rw [f5, w3, List.append_assoc]
      · rw [boot_calls_append, w5.1]
        simpa using f6
      · rw [List.countP_append, w5.2.1]
        simpa using f7

/-! ### C2 -/

/-- C2. Completion triggers the boot switch: an image of `total > 0` bytes is
announced to a node in a receiving role as a new firmware, every collaborator
call succeeds, and its `chunk_count K total` data packets (packet `k` carrying
`min(MUPGRADE_PACKET_MAX_SIZE, total - k * MUPGRADE_PACKET_MAX_SIZE)` bytes) are
handed to `mupgrade_write` in order. Then `written_size` equals `total`, the
bits `0 .. n-1` of the bitmap are set, and during the writes
`esp_ota_set_boot_partition` is called exactly once and the upgrade-finished
event is raised exactly once. The image fits the 32-bit size field and the
progress bitmap. -/
theorem mupgrade_write_all_chunks_completes (K : Consts) (env : Env) (s0 : NodeState)
    (status : Status) (size : Nat) (data : Nat → List Nat)
    (hK : 0 < K.MUPGRADE_PACKET_MAX_SIZE) (hT : 0 < status.total_size)
    (hT32 : status.total_size < U32)
    (hfit : chunk_count K status.total_size ≤ bitmap_bits K)
    (henv : env.all_ok) (hrole : env.receiving) (hsz : size ≠ 0)
    (hnew : ¬ same_firmware (session_of env s0) status)
    (herr : status.error_code ≠ MdfErr.MDF_ERR_MUPGRADE_STOP) :
    ∃ s1 s2 cfg2, mupgrade_status K env s0 status = some (MdfErr.MDF_OK, s1) ∧
      feed K env size s1
        ((List.range (chunk_count K status.total_size)).map (chunk K status.total_size data))
        = some s2 ∧
      s2.g_upgrade_config = some cfg2 ∧
      cfg2.status.written_size = status.total_size ∧
      (∀ k, k < chunk_count K status.total_size →
        MUPGRADE_GET_BITS cfg2.status.progress_array k = true) ∧
      (boot_calls (new_calls s1 s2)).length = 1 ∧
      (new_calls s1 s2).countP is_finish_event = 1 := by
  obtain ⟨s1, a1, a2, _⟩ := announce_fresh K env s0 status henv hrole hnew
  have hn : 0 < chunk_count K status.total_size := by
    rw [lt_chunk_count K _ 0 hK]
    omega
  obtain ⟨s2, cfg2, ext, f1, f2, f3, f4, f5, f6, f7, _⟩ :=
    feed_chunks K env size status.total_size data hK hT32 henv hsz hfit
      (chunk_count K status.total_size) 0 s1 (fresh_config K env status) (by omega) hn a2
      (by simp [fresh_config, herr]) (by simp [fresh_config]) (by simp [fresh_config])
      (by simp [fresh_config])
  refine ⟨s1, s2, cfg2, a1, ?_, f2, f3, ?_, ?_, ?_⟩
  · rw [List.range_eq_range']
    exact f1
  · intro k hk
    simp [MUPGRADE_GET_BITS, f4, hk]
  · simpa [new_calls, f5] using f6
  · simpa [new_calls, f5] using f7

/-- Witness for C2: the image of 1000 bytes in chunks of 200 bytes, five
packets into the announced session. -/
theorem mupgrade_write_all_chunks_completes_witness :
    0 < K0.MUPGRADE_PACKET_MAX_SIZE ∧ 0 < ann0.total_size ∧ ann0.total_size < U32 ∧
    chunk_count K0 ann0.total_size ≤ bitmap_bits K0 ∧ env0.all_ok ∧ env0.receiving ∧ 205 ≠ 0 ∧
    ¬ same_firmware (session_of env0 (init_state K0 30)) ann0 ∧
    ann0.error_code ≠ MdfErr.MDF_ERR_MUPGRADE_STOP ∧ chunk_count K0 ann0.total_size = 5 ∧
    ∃ s1 s2 cfg2, mupgrade_status K0 env0 (init_state K0 30) ann0 = some (MdfErr.MDF_OK, s1) ∧
      feed K0 env0 205 s1
        ((List.range (chunk_count K0 ann0.total_size)).map
          (chunk K0 ann0.total_size (fun k => List.replicate 200 k)))
        = some s2 ∧
      s2.g_upgrade_config = some cfg2 ∧
      cfg2.status.written_size = ann0.total_size ∧
      (∀ k, k < chunk_count K0 ann0.total_size →
        MUPGRADE_GET_BITS cfg2.status.progress_array k = true) ∧
      (boot_calls (new_calls s1 s2)).length = 1 ∧
      (new_calls s1 s2).countP is_finish_event = 1 :=
  ⟨by decide, by decide, by decide, by decide, by decide, by decide, by decide, by decide,
    by decide, by decide,
    mupgrade_write_all_chunks_completes K0 env0 (init_state K0 30) ann0 205
      (fun k => List.replicate 200 k) (by decide) (by decide) (by decide) (by decide)
      (by decide) (by decide) (by decide) (by decide) (by decide)⟩

/-! ### C3 -/

/-- C3. Idempotent duplicate data: when `mupgrade_write` accepted a data
packet on a session that is not stopped (the call returned `MDF_OK`), handing
the same packet to `mupgrade_write` again returns `MDF_OK` and leaves the whole
state as it was after the first call: no collaborator is called, so no storage
write happens, and `written_size` and the progress bitmap are unchanged. -/
theorem mupgrade_write_duplicate_is_idempotent (K : Consts) (env env2 : Env)
    (s s1 : NodeState) (cfg : Config) (p : Packet) (size : Nat)
    (h : s.g_upgrade_config = some cfg)
    (hact : cfg.status.error_code ≠ MdfErr.MDF_ERR_MUPGRADE_STOP)
    (h1 : mupgrade_write K env s p size = some (MdfErr.MDF_OK, s1)) :
    mupgrade_write K env2 s1 p size = some (MdfErr.MDF_OK, s1) := by
  have hsz : size ≠ 0 := by
    intro h0
    simp [mupgrade_write, h0] at h1
  have h2 : mupgrade_write_active K env s cfg p = some (MdfErr.MDF_OK, s1) := by
    simpa [mupgrade_write, hsz, h, hact] using h1
  obtain ⟨cfg1, e1, e2, e3, e4, e5, e6⟩ := active_ok_inv K env s s1 cfg p h h2
  exact write_duplicate K env2 s1 cfg1 p size e1 (by rw [e2]; exact hact) hsz
    (by rw [e3]; exact e6) e5 e4

/-- Witness for C3: `pkt0` handed twice to the announced session. -/
theorem mupgrade_write_duplicate_is_idempotent_witness :
    s_announced.g_upgrade_config = some cfg_announced ∧
    cfg_announced.status.error_code ≠ MdfErr.MDF_ERR_MUPGRADE_STOP ∧
    mupgrade_write K0 env0 s_announced pkt0 205 = some (MdfErr.MDF_OK, s_first) ∧
    mupgrade_write K0 env0 s_first pkt0 205 = some (MdfErr.MDF_OK, s_first) :=
  ⟨by decide, by decide, by decide,
    mupgrade_write_duplicate_is_idempotent K0 env0 env0 s_announced s_first cfg_announced pkt0 205
      (by decide) (by decide) (by decide)⟩

/-! ### C4 -/

/-- C4. Idempotent status re-announcement: on an existing session, a call of
`mupgrade_status` whose firmware name and total size equal those of the
session returns, leaves `written_size` and the progress bitmap as they were,
starts no erase/prepare cycle (`esp_ota_begin`) and sends exactly one status
reply; a second call with the same announcement again leaves the progress of
the original session in place. -/
theorem mupgrade_status_same_firmware_keeps_progress (K : Consts) (env env2 : Env)
    (s : NodeState) (cfg : Config) (status : Status)
    (h : s.g_upgrade_config = some cfg) (hsame : same_firmware cfg status) :
    ∃ r s2 cfg2, mupgrade_status K env s status = some (r, s2) ∧
      s2.g_upgrade_config = some cfg2 ∧
      cfg2.status.written_size = cfg.status.written_size ∧
      cfg2.status.progress_array = cfg.status.progress_array ∧
      (new_calls s s2).countP is_ota_begin = 0 ∧
      (new_calls s s2).countP is_mwifi_write = 1 ∧
      ∃ r3 s3 cfg3, mupgrade_status K env2 s2 status = some (r3, s3) ∧
        s3.g_upgrade_config = some cfg3 ∧
        cfg3.status.written_size = cfg.status.written_size ∧
        cfg3.status.progress_array = cfg.status.progress_array := by
  have hc := exit_calls_counts K cfg MdfErr.MDF_OK
  refine ⟨_, _, _, status_same K env s cfg status h hsame, rfl, rfl, rfl, ?_, ?_, ?_⟩
  · simpa [new_calls] using hc.1
  · simpa [new_calls] using hc.2.1
  · refine ⟨_, _, _, status_same K env2 _ _ status rfl ?_, rfl, rfl, rfl⟩
    exact hsame

/-- Witness for C4: the announcement `ann0` repeated on the announced session. -/
theorem mupgrade_status_same_firmware_keeps_progress_witness :
    s_announced.g_upgrade_config = some cfg_announced ∧ same_firmware cfg_announced ann0 ∧
    ∃ r s2 cfg2, mupgrade_status K0 env0 s_announced ann0 = some (r, s2) ∧
      s2.g_upgrade_config = some cfg2 ∧
      cfg2.status.written_size = cfg_announced.status.written_size ∧
      cfg2.status.progress_array = cfg_announced.status.progress_array ∧
      (new_calls s_announced s2).countP is_ota_begin = 0 ∧
      (new_calls s_announced s2).countP is_mwifi_write = 1 ∧
      ∃ r3 s3 cfg3, mupgrade_status K0 env0 s2 ann0 = some (r3, s3) ∧
        s3.g_upgrade_config = some cfg3 ∧
        cfg3.status.written_size = cfg_announced.status.written_size ∧
        cfg3.status.progress_array = cfg_announced.status.progress_array :=
  ⟨by decide, by decide,
    mupgrade_status_same_firmware_keeps_progress K0 env0 env0 s_announced cfg_announced ann0
      (by decide) (by decide)⟩

/-! ### C7 -/

/-- C7. Stop reverts boot: on an existing session with the finished flag set,
`mupgrade_stop` calls `esp_ota_set_boot_partition` exactly once, with the
result of `esp_ota_get_running_partition`, and returns the error of that call
when it fails; with the flag clear it makes no call of
`esp_ota_set_boot_partition`. -/
theorem mupgrade_stop_reverts_boot (K : Consts) (env : Env) (s : NodeState)
    (h : s.g_upgrade_config ≠ none) :
    (s.g_upgrade_finished_flag = true →
        boot_calls (new_calls s (mupgrade_stop K env s).2) = [env.esp_ota_get_running_partition]
        ∧ (env.esp_ota_set_boot_partition ≠ MdfErr.MDF_OK →
            (mupgrade_stop K env s).1 = env.esp_ota_set_boot_partition))
    ∧ (s.g_upgrade_finished_flag = false →
        boot_calls (new_calls s (mupgrade_stop K env s).2) = []) := by
  cases hc : s.g_upgrade_config with
  | none => exact absurd hc h
  | some cfg =>
    constructor
    · intro hf
      by_cases hb : env.esp_ota_set_boot_partition = MdfErr.MDF_OK
      · by_cases hw : env.mwifi_write = MdfErr.MDF_OK <;>
          simp [mupgrade_stop, hc, hf, hb, hw, new_calls, NodeState.log, boot_calls]
      · simp [mupgrade_stop, hc, hf, hb, new_calls, NodeState.log, boot_calls]
    · intro hf
      by_cases hw : env.mwifi_write = MdfErr.MDF_OK <;>
        simp [mupgrade_stop, hc, hf, hw, new_calls, NodeState.log, boot_calls]

/-- Witness for C7: stop on the session that received all five chunks. -/
theorem mupgrade_stop_reverts_boot_witness :
    s_finished.g_upgrade_config ≠ none ∧
    ((s_finished.g_upgrade_finished_flag = true →
        boot_calls (new_calls s_finished (mupgrade_stop K0 env0 s_finished).2)
          = [env0.esp_ota_get_running_partition]
        ∧ (env0.esp_ota_set_boot_partition ≠ MdfErr.MDF_OK →
            (mupgrade_stop K0 env0 s_finished).1 = env0.esp_ota_set_boot_partition))
    ∧ (s_finished.g_upgrade_finished_flag = false →
        boot_calls (new_calls s_finished (mupgrade_stop K0 env0 s_finished).2) = [])) :=
  ⟨by decide, mupgrade_stop_reverts_boot K0 env0 s_finished (by decide)⟩


/-! ### C8 -/

theorem stop_marks_stopped (K : Consts) (env : Env) (s : NodeState) (cfg : Config)
    (h : s.g_upgrade_config = some cfg)
    (hrev : s.g_upgrade_finished_flag = true → env.esp_ota_set_boot_partition = MdfErr.MDF_OK) :
    (mupgrade_stop K env s).2.g_upgrade_config =
      some { cfg with status :=
        { cfg.status with type := K.MUPGRADE_TYPE_DATA,
                          error_code := MdfErr.MDF_ERR_MUPGRADE_STOP,
                          written_size := 0, progress_array := bitmap_clear } } := by
  by_cases hf : s.g_upgrade_finished_flag = true
  · have hb := hrev hf
    by_cases hw : env.mwifi_write = MdfErr.MDF_OK <;>
      simp [mupgrade_stop, h, hf, hb, hw, NodeState.log]
  · by_cases hw : env.mwifi_write = MdfErr.MDF_OK <;>
      simp [mupgrade_stop, h, hf, hw, NodeState.log]

theorem write_stopped_eq (K : Consts) (env : Env) (s : NodeState) (cfg : Config) (p : Packet)
    (size : Nat) (h : s.g_upgrade_config = some cfg)
    (hstop : cfg.status.error_code = MdfErr.MDF_ERR_MUPGRADE_STOP) (hsz : size ≠ 0) :
    mupgrade_write K env s p size =
      some (env.mwifi_write,
        { s with
            g_upgrade_config := some { cfg with status :=
              { cfg.status with type := K.MUPGRADE_TYPE_DATA, written_size := 0,
                                progress_array := bitmap_clear } },
            trace := s.trace ++ [Call.mdf_info_erase,
              Call.mwifi_write { cfg.status with type := K.MUPGRADE_TYPE_DATA, written_size := 0,
                                                 progress_array := bitmap_clear } false] }) := by
  by_cases hw : env.mwifi_write = MdfErr.MDF_OK <;>
    simp [mupgrade_write, h, hstop, hsz, mupgrade_write_stopped, NodeState.log, hw]

/-- C8, counterexample. After `mupgrade_stop` on the announced session the
first data packet is answered with success, not with
`MDF_ERR_MUPGRADE_NOT_INIT`. -/
theorem write_after_stop_is_not_rejected :
    (mupgrade_write K0 env0 s_stopped pkt0 205).map Prod.fst = some MdfErr.MDF_OK ∧
    (mupgrade_write K0 env0 s_stopped pkt0 205).map Prod.fst
      ≠ some MdfErr.MDF_ERR_MUPGRADE_NOT_INIT := by
  decide

/-- C8, amended. After `mupgrade_stop` has marked an existing session as
stopped (the boot revert, when it applies, succeeded), a data packet handed to
`mupgrade_write` before any new announcement is not written: the call makes no
partition write, keeps `written_size` at zero and the bitmap clear, sends one
status reply and returns the result of that send, success when the reply was
sent. -/
theorem write_after_stop_replies_zero_progress (K : Consts) (env env2 : Env) (s : NodeState)
    (p : Packet) (size : Nat) (h : s.g_upgrade_config ≠ none)
    (hrev : s.g_upgrade_finished_flag = true → env.esp_ota_set_boot_partition = MdfErr.MDF_OK)
    (hsz : size ≠ 0) :
    ∃ s3 cfg3, mupgrade_write K env2 (mupgrade_stop K env s).2 p size
        = some (env2.mwifi_write, s3) ∧
      s3.g_upgrade_config = some cfg3 ∧
      cfg3.status.written_size = 0 ∧ cfg3.status.progress_array = ∅ ∧
      cfg3.status.error_code = MdfErr.MDF_ERR_MUPGRADE_STOP ∧
      (new_calls (mupgrade_stop K env s).2 s3).countP is_partition_write = 0 ∧
      (new_calls (mupgrade_stop K env s).2 s3).countP is_mwifi_write = 1 := by
  cases hc : s.g_upgrade_config with
  | none => exact absurd hc h
  | some cfg =>
    have h1 := stop_marks_stopped K env s cfg hc hrev
    refine ⟨_, _, write_stopped_eq K env2 _ _ p size h1 rfl hsz, rfl, rfl, rfl, rfl, ?_, ?_⟩
    · simp [new_calls, is_partition_write]
    · simp [new_calls, is_mwifi_write]

/-- Witness for C8 (amended): stop on the announced session, then `pkt0`. -/
theorem write_after_stop_replies_zero_progress_witness :
    s_announced.g_upgrade_config ≠ none ∧
    (s_announced.g_upgrade_finished_flag = true →
      env0.esp_ota_set_boot_partition = MdfErr.MDF_OK) ∧ 205 ≠ 0 ∧
    ∃ s3 cfg3, mupgrade_write K0 env0 (mupgrade_stop K0 env0 s_announced).2 pkt0 205
        = some (env0.mwifi_write, s3) ∧
      s3.g_upgrade_config = some cfg3 ∧
      cfg3.status.written_size = 0 ∧ cfg3.status.progress_array = ∅ ∧
      cfg3.status.error_code = MdfErr.MDF_ERR_MUPGRADE_STOP ∧
      (new_calls (mupgrade_stop K0 env0 s_announced).2 s3).countP is_partition_write = 0 ∧
      (new_calls (mupgrade_stop K0 env0 s_announced).2 s3).countP is_mwifi_write = 1 :=
  ⟨by decide, by decide, by decide,
    write_after_stop_replies_zero_progress K0 env0 env0 s_announced pkt0 205
      (by decide) (by decide) (by decide)⟩

/-! ### C9 -/

/-- C9, counterexample. The announced session is stopped and the same
announcement (same name, same total size) arrives again with every
collaborator call succeeding: the session stays stopped, and the next data
packet is answered with a zero-progress status instead of being written. -/
theorem reannounce_same_firmware_stays_stopped :
    mupgrade_status K0 env0 s_stopped ann0 = some (MdfErr.MDF_OK, s_reannounced) ∧
    s_reannounced.g_upgrade_config.map (fun c => c.status.error_code)
      = some MdfErr.MDF_ERR_MUPGRADE_STOP ∧
    (mupgrade_write K0 env0 s_reannounced pkt0 205).map
        (fun r => ((new_calls s_reannounced r.2).countP is_partition_write,
          r.2.g_upgrade_config.map (fun c => (c.status.written_size, c.status.progress_array))))
      = some (0, some (0, ∅)) := by
  decide

/-- C9, amended. A session is put into the stopped state by `mupgrade_stop`
(the boot revert, when it applies, succeeded). A following announcement that
names another firmware (a different name or a different total size), does not
itself carry the stopped code, and is handled in a receiving role with every
collaborator call succeeding, restarts the session: `error_code` becomes
`MDF_OK`, and the next data packet inside the image and the bitmap is written
to the partition, its bit is set and `written_size` becomes its size. -/
theorem reannounce_other_firmware_restarts (K : Consts) (env0 env env2 : Env) (s0 : NodeState)
    (cfg0 : Config) (status : Status) (p : Packet) (size : Nat)
    (h : s0.g_upgrade_config = some cfg0)
    (hrev : s0.g_upgrade_finished_flag = true → env0.esp_ota_set_boot_partition = MdfErr.MDF_OK)
    (hnew : ¬ same_firmware cfg0 status)
    (herr : status.error_code ≠ MdfErr.MDF_ERR_MUPGRADE_STOP)
    (henv : env.all_ok) (hrole : env.receiving) (henv2 : env2.all_ok)
    (hsz : size ≠ 0) (hT : status.total_size ≠ 0)
    (hin : p.seq * K.MUPGRADE_PACKET_MAX_SIZE ≤ status.total_size)
    (hbit : p.seq < bitmap_bits K) :
    ∃ s1 cfg1 s2 cfg2,
      mupgrade_status K env (mupgrade_stop K env0 s0).2 status = some (MdfErr.MDF_OK, s1) ∧
      s1.g_upgrade_config = some cfg1 ∧ cfg1.status.error_code = MdfErr.MDF_OK ∧
      mupgrade_write K env2 s1 p size = some (MdfErr.MDF_OK, s2) ∧
      s2.g_upgrade_config = some cfg2 ∧
      MUPGRADE_GET_BITS cfg2.status.progress_array p.seq = true ∧
      cfg2.status.written_size = p.size % U32 ∧
      (new_calls s1 s2).countP is_partition_write = 1 := by
  have hst := stop_marks_stopped K env0 s0 cfg0 h hrev
  have hnew2 : ¬ same_firmware (session_of env (mupgrade_stop K env0 s0).2) status := by
    simpa [session_of, hst, same_firmware] using hnew
  obtain ⟨s1, a1, a2, _⟩ := announce_fresh K env _ status henv hrole hnew2
  obtain ⟨s2, ext, w1, w2, w3, w4, _⟩ := write_new_chunk K env2 s1 (fresh_config K env status) p
    size a2 (by simp [fresh_config, herr]) hsz (by simpa [fresh_config] using hin) hbit
    (by simp [fresh_config]) henv2 (by simpa [fresh_config] using hT)
  refine ⟨s1, _, s2, _, a1, a2, by simp [fresh_config, herr], w1, w2, ?_, ?_, ?_⟩
  · simp [MUPGRADE_GET_BITS]
  · simp [fresh_config]
  · simpa [new_calls, w3] using w4

/-- Witness for C9 (amended): `fw2.bin` announced to the stopped session,
then `pkt0`. -/
theorem reannounce_other_firmware_restarts_witness :
    s_announced.g_upgrade_config = some cfg_announced ∧
    (s_announced.g_upgrade_finished_flag = true →
      env0.esp_ota_set_boot_partition = MdfErr.MDF_OK) ∧
    ¬ same_firmware cfg_announced ann1 ∧
    ann1.error_code ≠ MdfErr.MDF_ERR_MUPGRADE_STOP ∧ env0.all_ok ∧ env0.receiving ∧
    205 ≠ 0 ∧ ann1.total_size ≠ 0 ∧
    pkt0.seq * K0.MUPGRADE_PACKET_MAX_SIZE ≤ ann1.total_size ∧ pkt0.seq < bitmap_bits K0 ∧
    ∃ s1 cfg1 s2 cfg2,
      mupgrade_status K0 env0 (mupgrade_stop K0 env0 s_announced).2 ann1
        = some (MdfErr.MDF_OK, s1) ∧
      s1.g_upgrade_config = some cfg1 ∧ cfg1.status.error_code = MdfErr.MDF_OK ∧
      mupgrade_write K0 env0 s1 pkt0 205 = some (MdfErr.MDF_OK, s2) ∧
      s2.g_upgrade_config = some cfg2 ∧
      MUPGRADE_GET_BITS cfg2.status.progress_array pkt0.seq = true ∧
      cfg2.status.written_size = pkt0.size % U32 ∧
      (new_calls s1 s2).countP is_partition_write = 1 :=
  ⟨by decide, by decide, by decide, by decide, by decide, by decide, by decide, by decide,
    by decide, by decide,
    reannounce_other_firmware_restarts K0 env0 env0 env0 s_announced cfg_announced ann1 pkt0 205
      (by decide) (by decide) (by decide) (by decide) (by decide) (by decide) (by decide)
      (by decide) (by decide) (by decide) (by decide)⟩

/-! ### C12 -/

/-- Evaluation of an over-run: from the state without session the announcement
of the 1000-byte image, its five data packets and one more packet with
sequence 5 (offset 1000, accepted because the range test is
`seq * MUPGRADE_PACKET_MAX_SIZE > total_size`) lead to a session whose
`written_size` is 1200 while its `total_size` is 1000. -/
theorem written_size_exceeds_total_size :
    (run K0 (init_state K0 30) ops_overrun).bind
        (fun s => s.g_upgrade_config.map
          (fun c => (c.status.written_size, c.status.total_size)))
      = some (1200, 1000) := by
  decide

theorem sum_chunk_room (K : Consts) (total m : Nat) :
    (Finset.range m).sum (chunk_room K total)
      = min (m * K.MUPGRADE_PACKET_MAX_SIZE) total := by
  induction m with
  | zero => simp
  | succ m ih =>
    rw [Finset.sum_range_succ, ih, Nat.add_mul, Nat.one_mul]
    unfold chunk_room
    omega

theorem free_room_le (K : Consts) (cfg : Config) : free_room K cfg ≤ cfg.status.total_size := by
  unfold free_room
  calc (Finset.range (bitmap_bits K) \ cfg.status.progress_array).sum
          (chunk_room K cfg.status.total_size)
      ≤ (Finset.range (bitmap_bits K)).sum (chunk_room K cfg.status.total_size) :=
        Finset.sum_le_sum_of_subset Finset.sdiff_subset
    _ = min (bitmap_bits K * K.MUPGRADE_PACKET_MAX_SIZE) cfg.status.total_size :=
        sum_chunk_room K _ _
    _ ≤ cfg.status.total_size := Nat.min_le_right _ _

theorem cfg_inv_zero (K : Consts) (c : Config) (hw : c.status.written_size = 0) :
    cfg_inv K c := by
  unfold cfg_inv
  rw [hw, Nat.zero_add]
  exact free_room_le K c

theorem cfg_inv_full (K : Consts) (c : Config)
    (hw : c.status.written_size = c.status.total_size)
    (hp : c.status.progress_array = bitmap_fill K) : cfg_inv K c := by
  unfold cfg_inv free_room
  rw [hw, hp, bitmap_fill, Finset.sdiff_self]
  simp

theorem cfg_inv_of_fields (K : Consts) (c1 c2 : Config)
    (hw : c2.status.written_size ≤ c1.status.written_size)
    (ht : c2.status.total_size = c1.status.total_size)
    (hp : c2.status.progress_array = c1.status.progress_array) (h : cfg_inv K c1) :
    cfg_inv K c2 := by
  unfold cfg_inv free_room at h ⊢
  rw [ht, hp]
  omega

theorem cfg_inv_insert (K : Consts) (c : Config) (seq size : Nat) (hJ : cfg_inv K c)
    (hbit : seq < bitmap_bits K) (hnew : seq ∉ c.status.progress_array)
    (hsz : size ≤ chunk_room K c.status.total_size seq) :
    cfg_inv K { c with status :=
      { c.status with
          progress_array := MUPGRADE_SET_BITS c.status.progress_array seq,
          written_size := (c.status.written_size + size) % U32 } } := by
  unfold cfg_inv free_room at hJ ⊢
  change (c.status.written_size + size) % U32
      + (Finset.range (bitmap_bits K) \ insert seq c.status.progress_array).sum
          (chunk_room K c.status.total_size) ≤ c.status.total_size
  rw [Finset.sdiff_insert]
  have hmem : seq ∈ Finset.range (bitmap_bits K) \ c.status.progress_array := by
    simp [hbit, hnew]
  have hsum : chunk_room K c.status.total_size seq
      + ((Finset.range (bitmap_bits K) \ c.status.progress_array).erase seq).sum
          (chunk_room K c.status.total_size)
      = (Finset.range (bitmap_bits K) \ c.status.progress_array).sum
          (chunk_room K c.status.total_size) :=
    Finset.add_sum_erase _ _ hmem
  have hmod : (c.status.written_size + size) % U32 ≤ c.status.written_size + size :=
    Nat.mod_le _ _
  omega

theorem exit_inv (K : Consts) (env : Env) (s : NodeState) (cfg : Config) (ret : MdfErr)
    (h : cfg_inv K cfg) : state_inv K (mupgrade_status_exit K env s cfg ret).2 := by
  rw [exit_eq]
  exact cfg_inv_of_fields K cfg _ (Nat.le_refl _) rfl rfl h

theorem status_new_inv (K : Consts) (env : Env) (s : NodeState) (status : Status) :
    state_inv K (mupgrade_status_new K env s status).2 := by
  unfold mupgrade_status_new
  simp only
  split_ifs
  all_goals first
    | exact exit_inv K env _ _ _ (cfg_inv_zero K _ rfl)
    | exact exit_inv K env _ _ _ (cfg_inv_full K _ rfl rfl)

theorem load_config_inv (K : Consts) (env : Env) (h : loaded_inv K env) :
    cfg_inv K (load_config env) := by
  unfold loaded_inv at h
  unfold load_config
  cases hl : env.mdf_info_load with
  | none => exact cfg_inv_zero K _ rfl
  | some c =>
    rw [hl] at h
    exact cfg_inv_of_fields K c _ (Nat.le_refl _) rfl rfl h

theorem status_inv (K : Consts) (env : Env) (s : NodeState) (status : Status)
    (hs : state_inv K s) (hl : loaded_inv K env) (r : MdfErr × NodeState)
    (h : mupgrade_status K env s status = some r) : state_inv K r.2 := by
  unfold mupgrade_status at h
  cases hc : s.g_upgrade_config with
  | some c =>
    have hJ : cfg_inv K c := by
      unfold state_inv at hs
      rw [hc] at hs
      exact hs
    simp only [hc] at h
    split_ifs at h
    · rw [← Option.some.inj h]
      exact exit_inv K env _ _ _ hJ
    · rw [← Option.some.inj h]
      exact status_new_inv K env _ status
  | none =>
    simp only [hc] at h
    cases hm : env.calloc_ok with
    | false => simp [hm] at h
    | true =>
      simp only [hm, if_true] at h
      split_ifs at h
      · rw [← Option.some.inj h]
        exact exit_inv K env _ _ _ (load_config_inv K env hl)
      · rw [← Option.some.inj h]
        exact status_new_inv K env _ status

theorem write_stopped_inv (K : Consts) (env : Env) (s : NodeState) (cfg : Config) :
    state_inv K (mupgrade_write_stopped K env s cfg).2 := by
  unfold mupgrade_write_stopped
  simp only [NodeState.log]
  split_ifs <;> exact cfg_inv_zero K _ rfl

theorem write_finish_inv (K : Consts) (env : Env) (s : NodeState) (cfg : Config)
    (hs : state_inv K s) : state_inv K (mupgrade_write_finish env s cfg).2 := by
  unfold mupgrade_write_finish
  simp only [NodeState.log]
  split_ifs
  · exact cfg_inv_zero K _ rfl
  · exact hs
  · exact hs

theorem write_active_inv (K : Consts) (env : Env) (s : NodeState) (cfg : Config) (p : Packet)
    (hc : s.g_upgrade_config = some cfg) (hJ : cfg_inv K cfg)
    (hp : p.size ≤ chunk_room K cfg.status.total_size p.seq) (r : MdfErr × NodeState)
    (h : mupgrade_write_active K env s cfg p = some r) : state_inv K r.2 := by
  have hs : state_inv K s := by
    unfold state_inv
    rw [hc]
    exact hJ
  unfold mupgrade_write_active at h
  simp only [NodeState.log] at h
  split_ifs at h with h1 h2 h3 h4 h5 h6
  · rw [← Option.some.inj h]
    exact hs
  · rw [← Option.some.inj h]
    exact hs
  · rw [← Option.some.inj h]
    unfold state_inv
    simp only [hc]
    exact hJ
  · rw [← Option.some.inj h]
    apply write_finish_inv
    unfold state_inv
    rw [(progress_config K _ _).1]
    refine cfg_inv_insert K cfg p.seq p.size hJ (Nat.lt_of_not_le h2) ?_ hp
    simpa [MUPGRADE_GET_BITS] using h3
  · rw [← Option.some.inj h]
    unfold state_inv
    rw [(progress_config K _ _).1]
    refine cfg_inv_insert K cfg p.seq p.size hJ (Nat.lt_of_not_le h2) ?_ hp
    simpa [MUPGRADE_GET_BITS] using h3

theorem write_inv (K : Consts) (env : Env) (s : NodeState) (p : Packet) (size : Nat)
    (hs : state_inv K s) (hl : loaded_inv K env) (hp : packet_inside K env s p)
    (r : MdfErr × NodeState) (h : mupgrade_write K env s p size = some r) :
    state_inv K r.2 := by
  unfold mupgrade_write at h
  unfold packet_inside at hp
  by_cases h0 : size = 0
  · simp only [h0, if_true] at h
    rw [← Option.some.inj h]
    exact hs
  · simp only [h0, if_false] at h
    cases hc : s.g_upgrade_config with
    | some c =>
      have hJ : cfg_inv K c := by
        unfold state_inv at hs
        rw [hc] at hs
        exact hs
      simp only [hc] at h hp
      by_cases hstop : c.status.error_code = MdfErr.MDF_ERR_MUPGRADE_STOP
      · simp only [hstop, if_true] at h
        rw [← Option.some.inj h]
        exact write_stopped_inv K env s c
      · simp only [hstop, if_false] at h
        exact write_active_inv K env s c p hc hJ hp r h
    | none =>
      simp only [hc] at h hp
      cases hm : env.calloc_ok with
      | false =>
        simp only [hm, Bool.not_false, if_true] at h
        rw [← Option.some.inj h]
        exact hs
      | true =>
        simp only [hm, Bool.not_true, Bool.false_eq_true, if_false] at h
        cases hload : env.mdf_info_load with
        | none =>
          simp only [hload] at h
          rw [← Option.some.inj h]
          exact hs
        | some c0 =>
          simp only [hload] at h hp
          by_cases hstop : (load_config env).status.error_code = MdfErr.MDF_ERR_MUPGRADE_STOP
          · simp only [hstop, if_true] at h
            rw [← Option.some.inj h]
            exact write_stopped_inv K env _ _
          · simp only [hstop, if_false] at h
            refine write_active_inv K env _ (load_config env) p rfl
              (load_config_inv K env hl) ?_ r h
            unfold load_config
            simp only [hload]
            exact hp

theorem stop_inv (K : Consts) (env : Env) (s : NodeState) (hs : state_inv K s) :
    state_inv K (mupgrade_stop K env s).2 := by
  unfold mupgrade_stop
  cases hc : s.g_upgrade_config with
  | none =>
    simp only
    exact hs
  | some c =>
    have hJ : cfg_inv K c := by
      unfold state_inv at hs
      rw [hc] at hs
      exact hs
    simp only [NodeState.log]
    split_ifs
    all_goals first
      | exact cfg_inv_zero K _ rfl
      | (unfold state_inv; simp only [hc]; exact hJ)

theorem step_inv (K : Consts) (s s1 : NodeState) (op : Op) (hs : state_inv K s)
    (ho : op_inside K s op) (h : step K s op = some s1) : state_inv K s1 := by
  cases op with
  | status env status =>
    simp only [step, Option.map_eq_some'] at h
    obtain ⟨r, hr, e⟩ := h
    rw [← e]
    exact status_inv K env s status hs ho r hr
  | write env p size =>
    simp only [step, Option.map_eq_some'] at h
    obtain ⟨r, hr, e⟩ := h
    rw [← e]
    exact write_inv K env s p size hs ho.1 ho.2 r hr
  | stop env =>
    simp only [step, Option.some.injEq] at h
    rw [← h]
    exact stop_inv K env s hs

theorem run_inv (K : Consts) (ops : List Op) :
    ∀ s s2 : NodeState, state_inv K s → all_inside K s ops → run K s ops = some s2 →
      state_inv K s2 := by
  induction ops with
  | nil =>
    intro s s2 hs _ h
    simp only [run, Option.some.injEq] at h
    rw [← h]
    exact hs
  | cons op ops ih =>
    intro s s2 hs hin h
    simp only [run] at h
    simp only [all_inside] at hin
    cases hst : step K s op with
    | none => simp [hst] at h
    | some s1 =>
      simp only [hst] at h hin
      exact ih s1 s2 (step_inv K s s1 op hs hin.1 hst) hin.2 h

/-- C12, counterexample. In the 900-byte image the packet with
sequence 4 carries 200 bytes although only 100 bytes of the image belong to
its chunk; its offset 800 passes the range test, every call stays inside
defined behaviour, and the session ends with `written_size` 1000 above its
`total_size` 900. -/
theorem oversize_packet_exceeds_total_size :
    (run K0 (init_state K0 30) ops_oversize).bind
        (fun s => s.g_upgrade_config.map
          (fun c => (c.status.written_size, c.status.total_size)))
      = some (1000, 900) := by
  decide

/-- C12, amended. Write `B` for the bytes of the image that belong to the
chunks whose bit is clear in a record (`free_room`). Starting without a
session, after any sequence of `mupgrade_status`, `mupgrade_write` and
`mupgrade_stop` calls that stays inside defined behaviour, in which every data
packet carries at most the bytes of the image that belong to its chunk and
every persisted record that `mdf_info_load` returns satisfies
`written_size + B ≤ total_size`, the session satisfies
`written_size + B ≤ total_size` and therefore `written_size ≤ total_size`. -/
theorem written_size_le_total_size_inside_image (K : Consts) (s0 s : NodeState)
    (ops : List Op) (cfg : Config) (h0 : s0.g_upgrade_config = none)
    (hin : all_inside K s0 ops) (hrun : run K s0 ops = some s)
    (hcfg : s.g_upgrade_config = some cfg) :
    cfg.status.written_size + free_room K cfg ≤ cfg.status.total_size ∧
    cfg.status.written_size ≤ cfg.status.total_size := by
  have hs0 : state_inv K s0 := by
    unfold state_inv
    rw [h0]
    trivial
  have hs := run_inv K ops s0 s hs0 hin hrun
  unfold state_inv at hs
  rw [hcfg] at hs
  unfold cfg_inv at hs
  exact ⟨hs, by omega⟩

/-- Witness for C12 (amended): the announcement of the 1000-byte image followed
by its five data packets. -/
theorem written_size_le_total_size_inside_image_witness :
    (init_state K0 30).g_upgrade_config = none ∧
    all_inside K0 (init_state K0 30) ops_regular ∧
    run K0 (init_state K0 30) ops_regular = some s_finished ∧
    s_finished.g_upgrade_config = some cfg_finished ∧
    cfg_finished.status.written_size + free_room K0 cfg_finished
      ≤ cfg_finished.status.total_size ∧
    cfg_finished.status.written_size ≤ cfg_finished.status.total_size :=
  ⟨rfl, by decide, by decide, rfl,
    written_size_le_total_size_inside_image K0 (init_state K0 30) s_finished ops_regular
      cfg_finished rfl (by decide) (by decide) rfl⟩

/-! ### C13 -/

/-- C13. Root-role fast path of `mupgrade_status`: an announcement of a firmware
other than the session's reaches a node in the root or station role and the boot
selection succeeds. Then the session has `written_size` equal to the announced
`total_size`, every bit of the progress bitmap set and the finished flag set;
the calls made are, in this order, the boot selection, the upgrade-started
event, the upgrade-finished event, the 100 percent report and the status reply,
so there is no `esp_ota_begin` and no `esp_partition_write`. -/
theorem mupgrade_status_root_fast_path (K : Consts) (env : Env) (s : NodeState)
    (status : Status)
    (hmem : s.g_upgrade_config = none → env.calloc_ok = true)
    (hroot : env.root_role)
    (hboot : env.esp_ota_set_boot_partition = MdfErr.MDF_OK)
    (hnew : ¬ same_firmware (session_of env s) status) :
    ∃ r s2 cfg2, mupgrade_status K env s status = some (r, s2) ∧
      s2.g_upgrade_config = some cfg2 ∧
      cfg2.status.total_size = status.total_size ∧
      cfg2.status.written_size = status.total_size ∧
      (∀ i, i < bitmap_bits K → MUPGRADE_GET_BITS cfg2.status.progress_array i = true) ∧
      s2.g_upgrade_finished_flag = true ∧
      new_calls s s2 =
        [Call.esp_ota_set_boot_partition env.esp_ota_get_next_update_partition,
         Call.mdf_event_loop_send MdfEvent.MDF_EVENT_MUPGRADE_STARTED 0,
         Call.mdf_event_loop_send MdfEvent.MDF_EVENT_MUPGRADE_FINISH 0,
         Call.mdf_event_loop_send MdfEvent.MDF_EVENT_MUPGRADE_STATUS 100,
         Call.mwifi_write cfg2.status false] ∧
      (new_calls s s2).countP is_ota_begin = 0 ∧
      (new_calls s s2).countP is_partition_write = 0 := by
  have hnewfn : ∀ s1 : NodeState, s1.trace = s.trace →
      (mupgrade_status_new K env s1 status).2.g_upgrade_config = some (root_config K status) ∧
      (mupgrade_status_new K env s1 status).2.g_upgrade_finished_flag = true ∧
      new_calls s (mupgrade_status_new K env s1 status).2 =
        [Call.esp_ota_set_boot_partition env.esp_ota_get_next_update_partition,
         Call.mdf_event_loop_send MdfEvent.MDF_EVENT_MUPGRADE_STARTED 0,
         Call.mdf_event_loop_send MdfEvent.MDF_EVENT_MUPGRADE_FINISH 0,
         Call.mdf_event_loop_send MdfEvent.MDF_EVENT_MUPGRADE_STATUS 100,
         Call.mwifi_write (root_config K status).status false] := by
    intro s1 htr
    have hr : env.esp_mesh_get_type = MeshType.MESH_ROOT ∨
        env.esp_mesh_get_type = MeshType.MESH_STA := hroot
    simp [mupgrade_status_new, hr, hboot, exit_eq, exit_status, exit_calls, root_config,
      new_calls, NodeState.log, htr]
  have hcases : ∃ s1 : NodeState, s1.trace = s.trace ∧
      mupgrade_status K env s status = some (mupgrade_status_new K env s1 status) := by
    cases hc : s.g_upgrade_config with
    | none =>
      have hn : ¬ ((load_config env).status.name = status.name ∧
          (load_config env).status.total_size = status.total_size) := by
        simpa [same_firmware, session_of, hc] using hnew
      refine ⟨{ s with g_upgrade_config := some (load_config env) }, rfl, ?_⟩
      simp only [mupgrade_status, hc, hmem hc, if_true, hn, if_false]
    | some cfg =>
      have hn : ¬ (cfg.status.name = status.name ∧
          cfg.status.total_size = status.total_size) := by
        simpa [same_firmware, session_of, hc] using hnew
      refine ⟨{ s with g_upgrade_config := some cfg }, rfl, ?_⟩
      simp only [mupgrade_status, hc, hn, if_false]
  obtain ⟨s1, htr, he⟩ := hcases
  obtain ⟨e2, e6, e7⟩ := hnewfn s1 htr
  refine ⟨(mupgrade_status_new K env s1 status).1, (mupgrade_status_new K env s1 status).2,
    root_config K status, he, e2, rfl, rfl, ?_, e6, e7, ?_, ?_⟩
  · intro i hi
    simp [root_config, MUPGRADE_GET_BITS, bitmap_fill, hi]
  · rw [e7]
    simp [is_ota_begin]
  · rw [e7]
    simp [is_partition_write]

/-- Witness for C13: the announcement `ann0` reaches a root node without
session. -/
theorem mupgrade_status_root_fast_path_witness :
    ((init_state K0 30).g_upgrade_config = none → env_root.calloc_ok = true) ∧
    env_root.root_role ∧ env_root.esp_ota_set_boot_partition = MdfErr.MDF_OK ∧
    ¬ same_firmware (session_of env_root (init_state K0 30)) ann0 ∧
    ∃ r s2 cfg2, mupgrade_status K0 env_root (init_state K0 30) ann0 = some (r, s2) ∧
      s2.g_upgrade_config = some cfg2 ∧
      cfg2.status.total_size = ann0.total_size ∧
      cfg2.status.written_size = ann0.total_size ∧
      (∀ i, i < bitmap_bits K0 → MUPGRADE_GET_BITS cfg2.status.progress_array i = true) ∧
      s2.g_upgrade_finished_flag = true ∧
      new_calls (init_state K0 30) s2 =
        [Call.esp_ota_set_boot_partition env_root.esp_ota_get_next_update_partition,
         Call.mdf_event_loop_send MdfEvent.MDF_EVENT_MUPGRADE_STARTED 0,
         Call.mdf_event_loop_send MdfEvent.MDF_EVENT_MUPGRADE_FINISH 0,
         Call.mdf_event_loop_send MdfEvent.MDF_EVENT_MUPGRADE_STATUS 100,
         Call.mwifi_write cfg2.status false] ∧
      (new_calls (init_state K0 30) s2).countP is_ota_begin = 0 ∧
      (new_calls (init_state K0 30) s2).countP is_partition_write = 0 :=
  ⟨by decide, by decide, by decide, by decide,
    mupgrade_status_root_fast_path K0 env_root (init_state K0 30) ann0 (by decide) (by decide)
      (by decide) (by decide)⟩

/-! ### C14 -/

/-- C14. Effects of `mupgrade_stop`: on an existing session, the boot revert
succeeding when the finished flag asks for it, the session afterwards has
`error_code` stopped, `written_size` zero and an empty bitmap, its firmware
name and total size are unchanged, the persisted record is erased once, exactly
one status message is sent, and the value returned is the result of that send.
With no session `mupgrade_stop` returns `MDF_OK` and leaves the state as it
is. -/
theorem mupgrade_stop_effects (K : Consts) (env : Env) (s : NodeState) :
    (∀ cfg, s.g_upgrade_config = some cfg →
      (s.g_upgrade_finished_flag = true → env.esp_ota_set_boot_partition = MdfErr.MDF_OK) →
      ∃ cfg2, (mupgrade_stop K env s).2.g_upgrade_config = some cfg2 ∧
        cfg2.status.error_code = MdfErr.MDF_ERR_MUPGRADE_STOP ∧
        cfg2.status.written_size = 0 ∧
        (∀ i, MUPGRADE_GET_BITS cfg2.status.progress_array i = false) ∧
        cfg2.status.name = cfg.status.name ∧
        cfg2.status.total_size = cfg.status.total_size ∧
        (new_calls s (mupgrade_stop K env s).2).countP is_info_erase = 1 ∧
        (new_calls s (mupgrade_stop K env s).2).countP is_mwifi_write = 1 ∧
        (mupgrade_stop K env s).1 = env.mwifi_write) ∧
    (s.g_upgrade_config = none → mupgrade_stop K env s = (MdfErr.MDF_OK, s)) := by
  constructor
  · intro cfg h hrev
    refine ⟨_, stop_marks_stopped K env s cfg h hrev, rfl, rfl, ?_, rfl, rfl, ?_⟩
    · intro i
      simp [MUPGRADE_GET_BITS, bitmap_clear]
    · by_cases hf : s.g_upgrade_finished_flag = true
      · have hb := hrev hf
        by_cases hw : env.mwifi_write = MdfErr.MDF_OK <;>
          simp [mupgrade_stop, h, hf, hb, hw, NodeState.log, new_calls, is_info_erase,
            is_mwifi_write]
      · by_cases hw : env.mwifi_write = MdfErr.MDF_OK <;>
          simp [mupgrade_stop, h, hf, hw, NodeState.log, new_calls, is_info_erase,
            is_mwifi_write]
  · intro h
    simp [mupgrade_stop, h]

/-- Witness for C14: `mupgrade_stop` on the session that received all five
chunks, and on the state without session. -/
theorem mupgrade_stop_effects_witness :
    (s_finished.g_upgrade_config = some cfg_finished ∧
      cfg_finished.status.written_size = 1000 ∧
      (s_finished.g_upgrade_finished_flag = true →
        env0.esp_ota_set_boot_partition = MdfErr.MDF_OK) ∧
      ∃ cfg2, (mupgrade_stop K0 env0 s_finished).2.g_upgrade_config = some cfg2 ∧
        cfg2.status.error_code = MdfErr.MDF_ERR_MUPGRADE_STOP ∧
        cfg2.status.written_size = 0 ∧
        (∀ i, MUPGRADE_GET_BITS cfg2.status.progress_array i = false) ∧
        cfg2.status.name = cfg_finished.status.name ∧
        cfg2.status.total_size = cfg_finished.status.total_size ∧
        (new_calls s_finished (mupgrade_stop K0 env0 s_finished).2).countP is_info_erase = 1 ∧
        (new_calls s_finished (mupgrade_stop K0 env0 s_finished).2).countP is_mwifi_write = 1 ∧
        (mupgrade_stop K0 env0 s_finished).1 = env0.mwifi_write) ∧
    (init_state K0 30).g_upgrade_config = none ∧
    mupgrade_stop K0 env0 (init_state K0 30) = (MdfErr.MDF_OK, init_state K0 30) :=
  ⟨⟨rfl, by decide, by decide,
      (mupgrade_stop_effects K0 env0 s_finished).1 cfg_finished rfl (by decide)⟩,
    by decide, (mupgrade_stop_effects K0 env0 (init_state K0 30)).2 (by decide)⟩

/-! ### C15 -/

/-- C15. Write failure in `mupgrade_write`: on a session that is not stopped, for
a data packet that passes the range test, lies inside the bitmap and whose bit
is clear, a failing `esp_partition_write` makes `mupgrade_write` return
`MDF_ERR_MUPGRADE_FIRMWARE_DOWNLOAD`; the session record, with `written_size`
and the progress bitmap, is as before the call, and the only call made is the
failed write. -/
theorem mupgrade_write_partition_failure (K : Consts) (env : Env) (s : NodeState)
    (cfg : Config) (p : Packet) (size : Nat)
    (h : s.g_upgrade_config = some cfg)
    (hact : cfg.status.error_code ≠ MdfErr.MDF_ERR_MUPGRADE_STOP) (hsz : size ≠ 0)
    (hin : ¬ p.seq * K.MUPGRADE_PACKET_MAX_SIZE > cfg.status.total_size)
    (hbit : p.seq < bitmap_bits K)
    (hclear : MUPGRADE_GET_BITS cfg.status.progress_array p.seq = false)
    (hfail : env.esp_partition_write ≠ MdfErr.MDF_OK) :
    ∃ s2, mupgrade_write K env s p size
        = some (MdfErr.MDF_ERR_MUPGRADE_FIRMWARE_DOWNLOAD, s2) ∧
      s2.g_upgrade_config = some cfg ∧
      s2.g_upgrade_finished_flag = s.g_upgrade_finished_flag ∧
      s2.s_next_written_percentage = s.s_next_written_percentage ∧
      new_calls s s2 = [Call.esp_partition_write cfg.partition
        (p.seq * K.MUPGRADE_PACKET_MAX_SIZE) p.data p.size] := by
  have hb : ¬ bitmap_bits K ≤ p.seq := by omega
  refine ⟨s.log (Call.esp_partition_write cfg.partition
    (p.seq * K.MUPGRADE_PACKET_MAX_SIZE) p.data p.size), ?_, ?_, rfl, rfl, ?_⟩
  · simp only [mupgrade_write, hsz, h, hact, mupgrade_write_active, hin, hb, hclear, hfail,
      if_false, if_true, ne_eq, not_false_eq_true, Bool.false_eq_true]
  · simp [NodeState.log, h]
  · simp [new_calls, NodeState.log]

/-- Witness for C15: `pkt0` on the announced session while the partition write
fails. -/
theorem mupgrade_write_partition_failure_witness :
    s_announced.g_upgrade_config = some cfg_announced ∧
    cfg_announced.status.error_code ≠ MdfErr.MDF_ERR_MUPGRADE_STOP ∧ 205 ≠ 0 ∧
    ¬ pkt0.seq * K0.MUPGRADE_PACKET_MAX_SIZE > cfg_announced.status.total_size ∧
    pkt0.seq < bitmap_bits K0 ∧
    MUPGRADE_GET_BITS cfg_announced.status.progress_array pkt0.seq = false ∧
    env_wfail.esp_partition_write ≠ MdfErr.MDF_OK ∧
    ∃ s2, mupgrade_write K0 env_wfail s_announced pkt0 205
        = some (MdfErr.MDF_ERR_MUPGRADE_FIRMWARE_DOWNLOAD, s2) ∧
      s2.g_upgrade_config = some cfg_announced ∧
      s2.g_upgrade_finished_flag = s_announced.g_upgrade_finished_flag ∧
      s2.s_next_written_percentage = s_announced.s_next_written_percentage ∧
      new_calls s_announced s2 = [Call.esp_partition_write cfg_announced.partition
        (pkt0.seq * K0.MUPGRADE_PACKET_MAX_SIZE) pkt0.data pkt0.size] :=
  ⟨by decide, by decide, by decide, by decide, by decide, by decide, by decide,
    mupgrade_write_partition_failure K0 env_wfail s_announced cfg_announced pkt0 205
      (by decide) (by decide) (by decide) (by decide) (by decide) (by decide) (by decide)⟩

/-! ### C20 -/

theorem progress_cases (K : Consts) (s : NodeState) (cfg : Config) :
    ∃ ext, (mupgrade_write_progress K s cfg).trace = s.trace ++ ext ∧
      (cfg.status.written_size * 100 % U32 / cfg.status.total_size
          = s.s_next_written_percentage →
        ext.countP is_info_save = 1 ∧ ext.countP is_status_event = 1 ∧
        Call.mdf_event_loop_send MdfEvent.MDF_EVENT_MUPGRADE_STATUS
          (cfg.status.written_size * 100 % U32 / cfg.status.total_size) ∈ ext ∧
        (mupgrade_write_progress K s cfg).s_next_written_percentage
          = (s.s_next_written_percentage + K.CONFIG_MUPGRADE_STATUS_REPORT_INTERVAL) % U32) ∧
      (cfg.status.written_size * 100 % U32 / cfg.status.total_size
          > s.s_next_written_percentage →
        ext = [] ∧
        (mupgrade_write_progress K s cfg).s_next_written_percentage
          = ((cfg.status.written_size * 100 % U32 / cfg.status.total_size
                / K.CONFIG_MUPGRADE_STATUS_REPORT_INTERVAL + 1)
              * K.CONFIG_MUPGRADE_STATUS_REPORT_INTERVAL) % U32) ∧
      (cfg.status.written_size * 100 % U32 / cfg.status.total_size
          < s.s_next_written_percentage →
        ext = [] ∧
        (mupgrade_write_progress K s cfg).s_next_written_percentage
          = s.s_next_written_percentage) := by
  unfold mupgrade_write_progress
  simp only [NodeState.log]
  split_ifs with h1 h2
  · refine ⟨[Call.mdf_info_save cfg,
      Call.mdf_event_loop_send MdfEvent.MDF_EVENT_MUPGRADE_STATUS
        (cfg.status.written_size * 100 % U32 / cfg.status.total_size)], by simp, ?_, ?_, ?_⟩
    · intro _
      simp [is_info_save, is_status_event]
    · intro h; omega
    · intro h; omega
  · refine ⟨[], by simp, ?_, ?_, ?_⟩
    · intro h; exact absurd h h1
    · intro _; exact ⟨rfl, rfl⟩
    · intro h; omega
  · refine ⟨[], by simp, ?_, ?_, ?_⟩
    · intro h; exact absurd h h1
    · intro h; exact absurd h h2
    · intro _; exact ⟨rfl, rfl⟩

theorem finish_spec (env : Env) (s : NodeState) (cfg : Config) :
    ∃ ext, (mupgrade_write_finish env s cfg).2.trace = s.trace ++ ext ∧
      ext.countP is_info_save = 0 ∧ ext.countP is_status_event = 0 ∧
      (∀ n, Call.mdf_event_loop_send MdfEvent.MDF_EVENT_MUPGRADE_STATUS n ∉ ext) ∧
      (mupgrade_write_finish env s cfg).2.s_next_written_percentage
        = s.s_next_written_percentage := by
  unfold mupgrade_write_finish
  simp only [NodeState.log]
  split_ifs
  · exact ⟨[Call.esp_ota_end cfg.handle, Call.mdf_info_erase,
      Call.esp_ota_set_boot_partition env.esp_ota_get_next_update_partition],
      by simp, by simp [is_info_save], by simp [is_status_event], by simp, rfl⟩
  · exact ⟨[Call.esp_ota_end cfg.handle, Call.mdf_info_erase,
      Call.esp_ota_set_boot_partition env.esp_ota_get_next_update_partition,
      Call.mdf_event_loop_send MdfEvent.MDF_EVENT_MUPGRADE_FINISH 0,
      Call.mwifi_write cfg.status false],
      by simp, by simp [is_info_save], by simp [is_status_event], by simp, rfl⟩
  · exact ⟨[Call.esp_ota_end cfg.handle, Call.mdf_info_erase,
      Call.esp_ota_set_boot_partition env.esp_ota_get_next_update_partition,
      Call.mdf_event_loop_send MdfEvent.MDF_EVENT_MUPGRADE_FINISH 0,
      Call.mwifi_write cfg.status false],
      by simp, by simp [is_info_save], by simp [is_status_event], by simp, rfl⟩

theorem progress_then_finish (K : Consts) (env : Env) (s : NodeState) (cfg : Config)
    (fin : Prop) [Decidable fin] :
    ∃ ext,
      (if fin then (mupgrade_write_finish env (mupgrade_write_progress K s cfg) cfg).2
        else mupgrade_write_progress K s cfg).trace = s.trace ++ ext ∧
      (cfg.status.written_size * 100 % U32 / cfg.status.total_size
          = s.s_next_written_percentage →
        ext.countP is_info_save = 1 ∧ ext.countP is_status_event = 1 ∧
        Call.mdf_event_loop_send MdfEvent.MDF_EVENT_MUPGRADE_STATUS
          (cfg.status.written_size * 100 % U32 / cfg.status.total_size) ∈ ext ∧
        (if fin then (mupgrade_write_finish env (mupgrade_write_progress K s cfg) cfg).2
          else mupgrade_write_progress K s cfg).s_next_written_percentage
          = (s.s_next_written_percentage + K.CONFIG_MUPGRADE_STATUS_REPORT_INTERVAL) % U32) ∧
      (cfg.status.written_size * 100 % U32 / cfg.status.total_size
          > s.s_next_written_percentage →
        ext.countP is_info_save = 0 ∧ ext.countP is_status_event = 0 ∧
        (if fin then (mupgrade_write_finish env (mupgrade_write_progress K s cfg) cfg).2
          else mupgrade_write_progress K s cfg).s_next_written_percentage
          = ((cfg.status.written_size * 100 % U32 / cfg.status.total_size
                / K.CONFIG_MUPGRADE_STATUS_REPORT_INTERVAL + 1)
              * K.CONFIG_MUPGRADE_STATUS_REPORT_INTERVAL) % U32) ∧
      (cfg.status.written_size * 100 % U32 / cfg.status.total_size
          < s.s_next_written_percentage →
        ext.countP is_info_save = 0 ∧ ext.countP is_status_event = 0 ∧
        (if fin then (mupgrade_write_finish env (mupgrade_write_progress K s cfg) cfg).2
          else mupgrade_write_progress K s cfg).s_next_written_percentage
          = s.s_next_written_percentage) := by
  obtain ⟨ext, p0, p1, p2, p3⟩ := progress_cases K s cfg
  obtain ⟨extf, f0, f1, f2, _, f4⟩ := finish_spec env (mupgrade_write_progress K s cfg) cfg
  by_cases hfin : fin
  · simp only [hfin, if_true]
    refine ⟨ext ++ extf, by rw [f0, p0, List.append_assoc], ?_, ?_, ?_⟩
    · intro hp
      obtain ⟨q1, q2, q3, q4⟩ := p1 hp
      refine ⟨by simp [List.countP_append, q1, f1], by simp [List.countP_append, q2, f2],
        List.mem_append_left _ q3, by rw [f4, q4]⟩
    · intro hp
      obtain ⟨q1, q4⟩ := p2 hp
      subst q1
      exact ⟨by simpa using f1, by simpa using f2, by rw [f4, q4]⟩
    · intro hp
      obtain ⟨q1, q4⟩ := p3 hp
      subst q1
      exact ⟨by simpa using f1, by simpa using f2, by rw [f4, q4]⟩
  · simp only [hfin, if_false]
    refine ⟨ext, p0, ?_, ?_, ?_⟩
    · exact p1
    · intro hp
      obtain ⟨q1, q4⟩ := p2 hp
      subst q1
      exact ⟨rfl, rfl, q4⟩
    · intro hp
      obtain ⟨q1, q4⟩ := p3 hp
      subst q1
      exact ⟨rfl, rfl, q4⟩

theorem report_of_unfold (K : Consts) (env : Env) (s s1 : NodeState) (cfg1 : Config)
    (pw : Call) (res : Option (MdfErr × NodeState)) (fin : Prop) [Decidable fin]
    (htr : s1.trace = s.trace ++ [pw])
    (hnx : s1.s_next_written_percentage = s.s_next_written_percentage)
    (hpw : is_info_save pw = false ∧ is_status_event pw = false)
    (hu : res = if fin then
        some (mupgrade_write_finish env (mupgrade_write_progress K s1 cfg1) cfg1)
      else some (MdfErr.MDF_OK, mupgrade_write_progress K s1 cfg1)) :
    ∃ r s2, res = some (r, s2) ∧
      (cfg1.status.written_size * 100 % U32 / cfg1.status.total_size
          = s.s_next_written_percentage →
        (new_calls s s2).countP is_info_save = 1 ∧
        (new_calls s s2).countP is_status_event = 1 ∧
        Call.mdf_event_loop_send MdfEvent.MDF_EVENT_MUPGRADE_STATUS
          (cfg1.status.written_size * 100 % U32 / cfg1.status.total_size) ∈ new_calls s s2 ∧
        s2.s_next_written_percentage
          = (s.s_next_written_percentage + K.CONFIG_MUPGRADE_STATUS_REPORT_INTERVAL) % U32) ∧
      (cfg1.status.written_size * 100 % U32 / cfg1.status.total_size
          > s.s_next_written_percentage →
        (new_calls s s2).countP is_info_save = 0 ∧
        (new_calls s s2).countP is_status_event = 0 ∧
        s2.s_next_written_percentage
          = ((cfg1.status.written_size * 100 % U32 / cfg1.status.total_size
                / K.CONFIG_MUPGRADE_STATUS_REPORT_INTERVAL + 1)
              * K.CONFIG_MUPGRADE_STATUS_REPORT_INTERVAL) % U32) ∧
      (cfg1.status.written_size * 100 % U32 / cfg1.status.total_size
          < s.s_next_written_percentage →
        (new_calls s s2).countP is_info_save = 0 ∧
        (new_calls s s2).countP is_status_event = 0 ∧
        s2.s_next_written_percentage = s.s_next_written_percentage) := by
  obtain ⟨ext, t0, t1, t2, t3⟩ := progress_then_finish K env s1 cfg1 fin
  rw [hnx] at t1 t2 t3
  rw [htr] at t0
  refine ⟨if fin then (mupgrade_write_finish env (mupgrade_write_progress K s1 cfg1) cfg1).1
      else MdfErr.MDF_OK,
    if fin then (mupgrade_write_finish env (mupgrade_write_progress K s1 cfg1) cfg1).2
      else mupgrade_write_progress K s1 cfg1, ?_, ?_, ?_, ?_⟩
  · rw [hu]
    split_ifs <;> rfl
  · intro hp
    obtain ⟨q1, q2, q3, q4⟩ := t1 hp
    refine ⟨?_, ?_, ?_, q4⟩
    · rw [new_calls, t0]
      simp [List.countP_append, List.countP_cons, q1, hpw.1]
    · rw [new_calls, t0]
      simp [List.countP_append, List.countP_cons, q2, hpw.2]
    · rw [new_calls, t0]
      simp only [List.append_assoc, List.drop_left]
      exact List.mem_append_right _ q3
  · intro hp
    obtain ⟨q1, q2, q4⟩ := t2 hp
    refine ⟨?_, ?_, q4⟩
    · rw [new_calls, t0]
      simp [List.countP_append, List.countP_cons, q1, hpw.1]
    · rw [new_calls, t0]
      simp [List.countP_append, List.countP_cons, q2, hpw.2]
  · intro hp
    obtain ⟨q1, q2, q4⟩ := t3 hp
    refine ⟨?_, ?_, q4⟩
    · rw [new_calls, t0]
      simp [List.countP_append, List.countP_cons, q1, hpw.1]
    · rw [new_calls, t0]
      simp [List.countP_append, List.countP_cons, q2, hpw.2]

/-- C20, counterexample. On the announced session (nothing written, next
threshold 10 percent) the first packet of 200 bytes moves the percentage from
0 to 20, past the threshold: `mupgrade_write` succeeds but neither persists the
session nor raises a progress notification. -/
theorem progress_jump_is_not_reported :
    percentage_after cfg_announced 0 < s_announced.s_next_written_percentage ∧
    s_announced.s_next_written_percentage ≤ percentage_after cfg_announced pkt0.size ∧
    (mupgrade_write K0 env0 s_announced pkt0 205).map
        (fun r => (r.1, (new_calls s_announced r.2).countP is_info_save,
          (new_calls s_announced r.2).countP is_status_event))
      = some (MdfErr.MDF_OK, 0, 0) := by
  decide

/-- C20, amended. An accepted chunk (session not stopped, packet inside range
and bitmap, bit clear, partition write succeeding) gives the new percentage
`written_size * 100 / total_size`. If it equals the next threshold, the session
is persisted once, exactly one progress notification is raised and it carries
the new percentage, and the threshold advances by one report interval. If it is
above the threshold, nothing is persisted or notified and the threshold becomes
the first multiple of the report interval above the new percentage. If it is
below, nothing is persisted or notified and the threshold stays. -/
theorem mupgrade_write_progress_report (K : Consts) (env : Env) (s : NodeState)
    (cfg : Config) (p : Packet) (size : Nat)
    (h : s.g_upgrade_config = some cfg)
    (hact : cfg.status.error_code ≠ MdfErr.MDF_ERR_MUPGRADE_STOP) (hsz : size ≠ 0)
    (hin : p.seq * K.MUPGRADE_PACKET_MAX_SIZE ≤ cfg.status.total_size)
    (hbit : p.seq < bitmap_bits K) (hnew : p.seq ∉ cfg.status.progress_array)
    (hw : env.esp_partition_write = MdfErr.MDF_OK) (ht : cfg.status.total_size ≠ 0) :
    ∃ r s2, mupgrade_write K env s p size = some (r, s2) ∧
      (percentage_after cfg p.size = s.s_next_written_percentage →
        (new_calls s s2).countP is_info_save = 1 ∧
        (new_calls s s2).countP is_status_event = 1 ∧
        Call.mdf_event_loop_send MdfEvent.MDF_EVENT_MUPGRADE_STATUS
          (percentage_after cfg p.size) ∈ new_calls s s2 ∧
        s2.s_next_written_percentage
          = (s.s_next_written_percentage + K.CONFIG_MUPGRADE_STATUS_REPORT_INTERVAL) % U32) ∧
      (percentage_after cfg p.size > s.s_next_written_percentage →
        (new_calls s s2).countP is_info_save = 0 ∧
        (new_calls s s2).countP is_status_event = 0 ∧
        s2.s_next_written_percentage
          = ((percentage_after cfg p.size / K.CONFIG_MUPGRADE_STATUS_REPORT_INTERVAL + 1)
              * K.CONFIG_MUPGRADE_STATUS_REPORT_INTERVAL) % U32) ∧
      (percentage_after cfg p.size < s.s_next_written_percentage →
        (new_calls s s2).countP is_info_save = 0 ∧
        (new_calls s s2).countP is_status_event = 0 ∧
        s2.s_next_written_percentage = s.s_next_written_percentage) := by
  have hu := write_unfold K env s cfg _ p size h hact hsz hin hbit hnew hw ht rfl
  have hr := report_of_unfold K env s
    { s with
      g_upgrade_config := some { cfg with status :=
        { cfg.status with
            progress_array := insert p.seq cfg.status.progress_array,
            written_size := (cfg.status.written_size + p.size) % U32 } },
      trace := s.trace ++ [Call.esp_partition_write cfg.partition
                     (p.seq * K.MUPGRADE_PACKET_MAX_SIZE) p.data p.size] }
    { cfg with status :=
        { cfg.status with
            progress_array := insert p.seq cfg.status.progress_array,
            written_size := (cfg.status.written_size + p.size) % U32 } }
    (Call.esp_partition_write cfg.partition (p.seq * K.MUPGRADE_PACKET_MAX_SIZE) p.data p.size)
    (mupgrade_write K env s p size)
    ((cfg.status.written_size + p.size) % U32 = cfg.status.total_size)
    rfl rfl ⟨rfl, rfl⟩ hu
  exact hr

/-- Witness for C20 (amended): a packet of 100 bytes on the announced session
brings the percentage to 10, the next threshold. -/
theorem mupgrade_write_progress_report_witness :
    s_announced.g_upgrade_config = some cfg_announced ∧
    cfg_announced.status.error_code ≠ MdfErr.MDF_ERR_MUPGRADE_STOP ∧ 105 ≠ 0 ∧
    pkt_small.seq * K0.MUPGRADE_PACKET_MAX_SIZE ≤ cfg_announced.status.total_size ∧
    pkt_small.seq < bitmap_bits K0 ∧ pkt_small.seq ∉ cfg_announced.status.progress_array ∧
    env0.esp_partition_write = MdfErr.MDF_OK ∧ cfg_announced.status.total_size ≠ 0 ∧
    percentage_after cfg_announced pkt_small.size = s_announced.s_next_written_percentage ∧
    ∃ r s2, mupgrade_write K0 env0 s_announced pkt_small 105 = some (r, s2) ∧
      (percentage_after cfg_announced pkt_small.size = s_announced.s_next_written_percentage →
        (new_calls s_announced s2).countP is_info_save = 1 ∧
        (new_calls s_announced s2).countP is_status_event = 1 ∧
        Call.mdf_event_loop_send MdfEvent.MDF_EVENT_MUPGRADE_STATUS
          (percentage_after cfg_announced pkt_small.size) ∈ new_calls s_announced s2 ∧
        s2.s_next_written_percentage
          = (s_announced.s_next_written_percentage
              + K0.CONFIG_MUPGRADE_STATUS_REPORT_INTERVAL) % U32) ∧
      (percentage_after cfg_announced pkt_small.size > s_announced.s_next_written_percentage →
        (new_calls s_announced s2).countP is_info_save = 0 ∧
        (new_calls s_announced s2).countP is_status_event = 0 ∧
        s2.s_next_written_percentage
          = ((percentage_after cfg_announced pkt_small.size
                / K0.CONFIG_MUPGRADE_STATUS_REPORT_INTERVAL + 1)
              * K0.CONFIG_MUPGRADE_STATUS_REPORT_INTERVAL) % U32) ∧
      (percentage_after cfg_announced pkt_small.size < s_announced.s_next_written_percentage →
        (new_calls s_announced s2).countP is_info_save = 0 ∧
        (new_calls s_announced s2).countP is_status_event = 0 ∧
        s2.s_next_written_percentage = s_announced.s_next_written_percentage) :=
  ⟨by decide, by decide, by decide, by decide, by decide, by decide, by decide, by decide,
    by decide,
    mupgrade_write_progress_report K0 env0 s_announced cfg_announced pkt_small 105
      (by decide) (by decide) (by decide) (by decide) (by decide) (by decide) (by decide)
      (by decide)⟩

/-! ### Helper lemmas on announcements and chunk writes -/

theorem status_other_firmware (K : Consts) (env : Env) (s : NodeState) (status : Status)
    (hmem : s.g_upgrade_config = none → env.calloc_ok = true)
    (hnew : ¬ same_firmware (session_of env s) status) :
    ∃ s1 : NodeState, s1.trace = s.trace ∧
      s1.s_next_written_percentage = s.s_next_written_percentage ∧
      s1.assoc_expire = s.assoc_expire ∧
      mupgrade_status K env s status = some (mupgrade_status_new K env s1 status) := by
  cases hc : s.g_upgrade_config with
  | none =>
    have hn : ¬ ((load_config env).status.name = status.name ∧
        (load_config env).status.total_size = status.total_size) := by
      simpa [same_firmware, session_of, hc] using hnew
    refine ⟨{ s with g_upgrade_config := some (load_config env) }, rfl, rfl, rfl, ?_⟩
    simp only [mupgrade_status, hc, hmem hc, if_true, hn, if_false]
  | some cfg =>
    have hn : ¬ (cfg.status.name = status.name ∧
        cfg.status.total_size = status.total_size) := by
      simpa [same_firmware, session_of, hc] using hnew
    refine ⟨{ s with g_upgrade_config := some cfg }, rfl, rfl, rfl, ?_⟩
    simp only [mupgrade_status, hc, hn, if_false]

theorem status_new_threshold (K : Consts) (env : Env) (s : NodeState) (status : Status) :
    (mupgrade_status_new K env s status).2.s_next_written_percentage
      = s.s_next_written_percentage := by
  unfold mupgrade_status_new
  simp only [NodeState.log]
  split_ifs <;> rw [exit_eq]

theorem exit_calls_assoc (K : Consts) (cfg : Config) (ret : MdfErr) :
    assoc_calls (exit_calls K cfg ret) = [] := by
  unfold exit_calls
  split_ifs <;> rfl

theorem status_new_begin_fails (K : Consts) (env : Env) (s : NodeState) (status : Status)
    (hrole : env.receiving)
    (hpart : env.esp_ota_get_running_partition ≠ none ∧
      env.esp_ota_get_next_update_partition ≠ none)
    (hfail : env.esp_ota_begin ≠ MdfErr.MDF_OK) :
    (mupgrade_status_new K env s status).2.g_upgrade_config
      = some (unprepared_config K env status) ∧
    (mupgrade_status_new K env s status).2.assoc_expire = 60 ∧
    assoc_calls ((mupgrade_status_new K env s status).2.trace.drop s.trace.length) = [60] := by
  have hr : ¬ (env.esp_mesh_get_type = MeshType.MESH_ROOT ∨
      env.esp_mesh_get_type = MeshType.MESH_STA) := fun h => h.elim hrole.1 hrole.2
  have hp : ¬ (env.esp_ota_get_running_partition = none ∨
      env.esp_ota_get_next_update_partition = none) := fun h => h.elim hpart.1 hpart.2
  simp only [mupgrade_status_new, hr, hp, hfail, if_false, if_true, ne_eq, not_false_eq_true,
    exit_eq, NodeState.log]
  refine ⟨rfl, trivial, ?_⟩
  rw [List.append_assoc, List.append_assoc, List.drop_left]
  show assoc_calls (Call.esp_mesh_set_ap_assoc_expire 60 ::
    Call.esp_ota_begin env.esp_ota_get_next_update_partition status.total_size ::
    exit_calls K _ env.esp_ota_begin) = [60]
  simp only [assoc_calls, exit_calls_assoc]

theorem status_new_begin_ok (K : Consts) (env : Env) (s : NodeState) (status : Status)
    (hrole : env.receiving)
    (hpart : env.esp_ota_get_running_partition ≠ none ∧
      env.esp_ota_get_next_update_partition ≠ none)
    (hok : env.esp_ota_begin = MdfErr.MDF_OK) :
    (mupgrade_status_new K env s status).2.assoc_expire = s.assoc_expire := by
  have hr : ¬ (env.esp_mesh_get_type = MeshType.MESH_ROOT ∨
      env.esp_mesh_get_type = MeshType.MESH_STA) := fun h => h.elim hrole.1 hrole.2
  have hp : ¬ (env.esp_ota_get_running_partition = none ∨
      env.esp_ota_get_next_update_partition = none) := fun h => h.elim hpart.1 hpart.2
  simp only [mupgrade_status_new, hr, hp, hok, if_false, ne_eq, not_true_eq_false,
    NodeState.log]
  split_ifs <;> rw [exit_eq]

theorem finish_no_partition_write (env : Env) (s : NodeState) (cfg : Config) :
    ∃ ext, (mupgrade_write_finish env s cfg).2.trace = s.trace ++ ext ∧
      ext.countP is_partition_write = 0 := by
  unfold mupgrade_write_finish
  simp only [NodeState.log]
  split_ifs
  · exact ⟨[Call.esp_ota_end cfg.handle, Call.mdf_info_erase,
      Call.esp_ota_set_boot_partition env.esp_ota_get_next_update_partition],
      by simp, by simp [is_partition_write]⟩
  · exact ⟨[Call.esp_ota_end cfg.handle, Call.mdf_info_erase,
      Call.esp_ota_set_boot_partition env.esp_ota_get_next_update_partition,
      Call.mdf_event_loop_send MdfEvent.MDF_EVENT_MUPGRADE_FINISH 0,
      Call.mwifi_write cfg.status false],
      by simp, by simp [is_partition_write]⟩
  · exact ⟨[Call.esp_ota_end cfg.handle, Call.mdf_info_erase,
      Call.esp_ota_set_boot_partition env.esp_ota_get_next_update_partition,
      Call.mdf_event_loop_send MdfEvent.MDF_EVENT_MUPGRADE_FINISH 0,
      Call.mwifi_write cfg.status false],
      by simp, by simp [is_partition_write]⟩

theorem calls_of_unfold (K : Consts) (env : Env) (s s1 : NodeState) (cfg1 : Config)
    (pw : Call) (res : Option (MdfErr × NodeState)) (fin : Prop) [Decidable fin]
    (htr : s1.trace = s.trace ++ [pw])
    (hu : res = if fin then
        some (mupgrade_write_finish env (mupgrade_write_progress K s1 cfg1) cfg1)
      else some (MdfErr.MDF_OK, mupgrade_write_progress K s1 cfg1)) :
    ∃ r s2 ext, res = some (r, s2) ∧ new_calls s s2 = pw :: ext ∧
      ext.countP is_partition_write = 0 := by
  obtain ⟨nxt, ext, e, _, _, c3⟩ := progress_spec K s1 cfg1
  have etr : (mupgrade_write_progress K s1 cfg1).trace = s.trace ++ pw :: ext := by
    rw [e, htr]
    simp
  by_cases hfin : fin
  · rw [if_pos hfin] at hu
    obtain ⟨ext2, f1, f2⟩ := finish_no_partition_write env
      (mupgrade_write_progress K s1 cfg1) cfg1
    refine ⟨(mupgrade_write_finish env (mupgrade_write_progress K s1 cfg1) cfg1).1,
      (mupgrade_write_finish env (mupgrade_write_progress K s1 cfg1) cfg1).2,
      ext ++ ext2, hu, ?_, ?_⟩
    · unfold new_calls
      rw [f1, etr]
      simp
    · simp [List.countP_append, c3, f2]
  · rw [if_neg hfin] at hu
    refine ⟨MdfErr.MDF_OK, mupgrade_write_progress K s1 cfg1, ext, hu, ?_, c3⟩
    unfold new_calls
    rw [etr]
    simp

theorem write_chunk_calls (K : Consts) (env : Env) (s : NodeState) (cfg : Config) (p : Packet)
    (size : Nat) (h : s.g_upgrade_config = some cfg)
    (hact : cfg.status.error_code ≠ MdfErr.MDF_ERR_MUPGRADE_STOP) (hsz : size ≠ 0)
    (hin : p.seq * K.MUPGRADE_PACKET_MAX_SIZE ≤ cfg.status.total_size)
    (hbit : p.seq < bitmap_bits K) (hnew : p.seq ∉ cfg.status.progress_array)
    (h5 : env.esp_partition_write = MdfErr.MDF_OK) (ht : cfg.status.total_size ≠ 0) :
    ∃ r s2 ext, mupgrade_write K env s p size = some (r, s2) ∧
      new_calls s s2 = Call.esp_partition_write cfg.partition
        (p.seq * K.MUPGRADE_PACKET_MAX_SIZE) p.data p.size :: ext ∧
      ext.countP is_partition_write = 0 := by
  have hu := write_unfold K env s cfg _ p size h hact hsz hin hbit hnew h5 ht rfl
  have hr := calls_of_unfold K env s
    { s with
      g_upgrade_config := some { cfg with status :=
        { cfg.status with
            progress_array := insert p.seq cfg.status.progress_array,
            written_size := (cfg.status.written_size + p.size) % U32 } },
      trace := s.trace ++ [Call.esp_partition_write cfg.partition
                     (p.seq * K.MUPGRADE_PACKET_MAX_SIZE) p.data p.size] }
    { cfg with status :=
        { cfg.status with
            progress_array := insert p.seq cfg.status.progress_array,
            written_size := (cfg.status.written_size + p.size) % U32 } }
    (Call.esp_partition_write cfg.partition (p.seq * K.MUPGRADE_PACKET_MAX_SIZE) p.data p.size)
    (mupgrade_write K env s p size)
    ((cfg.status.written_size + p.size) % U32 = cfg.status.total_size)
    rfl hu
  exact hr

/-! ### C23 -/

/-- C23, evaluation at the failing input. A node in the receiving role with
keepalive 30 gets the announcement `ann0` and `esp_ota_begin` fails: the only
call of `esp_mesh_set_ap_assoc_expire` is the one that sets 60, and the
keepalive is 60 after the call. With `esp_ota_begin` succeeding the keepalive
is set to 60 and then back to 30. -/
theorem keepalive_not_restored_after_failed_prepare :
    (init_state K0 30).assoc_expire = 30 ∧ env_beginfail.receiving ∧
    env_beginfail.esp_ota_begin = MdfErr.ESP_FAIL ∧
    (mupgrade_status K0 env_beginfail (init_state K0 30) ann0).map
        (fun r => (r.2.assoc_expire, assoc_calls r.2.trace)) = some (60, [60]) ∧
    (mupgrade_status K0 env0 (init_state K0 30) ann0).map
        (fun r => (r.2.assoc_expire, assoc_calls r.2.trace)) = some (30, [60, 30]) := by
  decide

/-! ### C25 -/

/-- C25, counterexample. The announcement `ann0` is adopted while
`esp_ota_begin` fails: the session holds the name and the size of the
firmware, the error code of the failure and no OTA handle. The data packet
`pkt0` that arrives next is written to the update partition and answered with
`MDF_OK`. A repeated announcement of the same firmware calls no
`esp_ota_begin`, and the packet after it is written as well. -/
theorem chunk_written_after_failed_prepare :
    s_unprepared.g_upgrade_config.map
        (fun c => (c.status.name, c.status.total_size, c.status.error_code, c.handle))
      = some ("fw.bin", 1000, MdfErr.ESP_FAIL, 0) ∧
    (mupgrade_write K0 env0 s_unprepared pkt0 205).map
        (fun r => (r.1, new_calls s_unprepared r.2))
      = some (MdfErr.MDF_OK, [Call.esp_partition_write (some 2) 0 pkt0.data 200]) ∧
    (mupgrade_status K0 env0 s_unprepared ann0).map
        (fun r => (r.1, (new_calls s_unprepared r.2).countP is_ota_begin))
      = some (MdfErr.MDF_OK, 0) ∧
    ((mupgrade_status K0 env0 s_unprepared ann0).bind (fun r =>
        (mupgrade_write K0 env0 r.2 pkt0 205).map
          (fun r2 => (r2.1, (new_calls r.2 r2.2).countP is_partition_write))))
      = some (MdfErr.MDF_OK, 1) := by
  decide

/-- C25, amended. When `mupgrade_status` adopts a new firmware in a receiving
role and `esp_ota_begin` fails, the session keeps the name and the size of the
announcement with nothing written and records the error of `esp_ota_begin`.
A repeated announcement of the same firmware then makes no call of
`esp_ota_begin`, and `mupgrade_write` with a packet that passes the range test
writes the chunk to the update partition although no prepare succeeded. -/
theorem failed_prepare_leaves_writable_session (K : Consts) (env env2 : Env) (s : NodeState)
    (status : Status) (p : Packet) (size : Nat)
    (hmem : s.g_upgrade_config = none → env.calloc_ok = true)
    (hrole : env.receiving)
    (hpart : env.esp_ota_get_running_partition ≠ none ∧
      env.esp_ota_get_next_update_partition ≠ none)
    (hfail : env.esp_ota_begin ≠ MdfErr.MDF_OK)
    (hnew : ¬ same_firmware (session_of env s) status)
    (hstop : status.error_code ≠ MdfErr.MDF_ERR_MUPGRADE_STOP)
    (hbegin : env.esp_ota_begin ≠ MdfErr.MDF_ERR_MUPGRADE_STOP)
    (hsz : size ≠ 0)
    (hin : p.seq * K.MUPGRADE_PACKET_MAX_SIZE ≤ status.total_size)
    (hbit : p.seq < bitmap_bits K) (ht : status.total_size ≠ 0)
    (hwrite : env2.esp_partition_write = MdfErr.MDF_OK) :
    ∃ r s1, mupgrade_status K env s status = some (r, s1) ∧
      s1.g_upgrade_config = some (unprepared_config K env status) ∧
      (unprepared_config K env status).status.error_code = env.esp_ota_begin ∧
      (∃ r2 s2, mupgrade_status K env2 s1 status = some (r2, s2) ∧
        (new_calls s1 s2).countP is_ota_begin = 0) ∧
      (∃ r3 s3 ext, mupgrade_write K env2 s1 p size = some (r3, s3) ∧
        new_calls s1 s3 = Call.esp_partition_write env.esp_ota_get_next_update_partition
          (p.seq * K.MUPGRADE_PACKET_MAX_SIZE) p.data p.size :: ext ∧
        ext.countP is_partition_write = 0) := by
  obtain ⟨s0, _, _, _, hst⟩ := status_other_firmware K env s status hmem hnew
  obtain ⟨hcfg, _, _⟩ := status_new_begin_fails K env s0 status hrole hpart hfail
  have herr : (unprepared_config K env status).status.error_code = env.esp_ota_begin := by
    simp [unprepared_config, hstop]
  refine ⟨(mupgrade_status_new K env s0 status).1, (mupgrade_status_new K env s0 status).2,
    hst, hcfg, herr, ?_, ?_⟩
  · have hsame := status_same K env2 (mupgrade_status_new K env s0 status).2
      (unprepared_config K env status) status hcfg ⟨rfl, rfl⟩
    refine ⟨_, _, hsame, ?_⟩
    unfold new_calls
    simp only [List.drop_left]
    exact (exit_calls_counts K _ _).1
  · exact write_chunk_calls K env2 (mupgrade_status_new K env s0 status).2
      (unprepared_config K env status) p size hcfg (by rw [herr]; exact hbegin) hsz hin hbit
      (by simp [unprepared_config]) hwrite ht

/-- Witness for C25 (amended): the announcement `ann0` with `esp_ota_begin`
failing, followed by `pkt0`. -/
theorem failed_prepare_leaves_writable_session_witness :
    ((init_state K0 30).g_upgrade_config = none → env_beginfail.calloc_ok = true) ∧
    env_beginfail.receiving ∧
    (env_beginfail.esp_ota_get_running_partition ≠ none ∧
      env_beginfail.esp_ota_get_next_update_partition ≠ none) ∧
    env_beginfail.esp_ota_begin ≠ MdfErr.MDF_OK ∧
    ¬ same_firmware (session_of env_beginfail (init_state K0 30)) ann0 ∧
    ∃ r s1, mupgrade_status K0 env_beginfail (init_state K0 30) ann0 = some (r, s1) ∧
      s1.g_upgrade_config = some (unprepared_config K0 env_beginfail ann0) ∧
      (unprepared_config K0 env_beginfail ann0).status.error_code
        = env_beginfail.esp_ota_begin ∧
      (∃ r2 s2, mupgrade_status K0 env0 s1 ann0 = some (r2, s2) ∧
        (new_calls s1 s2).countP is_ota_begin = 0) ∧
      (∃ r3 s3 ext, mupgrade_write K0 env0 s1 pkt0 205 = some (r3, s3) ∧
        new_calls s1 s3 = Call.esp_partition_write
          env_beginfail.esp_ota_get_next_update_partition
          (pkt0.seq * K0.MUPGRADE_PACKET_MAX_SIZE) pkt0.data pkt0.size :: ext ∧
        ext.countP is_partition_write = 0) :=
  ⟨fun _ => rfl, by decide, by decide, by decide, by decide,
    failed_prepare_leaves_writable_session K0 env_beginfail env0 (init_state K0 30) ann0 pkt0
      205 (fun _ => rfl) (by decide) (by decide) (by decide) (by decide) (by decide)
      (by decide) (by decide) (by decide) (by decide) (by decide) rfl⟩

/-! ### C27 -/

/-- C27, counterexample. On a node that never transferred anything the
announcement of the 600-byte image `ann1` starts from the threshold 10, and
the first chunk of 60 bytes (10 percent) is persisted and reported. After the
transfer of the 1000-byte image completed the threshold stands at 110; the
announcement `ann1` starts a new session with that threshold, and the same
first chunk is neither persisted nor reported. -/
theorem threshold_survives_new_session :
    (init_state K0 30).s_next_written_percentage = 10 ∧
    first_chunk_report (init_state K0 30) = some (MdfErr.MDF_OK, 1, 1, 10) ∧
    s_finished.s_next_written_percentage = 110 ∧
    ¬ same_firmware (session_of env0 s_finished) ann1 ∧
    first_chunk_report s_finished = some (MdfErr.MDF_OK, 0, 0, 110) := by
  decide

/-- C27, amended. The progress threshold is a static of `mupgrade_write` that
no announcement resets: `mupgrade_status` returns with the threshold it found,
also when it starts a new session for another firmware, and so does
`mupgrade_stop`. A new transfer starts from the threshold the earlier transfer
left behind. -/
theorem threshold_kept_by_announcement (K : Consts) (env : Env) (s : NodeState)
    (status : Status) (hmem : s.g_upgrade_config = none → env.calloc_ok = true) :
    ∃ r s2, mupgrade_status K env s status = some (r, s2) ∧
      s2.s_next_written_percentage = s.s_next_written_percentage ∧
      (mupgrade_stop K env s).2.s_next_written_percentage = s.s_next_written_percentage := by
  have hstop : (mupgrade_stop K env s).2.s_next_written_percentage
      = s.s_next_written_percentage := by
    unfold mupgrade_stop
    cases hc : s.g_upgrade_config with
    | none => rfl
    | some c =>
      simp only [NodeState.log]
      split_ifs <;> rfl
  by_cases hsame : same_firmware (session_of env s) status
  · cases hc : s.g_upgrade_config with
    | none =>
      have hs : (load_config env).status.name = status.name ∧
          (load_config env).status.total_size = status.total_size := by
        simpa [same_firmware, session_of, hc] using hsame
      have hst : mupgrade_status K env s status
          = some (mupgrade_status_exit K env
              { s with g_upgrade_config := some (load_config env) } (load_config env)
              MdfErr.MDF_OK) := by
        simp only [mupgrade_status, hc, hmem hc, if_true, hs, and_self]
      refine ⟨(mupgrade_status_exit K env
          { s with g_upgrade_config := some (load_config env) } (load_config env)
          MdfErr.MDF_OK).1,
        (mupgrade_status_exit K env
          { s with g_upgrade_config := some (load_config env) } (load_config env)
          MdfErr.MDF_OK).2, hst, ?_, hstop⟩
      rw [exit_eq]
    | some cfg =>
      have hs : same_firmware cfg status := by
        simpa [session_of, hc] using hsame
      exact ⟨_, _, status_same K env s cfg status hc hs, rfl, hstop⟩
  · obtain ⟨s1, _, h2, _, h4⟩ := status_other_firmware K env s status hmem hsame
    refine ⟨(mupgrade_status_new K env s1 status).1, (mupgrade_status_new K env s1 status).2,
      h4, ?_, hstop⟩
    rw [status_new_threshold, h2]

/-- Witness for C27 (amended): the announcement `ann1` on the node that
completed the transfer of `ann0`. -/
theorem threshold_kept_by_announcement_witness :
    (s_finished.g_upgrade_config = none → env0.calloc_ok = true) ∧
    ∃ r s2, mupgrade_status K0 env0 s_finished ann1 = some (r, s2) ∧
      s2.s_next_written_percentage = s_finished.s_next_written_percentage ∧
      (mupgrade_stop K0 env0 s_finished).2.s_next_written_percentage
        = s_finished.s_next_written_percentage :=
  ⟨fun _ => rfl, threshold_kept_by_announcement K0 env0 s_finished ann1 (fun _ => rfl)⟩

/-! ### C28 -/

/-- C28, counterexample. On the announced image of 1000 bytes the packet with
sequence 5 starts at offset `5 * 200 = 1000`, the end of the image: it passes
the range test and its 200 bytes are written at offset 1000. On the announced
image of 900 bytes the packet with sequence 4 carries 200 bytes from offset
800 on: it is written although only 100 bytes of the image remain. -/
theorem chunk_beyond_image_is_written :
    s_announced.g_upgrade_config = some cfg_announced ∧
    pkt5.seq * K0.MUPGRADE_PACKET_MAX_SIZE = cfg_announced.status.total_size ∧
    (mupgrade_write K0 env0 s_announced pkt5 205).map
        (fun r => (r.1, new_calls s_announced r.2))
      = some (MdfErr.MDF_OK, [Call.esp_partition_write (some 2) 1000 pkt5.data 200]) ∧
    s_announced900.g_upgrade_config.map (fun c => c.status.total_size) = some 900 ∧
    (mupgrade_write K0 env0 s_announced900 pkt4 205).map
        (fun r => (r.1, new_calls s_announced900 r.2))
      = some (MdfErr.MDF_OK, [Call.esp_partition_write (some 2) 800 pkt4.data 200]) := by
  decide

/-- C28, amended. For a session that is not stopped, `mupgrade_write` rejects
a packet with `MDF_ERR_INVALID_ARG`, writing nothing, exactly when
`seq * MUPGRADE_PACKET_MAX_SIZE > total_size`; so every chunk it writes
starts at an offset of at most `total_size`. A packet that passes this test,
lies inside the bitmap and is new is written at offset
`seq * MUPGRADE_PACKET_MAX_SIZE` with the size it carries, whatever that size
is. -/
theorem mupgrade_write_range_test (K : Consts) (env : Env) (s : NodeState) (cfg : Config)
    (p : Packet) (size : Nat) (h : s.g_upgrade_config = some cfg)
    (hact : cfg.status.error_code ≠ MdfErr.MDF_ERR_MUPGRADE_STOP) (hsz : size ≠ 0) :
    (p.seq * K.MUPGRADE_PACKET_MAX_SIZE > cfg.status.total_size →
      mupgrade_write K env s p size = some (MdfErr.MDF_ERR_INVALID_ARG, s)) ∧
    (∀ r s2, mupgrade_write K env s p size = some (r, s2) →
      (new_calls s s2).countP is_partition_write ≠ 0 →
      p.seq * K.MUPGRADE_PACKET_MAX_SIZE ≤ cfg.status.total_size) ∧
    (p.seq * K.MUPGRADE_PACKET_MAX_SIZE ≤ cfg.status.total_size →
      p.seq < bitmap_bits K → p.seq ∉ cfg.status.progress_array →
      env.esp_partition_write = MdfErr.MDF_OK → cfg.status.total_size ≠ 0 →
      ∃ r s2 ext, mupgrade_write K env s p size = some (r, s2) ∧
        new_calls s s2 = Call.esp_partition_write cfg.partition
          (p.seq * K.MUPGRADE_PACKET_MAX_SIZE) p.data p.size :: ext ∧
        ext.countP is_partition_write = 0) := by
  have hrej : p.seq * K.MUPGRADE_PACKET_MAX_SIZE > cfg.status.total_size →
      mupgrade_write K env s p size = some (MdfErr.MDF_ERR_INVALID_ARG, s) := by
    intro hgt
    simp only [mupgrade_write, hsz, h, hact, if_false, mupgrade_write_active, hgt, if_true]
  refine ⟨hrej, ?_, ?_⟩
  · intro r s2 hw hcnt
    by_contra hgt
    rw [hrej (Nat.lt_of_not_le hgt)] at hw
    simp only [Option.some.injEq, Prod.mk.injEq] at hw
    apply hcnt
    rw [← hw.2]
    simp [new_calls]
  · intro hin hbit hnew h5 ht
    exact write_chunk_calls K env s cfg p size h hact hsz hin hbit hnew h5 ht

/-- Witness for C28 (amended): `pkt5`, which starts at the end of the image,
on the announced session. -/
theorem mupgrade_write_range_test_witness :
    s_announced.g_upgrade_config = some cfg_announced ∧
    cfg_announced.status.error_code ≠ MdfErr.MDF_ERR_MUPGRADE_STOP ∧ 205 ≠ 0 ∧
    pkt5.seq * K0.MUPGRADE_PACKET_MAX_SIZE ≤ cfg_announced.status.total_size ∧
    ∃ r s2 ext, mupgrade_write K0 env0 s_announced pkt5 205 = some (r, s2) ∧
      new_calls s_announced s2 = Call.esp_partition_write cfg_announced.partition
        (pkt5.seq * K0.MUPGRADE_PACKET_MAX_SIZE) pkt5.data pkt5.size :: ext ∧
      ext.countP is_partition_write = 0 :=
  ⟨by decide, by decide, by decide, by decide,
    (mupgrade_write_range_test K0 env0 s_announced cfg_announced pkt5 205 (by decide)
      (by decide) (by decide)).2.2 (by decide) (by decide) (by decide) (by decide)
      (by decide)⟩

end Mupgrade

/-! # Theorems about the transport unit -/

namespace Mespnow


/-! ### Helper lemmas on `mespnow_recv_cb` -/

theorem recv_accept (K : Consts) (s : State) (addr d : List Nat) (pipe : Nat)
    (hw : well_formed K pipe d) (htok : s.g_last_magic pipe ≠ hdr_magic d)
    (hroom : (s.g_espnow_queue pipe).length < K.g_espnow_queue_size pipe) :
    (mespnow_recv_cb K true s addr d).g_espnow_queue pipe
        = s.g_espnow_queue pipe ++ [{ addr := addr, data := d }] ∧
    (mespnow_recv_cb K true s addr d).g_last_magic pipe = hdr_magic d ∧
    (mespnow_recv_cb K true s addr d).g_espnow_init_flag = s.g_espnow_init_flag := by
  obtain ⟨h1, h2, h3, h4, h5⟩ := hw
  have a1 : ¬ d.length < HEAD_LEN := by omega
  have a2 : ¬ pipe ≥ MESPNOW_TRANS_PIPE_MAX := by omega
  have a3 : ¬ K.g_espnow_queue_size pipe ≤ (s.g_espnow_queue pipe).length := by omega
  unfold mespnow_recv_cb
  rw [h2]
  simp only [a1, a2, h4, htok, ← h5, a3, if_false, ne_eq, not_true_eq_false, Bool.not_true,
    Bool.false_eq_true]
  split_ifs <;> simp

theorem recv_duplicate (K : Consts) (b : Bool) (s : State) (addr d : List Nat)
    (htok : s.g_last_magic (hdr_pipe d) = hdr_magic d) :
    mespnow_recv_cb K b s addr d = s := by
  unfold mespnow_recv_cb
  simp only [htok, if_true]
  split_ifs <;> rfl

/-! ### C5 -/

/-- C5. Immediate-duplicate suppression with a single-slot limit: `A` and `B`
are well-formed frames of one channel with different dedup tokens, the token of
`A` differs from the stored one, and the queue has room. Delivering `A, A`
enqueues `A` once; delivering `A, B, A` enqueues `A`, `B` and `A` again. -/
theorem mespnow_recv_cb_single_slot_dedup (K : Consts) (s : State) (addr frA frB : List Nat)
    (pipe : Nat) (hA : well_formed K pipe frA) (hB : well_formed K pipe frB)
    (hAB : hdr_magic frA ≠ hdr_magic frB) (hA0 : s.g_last_magic pipe ≠ hdr_magic frA)
    (hroom : (s.g_espnow_queue pipe).length + 3 ≤ K.g_espnow_queue_size pipe) :
    (deliver K true s addr [frA, frA]).g_espnow_queue pipe
      = s.g_espnow_queue pipe ++ [{ addr := addr, data := frA }] ∧
    (deliver K true s addr [frA, frB, frA]).g_espnow_queue pipe
      = s.g_espnow_queue pipe ++
        [{ addr := addr, data := frA }, { addr := addr, data := frB },
         { addr := addr, data := frA }] := by
  obtain ⟨a1, a2, _⟩ := recv_accept K s addr frA pipe hA hA0 (by omega)
  have hpA : hdr_pipe frA = pipe := hA.2.1
  constructor
  · simp only [deliver, List.foldl_cons, List.foldl_nil]
    rw [recv_duplicate K true _ addr frA (by rw [hpA]; exact a2)]
    exact a1
  · simp only [deliver, List.foldl_cons, List.foldl_nil]
    obtain ⟨b1, b2, _⟩ := recv_accept K (mespnow_recv_cb K true s addr frA) addr frB pipe hB
      (by rw [a2]; exact hAB) (by rw [a1]; simp; omega)
    obtain ⟨c1, _, _⟩ := recv_accept K
      (mespnow_recv_cb K true (mespnow_recv_cb K true s addr frA) addr frB) addr frA pipe hA
      (by rw [b2]; exact fun h => hAB h.symm) (by rw [b1, a1]; simp; omega)
    rw [c1, b1, a1]
    simp

/-- Witness for C5: frames `frameA` and `frameB` on the control channel of a
freshly initialised receiver. -/
theorem mespnow_recv_cb_single_slot_dedup_witness :
    well_formed K0 1 frameA ∧ well_formed K0 1 frameB ∧ hdr_magic frameA ≠ hdr_magic frameB ∧
    init_state.g_last_magic 1 ≠ hdr_magic frameA ∧
    (init_state.g_espnow_queue 1).length + 3 ≤ K0.g_espnow_queue_size 1 ∧
    (deliver K0 true init_state addr0 [frameA, frameA]).g_espnow_queue 1
      = init_state.g_espnow_queue 1 ++ [{ addr := addr0, data := frameA }] ∧
    (deliver K0 true init_state addr0 [frameA, frameB, frameA]).g_espnow_queue 1
      = init_state.g_espnow_queue 1 ++
        [{ addr := addr0, data := frameA }, { addr := addr0, data := frameB },
         { addr := addr0, data := frameA }] :=
  ⟨by decide, by decide, by decide, by decide, by decide,
    mespnow_recv_cb_single_slot_dedup K0 init_state addr0 frameA frameB 1
      (by decide) (by decide) (by decide) (by decide) (by decide)⟩

/-! ### C6 -/

theorem read_first_skip (tick : Nat → Nat) (pipe size wait_ticks : Nat) (f0 : QItem)
    (tl : List QItem) (hf0 : hdr_seq f0.data = 0 ∧ size > hdr_total_size f0.data) :
    ∀ (pre : List QItem) (c : Nat) (tr : List Call), (∀ x ∈ pre, discarded size x) →
      ∃ c2 tr2, read_first tick pipe size wait_ticks (pre ++ f0 :: tl) c tr
        = (some (f0, tl, c2), tr2) := by
  intro pre
  induction pre with
  | nil =>
    intro c tr _
    refine ⟨c + 1, tr ++ [Call.xQueueReceive pipe (ticks_at tick wait_ticks c)], ?_⟩
    simp [read_first, hf0]
  | cons x pre ih =>
    intro c tr hpre
    have hx : ¬ (hdr_seq x.data = 0 ∧ size > hdr_total_size x.data) :=
      hpre x (List.mem_cons_self _ _)
    obtain ⟨c2, tr2, h⟩ := ih (c + 1)
      (tr ++ [Call.xQueueReceive pipe (ticks_at tick wait_ticks c)])
      (fun y hy => hpre y (List.mem_cons_of_mem _ hy))
    refine ⟨c2, tr2, ?_⟩
    rw [List.cons_append]
    simp only [read_first, hx, if_false]
    exact h

theorem read_rest_mismatch (tick : Nat → Nat) (pipe size wait_ticks total_size : Nat)
    (src : List Nat) (bad : QItem) (rest : List QItem) :
    ∀ (mid : List QItem) (e r c : Nat) (buf : List Nat) (tr : List Call),
      in_sequence e mid → r + sizes_sum mid < total_size →
      hdr_seq bad.data ≠ e + mid.length →
      (read_rest tick pipe size wait_ticks total_size src (mid ++ bad :: rest) e r c buf tr).ret
        = MdfErr.ESP_FAIL := by
  intro mid
  induction mid with
  | nil =>
    intro e r c buf tr _ hr hbad
    have hr2 : r < total_size := by simpa [sizes_sum] using hr
    have hb : hdr_seq bad.data ≠ e := by simpa using hbad
    simp [read_rest, hr2, hb]
  | cons x mid ih =>
    intro e r c buf tr hseq hr hbad
    obtain ⟨hx, hseq2⟩ := hseq
    simp only [sizes_sum] at hr
    have hr2 : r < total_size := by omega
    have h := ih (e + 1) (r + hdr_size x.data) (c + 1) (buf ++ hdr_payload x.data (hdr_size x.data))
      (tr ++ [Call.xQueueReceive pipe (ticks_at tick wait_ticks c)]) hseq2 (by omega)
      (by simp only [List.length_cons] at hbad; omega)
    simpa [read_rest, hr2, hx] using h

/-- C6. Sequence fatality: the queue holds discarded frames `pre`, a first
fragment `f0` that `mespnow_read` accepts, frames `mid` carrying the sequence
numbers 1, 2, ... that leave bytes missing, and then a frame `bad` whose
sequence number is not the expected next one. Then `mespnow_read` returns
`ESP_FAIL`, the sequence-mismatch failure, and so does not return success. -/
theorem mespnow_read_sequence_mismatch_fails (s : State) (tick : Nat → Nat)
    (pipe size wait_ticks : Nat) (pre mid rest : List QItem) (f0 bad : QItem)
    (hq : s.g_espnow_queue pipe = pre ++ f0 :: (mid ++ bad :: rest))
    (hsize : size ≠ 0) (hpipe : pipe < MESPNOW_TRANS_PIPE_MAX)
    (hinit : s.g_espnow_init_flag = true)
    (hpre : ∀ x ∈ pre, discarded size x)
    (hf0 : hdr_seq f0.data = 0 ∧ size > hdr_total_size f0.data)
    (hmid : in_sequence 1 mid)
    (hmissing : hdr_size f0.data + sizes_sum mid < hdr_total_size f0.data)
    (hbad : hdr_seq bad.data ≠ mid.length + 1) :
    (mespnow_read s tick pipe size wait_ticks).ret = MdfErr.ESP_FAIL ∧
    (mespnow_read s tick pipe size wait_ticks).ret ≠ MdfErr.MDF_OK := by
  obtain ⟨c2, tr2, h1⟩ := read_first_skip tick pipe size wait_ticks f0 (mid ++ bad :: rest) hf0
    pre 0 [] hpre
  have h2 := read_rest_mismatch tick pipe size wait_ticks (hdr_total_size f0.data) f0.addr bad
    rest mid 1 (hdr_size f0.data) c2 (hdr_payload f0.data (hdr_size f0.data)) tr2 hmid hmissing
    (by omega)
  have h3 : (mespnow_read s tick pipe size wait_ticks).ret = MdfErr.ESP_FAIL := by
    simp only [mespnow_read, hsize, hpipe, hinit, hq, h1, if_false, not_true_eq_false,
      Bool.not_true, Bool.false_eq_true]
    exact h2
  exact ⟨h3, by rw [h3]; decide⟩

/-- Witness for C6: the control queue holds frames 0 and 2 of a three-frame
message; frame 1 was lost. -/
theorem mespnow_read_sequence_mismatch_fails_witness :
    s_gap.g_espnow_queue 1 = [] ++ item0 0 :: ([] ++ item0 2 :: []) ∧
    64 ≠ 0 ∧ 1 < MESPNOW_TRANS_PIPE_MAX ∧ s_gap.g_espnow_init_flag = true ∧
    (∀ x ∈ ([] : List QItem), discarded 64 x) ∧
    (hdr_seq (item0 0).data = 0 ∧ 64 > hdr_total_size (item0 0).data) ∧
    in_sequence 1 [] ∧
    hdr_size (item0 0).data + sizes_sum [] < hdr_total_size (item0 0).data ∧
    hdr_seq (item0 2).data ≠ ([] : List QItem).length + 1 ∧
    (mespnow_read s_gap (fun j => j) 1 64 1000).ret = MdfErr.ESP_FAIL ∧
    (mespnow_read s_gap (fun j => j) 1 64 1000).ret ≠ MdfErr.MDF_OK :=
  ⟨by decide, by decide, by decide, by decide, by simp, by decide, by decide, by decide,
    by decide,
    mespnow_read_sequence_mismatch_fails s_gap (fun j => j) 1 64 1000 [] [] [] (item0 0) (item0 2)
      (by decide) (by decide) (by decide) (by decide) (by simp) (by decide) (by decide)
      (by decide) (by decide)⟩

/-! ### Helper lemmas on frames -/

theorem hdr_encode (pipe crc seq size total magic : Nat) (p : List Nat) :
    hdr_oui (encode_head pipe crc seq size total magic ++ p) = g_oui ∧
    hdr_pipe (encode_head pipe crc seq size total magic ++ p) = pipe % 256 ∧
    hdr_crc (encode_head pipe crc seq size total magic ++ p) = crc % 256 ∧
    hdr_seq (encode_head pipe crc seq size total magic ++ p) = seq % 256 ∧
    hdr_size (encode_head pipe crc seq size total magic ++ p) = size % 256 ∧
    hdr_total_size (encode_head pipe crc seq size total magic ++ p)
      = total % 256 + 256 * (total / 256 % 256) ∧
    hdr_magic (encode_head pipe crc seq size total magic ++ p)
      = magic % 256 + 256 * (magic / 256 % 256) + 65536 * (magic / 65536 % 256)
        + 16777216 * (magic / 16777216 % 256) ∧
    (encode_head pipe crc seq size total magic ++ p).drop HEAD_LEN = p ∧
    (encode_head pipe crc seq size total magic ++ p).length = HEAD_LEN + p.length := by
  refine ⟨rfl, rfl, rfl, rfl, rfl, rfl, rfl, rfl, ?_⟩
  simp [encode_head, g_oui, HEAD_LEN]
  omega

theorem slice_length (K : Consts) (msg : List Nat) (i : Nat) :
    (slice K msg i).length
      = min K.MESPNOW_PAYLOAD_LEN (msg.length - i * K.MESPNOW_PAYLOAD_LEN) := by
  simp [slice, List.length_take, List.length_drop]

theorem frame_of_fields (K : Consts) (pipe : Nat) (msg : List Nat) (rand : Nat → Nat) (i : Nat)
    (hP8 : K.MESPNOW_PAYLOAD_LEN ≤ 255) (hpipe : pipe < MESPNOW_TRANS_PIPE_MAX) :
    hdr_oui (frame_of K pipe msg rand i) = g_oui ∧
    hdr_pipe (frame_of K pipe msg rand i) = pipe ∧
    hdr_crc (frame_of K pipe msg rand i) = crc8 K (slice K msg i) ∧
    hdr_seq (frame_of K pipe msg rand i) = i % 256 ∧
    hdr_size (frame_of K pipe msg rand i) = (slice K msg i).length ∧
    hdr_total_size (frame_of K pipe msg rand i) = msg.length % 65536 ∧
    hdr_magic (frame_of K pipe msg rand i) = rand i % U32 ∧
    hdr_payload (frame_of K pipe msg rand i) (slice K msg i).length = slice K msg i ∧
    (frame_of K pipe msg rand i).length = HEAD_LEN + (slice K msg i).length := by
  obtain ⟨e1, e2, e3, e4, e5, e6, e7, e8, e9⟩ := hdr_encode pipe (crc8 K (slice K msg i)) i
    (slice K msg i).length (msg.length % 65536) (rand i % U32) (slice K msg i)
  have hl := slice_length K msg i
  have hm : rand i % U32 < 4294967296 := Nat.mod_lt _ (by decide)
  unfold MESPNOW_TRANS_PIPE_MAX at hpipe
  refine ⟨e1, ?_, ?_, e4, ?_, ?_, ?_, ?_, e9⟩
  · rw [frame_of, e2]; omega
  · rw [frame_of, e3]; unfold crc8; omega
  · rw [frame_of, e5]; omega
  · rw [frame_of, e6]; omega
  · rw [frame_of, e7]; omega
  · rw [hdr_payload, frame_of, e8]; simp

theorem frame_of_well_formed (K : Consts) (pipe : Nat) (msg : List Nat) (rand : Nat → Nat)
    (i : Nat) (hP8 : K.MESPNOW_PAYLOAD_LEN ≤ 255) (hpipe : pipe < MESPNOW_TRANS_PIPE_MAX) :
    well_formed K pipe (frame_of K pipe msg rand i) := by
  obtain ⟨e1, e2, e3, _, e5, _, _, e8, e9⟩ := frame_of_fields K pipe msg rand i hP8 hpipe
  refine ⟨by omega, e2, hpipe, e1, ?_⟩
  rw [e5, e8, e3]

theorem lt_frame_count (K : Consts) (len i : Nat) (hP : 0 < K.MESPNOW_PAYLOAD_LEN) :
    i < frame_count K len ↔ i * K.MESPNOW_PAYLOAD_LEN < len := by
  unfold frame_count
  rw [Nat.lt_iff_add_one_le, Nat.le_div_iff_mul_le hP, Nat.add_mul]
  omega

theorem radio_frames_append (a b : List Call) :
    radio_frames (a ++ b) = radio_frames a ++ radio_frames b := by
  induction a with
  | nil => rfl
  | cons c a ih => cases c <;> simp [radio_frames, ih]

theorem take_min_length (l : List Nat) (n : Nat) : l.take (min l.length n) = l.take n := by
  rcases Nat.le_total l.length n with h | h
  · rw [Nat.min_eq_left h, List.take_of_length_le h, List.take_of_length_le (le_refl _)]
  · rw [Nat.min_eq_right h]

/-! ### Helper lemmas on `mespnow_write` -/

theorem attempts_acked (env : WriteEnv) (dest frame : List Nat) (wait_ticks : Nat)
    (hsend : ∀ k, env.esp_now_send k = MdfErr.MDF_OK)
    (hack : ∀ k, env.xEventGroupWaitBits k &&& SEND_CB_OK = SEND_CB_OK)
    (r wt k c : Nat) (tr : List Call) :
    send_attempts env dest frame wait_ticks r wt k c tr =
      some { ret := MdfErr.MDF_OK, acked := true, k := k + 1, c := c + 1,
             trace := tr ++ [Call.esp_now_send dest frame, Call.xEventGroupWaitBits wt] } := by
  cases r <;> simp [send_attempts, hsend, hack]

theorem write_frames_acked (K : Consts) (env : WriteEnv) (pipe : Nat) (dest msg : List Nat)
    (wait_ticks : Nat) (hP : 0 < K.MESPNOW_PAYLOAD_LEN) (hP8 : K.MESPNOW_PAYLOAD_LEN ≤ 255)
    (hsend : ∀ k, env.esp_now_send k = MdfErr.MDF_OK)
    (hack : ∀ k, env.xEventGroupWaitBits k &&& SEND_CB_OK = SEND_CB_OK) :
    ∀ (fuel i k c : Nat) (tr : List Call), i * K.MESPNOW_PAYLOAD_LEN < msg.length →
      msg.length - i * K.MESPNOW_PAYLOAD_LEN ≤ fuel →
      ∃ tr2, write_frames K env pipe dest (msg.length % 65536) wait_ticks fuel
          (msg.drop (i * K.MESPNOW_PAYLOAD_LEN)) i k c tr = some (MdfErr.MDF_OK, tr2) ∧
        radio_frames tr2 = radio_frames tr ++
          (List.range' i (frame_count K msg.length - i)).map
            (frame_of K pipe msg env.esp_random) := by
  intro fuel
  induction fuel with
  | zero => intro i k c tr h1 h2; omega
  | succ fuel ih =>
    intro i k c tr h1 h2
    have hi : i < frame_count K msg.length := (lt_frame_count K _ i hP).2 h1
    have hlen : (msg.drop (i * K.MESPNOW_PAYLOAD_LEN)).length
        = msg.length - i * K.MESPNOW_PAYLOAD_LEN := List.length_drop _ _
    have hsize : min (msg.drop (i * K.MESPNOW_PAYLOAD_LEN)).length K.MESPNOW_PAYLOAD_LEN % 256
        = min (msg.drop (i * K.MESPNOW_PAYLOAD_LEN)).length K.MESPNOW_PAYLOAD_LEN := by
      apply Nat.mod_eq_of_lt
      omega
    have htake : (msg.drop (i * K.MESPNOW_PAYLOAD_LEN)).take
        (min (msg.drop (i * K.MESPNOW_PAYLOAD_LEN)).length K.MESPNOW_PAYLOAD_LEN)
        = slice K msg i := by
      rw [take_min_length]
      rfl
    have hsl : min (msg.drop (i * K.MESPNOW_PAYLOAD_LEN)).length K.MESPNOW_PAYLOAD_LEN
        = (slice K msg i).length := by
      rw [slice_length, hlen, Nat.min_comm]
    have hframe : encode_head pipe (crc8 K (slice K msg i)) i (slice K msg i).length
        (msg.length % 65536) (env.esp_random i % U32) ++ slice K msg i
        = frame_of K pipe msg env.esp_random i := rfl
    have hsz2 : min (msg.drop (i * K.MESPNOW_PAYLOAD_LEN)).length K.MESPNOW_PAYLOAD_LEN % 256
        = (slice K msg i).length := hsize.trans hsl
    have htake2 : (msg.drop (i * K.MESPNOW_PAYLOAD_LEN)).take (slice K msg i).length
        = slice K msg i := by
      rw [← hsl]
      exact htake
    unfold write_frames
    simp only [hsz2, htake2, hframe, attempts_acked env dest _ wait_ticks hsend hack]
    simp only [ne_eq, not_true_eq_false, if_false, Bool.not_true, Bool.false_eq_true]
    by_cases hmore : (msg.drop (i * K.MESPNOW_PAYLOAD_LEN)).length > K.MESPNOW_PAYLOAD_LEN
    · rw [if_pos hmore]
      have hnext : (i + 1) * K.MESPNOW_PAYLOAD_LEN < msg.length := by
        rw [Nat.add_mul]; omega
      have hi1 : i + 1 < frame_count K msg.length := (lt_frame_count K _ (i + 1) hP).2 hnext
      have hdrop : (msg.drop (i * K.MESPNOW_PAYLOAD_LEN)).drop K.MESPNOW_PAYLOAD_LEN
          = msg.drop ((i + 1) * K.MESPNOW_PAYLOAD_LEN) := by
        rw [List.drop_drop, Nat.add_mul, Nat.one_mul]
      rw [hdrop]
      obtain ⟨tr2, r1, r2⟩ := ih (i + 1) (k + 1) (c + 1 + 1)
        (tr ++ [Call.esp_now_send dest (frame_of K pipe msg env.esp_random i),
          Call.xEventGroupWaitBits (ticks_at env.xTaskGetTickCount wait_ticks c)]) hnext
        (by rw [Nat.add_mul] at hnext ⊢; omega)
      refine ⟨tr2, r1, ?_⟩
      rw [r2, radio_frames_append]
      have hcnt : frame_count K msg.length - i = (frame_count K msg.length - (i + 1)) + 1 := by
        omega
      rw [hcnt, List.range'_succ]
      simp [radio_frames]
    · rw [if_neg hmore]
      refine ⟨_, rfl, ?_⟩
      have hlast : ¬ (i + 1) * K.MESPNOW_PAYLOAD_LEN < msg.length := by
        rw [Nat.add_mul]; omega
      have hi1 : ¬ i + 1 < frame_count K msg.length := fun h =>
        hlast ((lt_frame_count K _ (i + 1) hP).1 h)
      have hcnt : frame_count K msg.length - i = 1 := by omega
      rw [hcnt, radio_frames_append]
      simp [radio_frames]

theorem mespnow_write_acked (K : Consts) (env : WriteEnv) (s : State) (pipe : Nat)
    (dest msg : List Nat) (wait_ticks : Nat)
    (hP : 0 < K.MESPNOW_PAYLOAD_LEN) (hP8 : K.MESPNOW_PAYLOAD_LEN ≤ 255)
    (hne : msg ≠ []) (hpipe : pipe < MESPNOW_TRANS_PIPE_MAX)
    (hinit : s.g_espnow_init_flag = true)
    (hlock : env.xSemaphoreTake = true) (hmalloc : env.malloc_ok = true)
    (hsend : ∀ k, env.esp_now_send k = MdfErr.MDF_OK)
    (hack : ∀ k, env.xEventGroupWaitBits k &&& SEND_CB_OK = SEND_CB_OK) :
    ∃ tr, mespnow_write K env s pipe dest msg wait_ticks = some (MdfErr.MDF_OK, tr) ∧
      radio_frames tr = (List.range (frame_count K msg.length)).map
        (frame_of K pipe msg env.esp_random) := by
  have hlen : msg.length ≠ 0 := by
    intro h
    exact hne (List.length_eq_zero.1 h)
  obtain ⟨tr2, r1, r2⟩ := write_frames_acked K env pipe dest msg wait_ticks hP hP8 hsend hack
    msg.length 0 0 0 [Call.xSemaphoreTake wait_ticks] (by omega) (by omega)
  simp only [Nat.zero_mul, List.drop_zero, Nat.sub_zero] at r1 r2
  by_cases hdbg : pipe = MESPNOW_TRANS_PIPE_DEBUG
  · refine ⟨tr2 ++ [Call.xSemaphoreGive], ?_, ?_⟩
    · simp [mespnow_write, hlen, hpipe, hinit, hlock, hmalloc, r1]
      exact hdbg
    · rw [radio_frames_append, r2, List.range_eq_range']
      simp [radio_frames]
  · refine ⟨tr2 ++ [Call.mdf_event_loop_send MdfEvent.MDF_EVENT_MESPNOW_SEND pipe,
      Call.xSemaphoreGive], ?_, ?_⟩
    · simp [mespnow_write, hlen, hpipe, hinit, hlock, hmalloc, r1, hdbg]
    · rw [radio_frames_append, r2, List.range_eq_range']
      simp [radio_frames]

theorem getD_map_range (f : Nat → List Nat) (n i : Nat) (h : i < n) :
    ((List.range n).map f).getD i [] = f i := by
  simp [List.getD_eq_getElem?_getD, h]

theorem slices_flatten (K : Consts) (msg : List Nat) :
    ∀ (m i : Nat), ((List.range' i m).map (slice K msg)).flatten
      = (msg.drop (i * K.MESPNOW_PAYLOAD_LEN)).take (m * K.MESPNOW_PAYLOAD_LEN) := by
  intro m
  induction m with
  | zero => intro i; simp
  | succ m ih =>
    intro i
    rw [List.range'_succ, List.map_cons, List.flatten_cons, ih (i + 1), Nat.add_mul m 1,
      Nat.one_mul, Nat.add_comm (m * K.MESPNOW_PAYLOAD_LEN), List.take_add, List.drop_drop,
      Nat.add_mul i 1, Nat.one_mul]
    rfl

theorem slices_cover (K : Consts) (msg : List Nat) (hP : 0 < K.MESPNOW_PAYLOAD_LEN) :
    ((List.range (frame_count K msg.length)).map (slice K msg)).flatten = msg := by
  rw [List.range_eq_range', slices_flatten, Nat.zero_mul, List.drop_zero]
  apply List.take_of_length_le
  have h := (lt_frame_count K msg.length (frame_count K msg.length) hP).not.1 (lt_irrefl _)
  omega

/-! ### C10 -/

/-- C10. Fragmentation by `mespnow_write`: for a non-empty message of length
`L`, with every transmission acknowledged, exactly
`ceil(L / MESPNOW_PAYLOAD_LEN)` frames are handed to the radio. Frame `i` has
fragment length `min(MESPNOW_PAYLOAD_LEN, L - i * MESPNOW_PAYLOAD_LEN)`, at most
`MESPNOW_PAYLOAD_LEN`; its payload is the message from byte
`i * MESPNOW_PAYLOAD_LEN` on, its length on the air is header plus fragment, its
checksum is `crc8` of the payload, and it carries the marker and the requested
channel. The payloads concatenated give the message. -/
theorem mespnow_write_fragments (K : Consts) (env : WriteEnv) (s : State) (pipe : Nat)
    (dest msg : List Nat) (wait_ticks : Nat)
    (hP : 0 < K.MESPNOW_PAYLOAD_LEN) (hP8 : K.MESPNOW_PAYLOAD_LEN ≤ 255)
    (hne : msg ≠ []) (hpipe : pipe < MESPNOW_TRANS_PIPE_MAX)
    (hinit : s.g_espnow_init_flag = true)
    (hlock : env.xSemaphoreTake = true) (hmalloc : env.malloc_ok = true)
    (hsend : ∀ k, env.esp_now_send k = MdfErr.MDF_OK)
    (hack : ∀ k, env.xEventGroupWaitBits k &&& SEND_CB_OK = SEND_CB_OK) :
    ∃ tr, mespnow_write K env s pipe dest msg wait_ticks = some (MdfErr.MDF_OK, tr) ∧
      (radio_frames tr).length = frame_count K msg.length ∧
      (∀ i, i < frame_count K msg.length →
        hdr_size ((radio_frames tr).getD i [])
          = min K.MESPNOW_PAYLOAD_LEN (msg.length - i * K.MESPNOW_PAYLOAD_LEN) ∧
        hdr_size ((radio_frames tr).getD i []) ≤ K.MESPNOW_PAYLOAD_LEN ∧
        hdr_payload ((radio_frames tr).getD i []) (hdr_size ((radio_frames tr).getD i []))
          = (msg.drop (i * K.MESPNOW_PAYLOAD_LEN)).take (hdr_size ((radio_frames tr).getD i [])) ∧
        ((radio_frames tr).getD i []).length
          = HEAD_LEN + hdr_size ((radio_frames tr).getD i []) ∧
        hdr_crc ((radio_frames tr).getD i [])
          = crc8 K (hdr_payload ((radio_frames tr).getD i [])
              (hdr_size ((radio_frames tr).getD i []))) ∧
        hdr_oui ((radio_frames tr).getD i []) = g_oui ∧
        hdr_pipe ((radio_frames tr).getD i []) = pipe) ∧
      ((radio_frames tr).map (fun f => hdr_payload f (hdr_size f))).flatten = msg := by
  obtain ⟨tr, w1, w2⟩ := mespnow_write_acked K env s pipe dest msg wait_ticks hP hP8 hne hpipe
    hinit hlock hmalloc hsend hack
  refine ⟨tr, w1, by simp [w2], ?_, ?_⟩
  · intro i hi
    rw [w2, getD_map_range _ _ _ hi]
    obtain ⟨e1, e2, e3, _, e5, _, _, e8, e9⟩ :=
      frame_of_fields K pipe msg env.esp_random i hP8 hpipe
    have hl := slice_length K msg i
    refine ⟨by rw [e5, hl], by rw [e5, hl]; omega, ?_, by rw [e9, e5], by rw [e5, e8, e3], e1, e2⟩
    rw [e5, e8, hl, Nat.min_comm, ← List.length_drop, take_min_length]
    rfl
  · rw [w2, List.map_map]
    have hfun : (fun f => hdr_payload f (hdr_size f)) ∘ frame_of K pipe msg env.esp_random
        = slice K msg := by
      funext i
      obtain ⟨_, _, _, _, e5, _, _, e8, _⟩ :=
        frame_of_fields K pipe msg env.esp_random i hP8 hpipe
      simp only [Function.comp, e5, e8]
    rw [hfun]
    exact slices_cover K msg hP

/-- Witness for C10: the ten bytes of `msg0` in payloads of four bytes. -/
theorem mespnow_write_fragments_witness :
    0 < K0.MESPNOW_PAYLOAD_LEN ∧ K0.MESPNOW_PAYLOAD_LEN ≤ 255 ∧ msg0 ≠ [] ∧
    1 < MESPNOW_TRANS_PIPE_MAX ∧ init_state.g_espnow_init_flag = true ∧
    wenv0.xSemaphoreTake = true ∧ wenv0.malloc_ok = true ∧
    (∀ k, wenv0.esp_now_send k = MdfErr.MDF_OK) ∧
    (∀ k, wenv0.xEventGroupWaitBits k &&& SEND_CB_OK = SEND_CB_OK) ∧
    frame_count K0 msg0.length = 3 ∧
    ∃ tr, mespnow_write K0 wenv0 init_state 1 addr0 msg0 50 = some (MdfErr.MDF_OK, tr) ∧
      (radio_frames tr).length = frame_count K0 msg0.length ∧
      (∀ i, i < frame_count K0 msg0.length →
        hdr_size ((radio_frames tr).getD i [])
          = min K0.MESPNOW_PAYLOAD_LEN (msg0.length - i * K0.MESPNOW_PAYLOAD_LEN) ∧
        hdr_size ((radio_frames tr).getD i []) ≤ K0.MESPNOW_PAYLOAD_LEN ∧
        hdr_payload ((radio_frames tr).getD i []) (hdr_size ((radio_frames tr).getD i []))
          = (msg0.drop (i * K0.MESPNOW_PAYLOAD_LEN)).take
              (hdr_size ((radio_frames tr).getD i [])) ∧
        ((radio_frames tr).getD i []).length
          = HEAD_LEN + hdr_size ((radio_frames tr).getD i []) ∧
        hdr_crc ((radio_frames tr).getD i [])
          = crc8 K0 (hdr_payload ((radio_frames tr).getD i [])
              (hdr_size ((radio_frames tr).getD i []))) ∧
        hdr_oui ((radio_frames tr).getD i []) = g_oui ∧
        hdr_pipe ((radio_frames tr).getD i []) = 1) ∧
      ((radio_frames tr).map (fun f => hdr_payload f (hdr_size f))).flatten = msg0 :=
  ⟨by decide, by decide, by decide, by decide, by decide, by decide, by decide,
    fun _ => rfl, fun _ => (by decide : SEND_CB_OK &&& SEND_CB_OK = SEND_CB_OK), by decide,
    mespnow_write_fragments K0 wenv0 init_state 1 addr0 msg0 50 (by decide) (by decide)
      (by decide) (by decide) (by decide) (by decide) (by decide) (fun _ => rfl)
      (fun _ => (by decide : SEND_CB_OK &&& SEND_CB_OK = SEND_CB_OK))⟩

/-! ### Helper lemmas for the round trip -/

theorem deliver_frames (K : Consts) (pipe : Nat) (src msg : List Nat) (rand : Nat → Nat)
    (hP8 : K.MESPNOW_PAYLOAD_LEN ≤ 255) (hpipe : pipe < MESPNOW_TRANS_PIPE_MAX)
    (htok : ∀ i, rand (i + 1) % U32 ≠ rand i % U32) :
    ∀ (m i : Nat) (s : State),
      (s.g_espnow_queue pipe).length + m ≤ K.g_espnow_queue_size pipe →
      s.g_last_magic pipe ≠ rand i % U32 →
      (deliver K true s src ((List.range' i m).map (frame_of K pipe msg rand))).g_espnow_queue pipe
        = s.g_espnow_queue pipe ++
          (List.range' i m).map (fun j => { addr := src, data := frame_of K pipe msg rand j }) ∧
      (deliver K true s src ((List.range' i m).map (frame_of K pipe msg rand))).g_espnow_init_flag
        = s.g_espnow_init_flag := by
  intro m
  induction m with
  | zero => intro i s _ _; simp [deliver]
  | succ m ih =>
    intro i s hroom h0
    have hm : hdr_magic (frame_of K pipe msg rand i) = rand i % U32 :=
      (frame_of_fields K pipe msg rand i hP8 hpipe).2.2.2.2.2.2.1
    obtain ⟨a1, a2, a3⟩ := recv_accept K s src (frame_of K pipe msg rand i) pipe
      (frame_of_well_formed K pipe msg rand i hP8 hpipe) (by rw [hm]; exact h0) (by omega)
    obtain ⟨b1, b2⟩ := ih (i + 1) (mespnow_recv_cb K true s src (frame_of K pipe msg rand i))
      (by rw [a1]; simp; omega) (by rw [a2, hm]; exact fun h => htok i h.symm)
    have hstep : deliver K true s src ((List.range' i (m + 1)).map (frame_of K pipe msg rand))
        = deliver K true (mespnow_recv_cb K true s src (frame_of K pipe msg rand i)) src
            ((List.range' (i + 1) m).map (frame_of K pipe msg rand)) := by
      simp [deliver, List.range'_succ]
    rw [hstep, b1, b2, a1, a3, List.range'_succ]
    simp

theorem read_rest_frames (K : Consts) (pipe : Nat) (src msg : List Nat) (rand : Nat → Nat)
    (tick : Nat → Nat) (size wait_ticks : Nat)
    (hP : 0 < K.MESPNOW_PAYLOAD_LEN) (hP8 : K.MESPNOW_PAYLOAD_LEN ≤ 255)
    (hpipe : pipe < MESPNOW_TRANS_PIPE_MAX) (h8 : frame_count K msg.length ≤ 256) :
    ∀ (m i c : Nat) (tr : List Call), i + m = frame_count K msg.length →
      (read_rest tick pipe size wait_ticks msg.length src
        ((List.range' i m).map (fun j => { addr := src, data := frame_of K pipe msg rand j }))
        i (msg.take (i * K.MESPNOW_PAYLOAD_LEN)).length c
        (msg.take (i * K.MESPNOW_PAYLOAD_LEN)) tr).ret = MdfErr.MDF_OK ∧
      (read_rest tick pipe size wait_ticks msg.length src
        ((List.range' i m).map (fun j => { addr := src, data := frame_of K pipe msg rand j }))
        i (msg.take (i * K.MESPNOW_PAYLOAD_LEN)).length c
        (msg.take (i * K.MESPNOW_PAYLOAD_LEN)) tr).data = msg ∧
      (read_rest tick pipe size wait_ticks msg.length src
        ((List.range' i m).map (fun j => { addr := src, data := frame_of K pipe msg rand j }))
        i (msg.take (i * K.MESPNOW_PAYLOAD_LEN)).length c
        (msg.take (i * K.MESPNOW_PAYLOAD_LEN)) tr).size = msg.length ∧
      (read_rest tick pipe size wait_ticks msg.length src
        ((List.range' i m).map (fun j => { addr := src, data := frame_of K pipe msg rand j }))
        i (msg.take (i * K.MESPNOW_PAYLOAD_LEN)).length c
        (msg.take (i * K.MESPNOW_PAYLOAD_LEN)) tr).src_addr = src := by
  intro m
  induction m with
  | zero =>
    intro i c tr hi
    have hn : ¬ i * K.MESPNOW_PAYLOAD_LEN < msg.length := by
      rw [← lt_frame_count K msg.length i hP]
      omega
    have htake : msg.take (i * K.MESPNOW_PAYLOAD_LEN) = msg :=
      List.take_of_length_le (by omega)
    simp [read_rest, htake]
  | succ m ih =>
    intro i c tr hi
    have hlt : i * K.MESPNOW_PAYLOAD_LEN < msg.length := by
      rw [← lt_frame_count K msg.length i hP]
      omega
    obtain ⟨_, _, _, e4, e5, _, _, e8, _⟩ := frame_of_fields K pipe msg rand i hP8 hpipe
    have hseq : hdr_seq (frame_of K pipe msg rand i) = i := by
      rw [e4]
      omega
    have hrs : (msg.take (i * K.MESPNOW_PAYLOAD_LEN)).length < msg.length := by
      rw [List.length_take]
      omega
    have hbuf : msg.take (i * K.MESPNOW_PAYLOAD_LEN) ++ slice K msg i
        = msg.take ((i + 1) * K.MESPNOW_PAYLOAD_LEN) := by
      rw [Nat.add_mul, Nat.one_mul, List.take_add]
      rfl
    have hlen : (msg.take (i * K.MESPNOW_PAYLOAD_LEN)).length + (slice K msg i).length
        = (msg.take ((i + 1) * K.MESPNOW_PAYLOAD_LEN)).length := by
      rw [← hbuf, List.length_append]
    have h := ih (i + 1) (c + 1)
      (tr ++ [Call.xQueueReceive pipe (ticks_at tick wait_ticks c)]) (by omega)
    rw [List.range'_succ, List.map_cons]
    simp only [read_rest, hrs, if_true, hseq, ne_eq, not_true_eq_false, if_false, e5, e8, hbuf,
      hlen]
    exact h

/-! ### C11 -/

/-- C11. Decode rejection in `mespnow_recv_cb`: a received byte string that is
shorter than the header, or whose marker differs from `g_oui`, or whose
checksum byte differs from `crc8` of its payload, or whose channel is not a
defined one, leaves every queue and the list of notifications as they were. -/
theorem mespnow_recv_cb_rejects (K : Consts) (malloc_ok : Bool) (s : State)
    (addr data : List Nat)
    (h : data.length < HEAD_LEN ∨ hdr_oui data ≠ g_oui ∨
      hdr_crc data ≠ crc8 K (hdr_payload data (hdr_size data)) ∨
      MESPNOW_TRANS_PIPE_MAX ≤ hdr_pipe data) :
    (mespnow_recv_cb K malloc_ok s addr data).g_espnow_queue = s.g_espnow_queue ∧
    (mespnow_recv_cb K malloc_ok s addr data).events = s.events := by
  unfold mespnow_recv_cb
  split_ifs with h1 h2 h3 h4 h5 h6 h7 h8
  all_goals first
    | exact ⟨rfl, rfl⟩
    | (exfalso
       rcases h with h | h | h | h
       · exact h1 h
       · exact h3 h
       · exact h5 h
       · exact h2 h)

/-- Witness for C11: a frame with a wrong checksum byte reaches a freshly
initialised receiver. -/
theorem mespnow_recv_cb_rejects_witness :
    (frame_badcrc.length < HEAD_LEN ∨ hdr_oui frame_badcrc ≠ g_oui ∨
      hdr_crc frame_badcrc ≠ crc8 K0 (hdr_payload frame_badcrc (hdr_size frame_badcrc)) ∨
      MESPNOW_TRANS_PIPE_MAX ≤ hdr_pipe frame_badcrc) ∧
    (mespnow_recv_cb K0 true init_state addr0 frame_badcrc).g_espnow_queue
      = init_state.g_espnow_queue ∧
    (mespnow_recv_cb K0 true init_state addr0 frame_badcrc).events = init_state.events :=
  ⟨by decide, mespnow_recv_cb_rejects K0 true init_state addr0 frame_badcrc (by decide)⟩

/-! ### C16 -/

theorem attempts_silent (env : WriteEnv) (dest frame : List Nat) (wait_ticks : Nat)
    (hsend : ∀ k, env.esp_now_send k = MdfErr.MDF_OK)
    (hnack : ∀ k, env.xEventGroupWaitBits k &&& SEND_CB_OK ≠ SEND_CB_OK) :
    ∀ (r wt k c : Nat) (tr : List Call),
      ∃ a, send_attempts env dest frame wait_ticks (r + 1) wt k c tr = some a ∧
        a.ret = MdfErr.MDF_OK ∧ a.acked = false ∧
        radio_frames a.trace = radio_frames tr ++ List.replicate (r + 1) frame := by
  intro r
  induction r with
  | zero =>
    intro wt k c tr
    have ha : send_attempts env dest frame wait_ticks (0 + 1) wt k c tr =
        some { ret := MdfErr.MDF_OK, acked := false, k := k + 1, c := c + 1,
               trace := tr ++ [Call.esp_now_send dest frame, Call.xEventGroupWaitBits wt] } := by
      simp [send_attempts, hsend, hnack]
    refine ⟨_, ha, rfl, rfl, ?_⟩
    simp [radio_frames_append, radio_frames]
  | succ r ih =>
    intro wt k c tr
    obtain ⟨a, h1, h2, h3, h4⟩ := ih (ticks_at env.xTaskGetTickCount wait_ticks c) (k + 1)
      (c + 1) (tr ++ [Call.esp_now_send dest frame] ++ [Call.xEventGroupWaitBits wt])
    refine ⟨a, ?_, h2, h3, ?_⟩
    · rw [send_attempts]
      simp only [hsend, hnack, ne_eq, not_true_eq_false, if_false, Nat.add_eq_zero,
        one_ne_zero, and_false]
      exact h1
    · rw [h4, radio_frames_append, radio_frames_append]
      simp [radio_frames, List.replicate_succ]

/-- C16, counterexample. The lock is obtained, the timeout of 50 ticks is
finite, and no completion signal arrives for any of the three attempts of the
first frame: `mespnow_write` returns `ESP_FAIL`, not `MDF_ERR_TIMEOUT`. -/
theorem ack_wait_exhausted_returns_fail :
    (mespnow_write K0 wenv_silent init_state 1 addr0 msg0 50).map Prod.fst
      = some MdfErr.ESP_FAIL ∧
    (mespnow_write K0 wenv_silent init_state 1 addr0 msg0 50).map Prod.fst
      ≠ some MdfErr.MDF_ERR_TIMEOUT := by
  decide

/-- C16, amended. For a valid call of `mespnow_write`: if the send lock is not
obtained within the timeout, the call returns `MDF_ERR_TIMEOUT` and nothing is
sent; if the lock and the frame buffer are obtained, `esp_now_send` succeeds
and no wait of the first frame reports completion, the call returns `ESP_FAIL`
after the configured number of attempts (at least one). -/
theorem mespnow_write_timeout_or_fail (K : Consts) (env : WriteEnv) (s : State) (pipe : Nat)
    (dest msg : List Nat) (wait_ticks : Nat)
    (hne : msg ≠ []) (hpipe : pipe < MESPNOW_TRANS_PIPE_MAX)
    (hinit : s.g_espnow_init_flag = true) :
    (env.xSemaphoreTake = false →
      mespnow_write K env s pipe dest msg wait_ticks
        = some (MdfErr.MDF_ERR_TIMEOUT, [Call.xSemaphoreTake wait_ticks])) ∧
    (env.xSemaphoreTake = true → env.malloc_ok = true →
      0 < K.CONFIG_MESPNOW_RETRANSMIT_NUM →
      (∀ k, env.esp_now_send k = MdfErr.MDF_OK) →
      (∀ k, env.xEventGroupWaitBits k &&& SEND_CB_OK ≠ SEND_CB_OK) →
      ∃ tr, mespnow_write K env s pipe dest msg wait_ticks = some (MdfErr.ESP_FAIL, tr) ∧
        (radio_frames tr).length = K.CONFIG_MESPNOW_RETRANSMIT_NUM) := by
  have hlen : msg.length ≠ 0 := fun h => hne (List.length_eq_zero.1 h)
  constructor
  · intro hlock
    simp [mespnow_write, hlen, hpipe, hinit, hlock]
  · intro hlock hmalloc hR hsend hnack
    obtain ⟨fuel, hfuel⟩ : ∃ fuel, msg.length = fuel + 1 := ⟨msg.length - 1, by omega⟩
    obtain ⟨r, hr⟩ : ∃ r, K.CONFIG_MESPNOW_RETRANSMIT_NUM = r + 1 :=
      ⟨K.CONFIG_MESPNOW_RETRANSMIT_NUM - 1, by omega⟩
    obtain ⟨a, h1, h2, h3, h4⟩ := attempts_silent env dest
      (encode_head pipe
          (crc8 K (msg.take (min msg.length K.MESPNOW_PAYLOAD_LEN % 256))) 0
          (min msg.length K.MESPNOW_PAYLOAD_LEN % 256) (msg.length % 65536)
          (env.esp_random 0 % U32) ++
        msg.take (min msg.length K.MESPNOW_PAYLOAD_LEN % 256))
      wait_ticks hsend hnack r (ticks_at env.xTaskGetTickCount wait_ticks 0) 0 (0 + 1)
      [Call.xSemaphoreTake wait_ticks]
    have hw : write_frames K env pipe dest (msg.length % 65536) wait_ticks msg.length msg 0 0 0
        [Call.xSemaphoreTake wait_ticks] = some (MdfErr.ESP_FAIL, a.trace) := by
      rw [hfuel, write_frames, ← hfuel, hr, h1]
      simp [h2, h3]
    refine ⟨a.trace ++ [Call.xSemaphoreGive], ?_, ?_⟩
    · simp [mespnow_write, hlen, hpipe, hinit, hlock, hmalloc, hw]
    · rw [radio_frames_append, h4, hr]
      simp [radio_frames]

/-- Witness for C16 (amended): the lock is busy in `wenv_locked`; no
completion signal arrives in `wenv_silent`. -/
theorem mespnow_write_timeout_or_fail_witness :
    msg0 ≠ [] ∧ 1 < MESPNOW_TRANS_PIPE_MAX ∧ init_state.g_espnow_init_flag = true ∧
    wenv_locked.xSemaphoreTake = false ∧
    mespnow_write K0 wenv_locked init_state 1 addr0 msg0 50
      = some (MdfErr.MDF_ERR_TIMEOUT, [Call.xSemaphoreTake 50]) ∧
    wenv_silent.xSemaphoreTake = true ∧ wenv_silent.malloc_ok = true ∧
    0 < K0.CONFIG_MESPNOW_RETRANSMIT_NUM ∧
    ∃ tr, mespnow_write K0 wenv_silent init_state 1 addr0 msg0 50
        = some (MdfErr.ESP_FAIL, tr) ∧
      (radio_frames tr).length = K0.CONFIG_MESPNOW_RETRANSMIT_NUM :=
  ⟨by decide, by decide, by decide, by decide,
    (mespnow_write_timeout_or_fail K0 wenv_locked init_state 1 addr0 msg0 50 (by decide)
      (by decide) (by decide)).1 (by decide),
    by decide, by decide, by decide,
    (mespnow_write_timeout_or_fail K0 wenv_silent init_state 1 addr0 msg0 50 (by decide)
      (by decide) (by decide)).2 (by decide) (by decide) (by decide) (fun _ => rfl)
      (fun _ => (by decide : 0 &&& SEND_CB_OK ≠ SEND_CB_OK))⟩

/-! ### C17 -/

theorem read_rest_extends (tick : Nat → Nat) (pipe size wait_ticks total_size : Nat)
    (src : List Nat) :
    ∀ (q : List QItem) (e r c : Nat) (buf : List Nat) (tr : List Call),
      (read_rest tick pipe size wait_ticks total_size src q e r c buf tr).src_addr = src ∧
      ∃ more, (read_rest tick pipe size wait_ticks total_size src q e r c buf tr).data
        = buf ++ more := by
  intro q
  induction q with
  | nil =>
    intro e r c buf tr
    unfold read_rest
    split_ifs <;> exact ⟨rfl, [], by simp⟩
  | cons x q ih =>
    intro e r c buf tr
    unfold read_rest
    split_ifs
    · exact ⟨rfl, [], by simp⟩
    · obtain ⟨h1, more, h2⟩ := ih (e + 1) (r + hdr_size x.data) (c + 1)
        (buf ++ hdr_payload x.data (hdr_size x.data))
        (tr ++ [Call.xQueueReceive pipe (ticks_at tick wait_ticks c)])
      exact ⟨h1, hdr_payload x.data (hdr_size x.data) ++ more, by rw [h2, List.append_assoc]⟩
    · exact ⟨rfl, [], by simp⟩

/-- C17, counterexample. The control queue holds a first fragment (sequence 0)
that declares a total of ten bytes, and the caller's buffer holds exactly ten
bytes: `mespnow_read` discards the frame, stores nothing and runs into the
timeout on the emptied queue. -/
theorem exact_fit_is_discarded :
    hdr_seq (item0 0).data = 0 ∧ hdr_total_size (item0 0).data = 10 ∧
    s_one.g_espnow_queue 1 = [item0 0] ∧
    (mespnow_read s_one (fun j => j) 1 10 50).ret = MdfErr.MDF_ERR_TIMEOUT ∧
    (mespnow_read s_one (fun j => j) 1 10 50).data = [] ∧
    (mespnow_read s_one (fun j => j) 1 10 50).queue = [] := by
  decide

/-- C17, amended. A dequeued frame with sequence 0 whose declared total length
is strictly below the capacity of the caller's buffer starts the reassembly:
after the frames that the first loop discards, `mespnow_read` reports the
source address of that frame and the data returned begin with its payload. A
frame with sequence 0 whose declared total length equals the capacity is
dropped by the first loop, which goes on with the rest of the queue. -/
theorem mespnow_read_begins_with_fitting_first_fragment (s : State) (tick : Nat → Nat)
    (pipe size wait_ticks : Nat) (pre tl : List QItem) (f0 : QItem)
    (hq : s.g_espnow_queue pipe = pre ++ f0 :: tl)
    (hsize : size ≠ 0) (hpipe : pipe < MESPNOW_TRANS_PIPE_MAX)
    (hinit : s.g_espnow_init_flag = true)
    (hpre : ∀ x ∈ pre, discarded size x)
    (hseq : hdr_seq f0.data = 0) :
    (hdr_total_size f0.data < size →
      (mespnow_read s tick pipe size wait_ticks).src_addr = f0.addr ∧
      ∃ more, (mespnow_read s tick pipe size wait_ticks).data
        = hdr_payload f0.data (hdr_size f0.data) ++ more) ∧
    (hdr_total_size f0.data = size →
      ∀ (c : Nat) (tr : List Call),
        read_first tick pipe size wait_ticks (f0 :: tl) c tr
          = read_first tick pipe size wait_ticks tl (c + 1)
              (tr ++ [Call.xQueueReceive pipe (ticks_at tick wait_ticks c)])) := by
  constructor
  · intro hfit
    obtain ⟨c2, tr2, h1⟩ := read_first_skip tick pipe size wait_ticks f0 tl ⟨hseq, hfit⟩
      pre 0 [] hpre
    obtain ⟨h2, more, h3⟩ := read_rest_extends tick pipe size wait_ticks
      (hdr_total_size f0.data) f0.addr tl 1 (hdr_size f0.data) c2
      (hdr_payload f0.data (hdr_size f0.data)) tr2
    have hread : mespnow_read s tick pipe size wait_ticks
        = read_rest tick pipe size wait_ticks (hdr_total_size f0.data) f0.addr tl 1
            (hdr_size f0.data) c2 (hdr_payload f0.data (hdr_size f0.data)) tr2 := by
      simp only [mespnow_read, hsize, hpipe, hinit, hq, h1, if_false, not_true_eq_false,
        Bool.not_true, Bool.false_eq_true]
    rw [hread]
    exact ⟨h2, more, h3⟩
  · intro heq c tr
    have hno : ¬ (hdr_seq f0.data = 0 ∧ size > hdr_total_size f0.data) := by
      intro h
      omega
    simp only [read_first, hno, if_false]

/-- Witness for C17 (amended): the first frame of `msg0`, which declares ten
bytes, with a buffer of eleven bytes. -/
theorem mespnow_read_begins_with_fitting_first_fragment_witness :
    s_one.g_espnow_queue 1 = [] ++ item0 0 :: [] ∧ 11 ≠ 0 ∧ 1 < MESPNOW_TRANS_PIPE_MAX ∧
    s_one.g_espnow_init_flag = true ∧ (∀ x ∈ ([] : List QItem), discarded 11 x) ∧
    hdr_seq (item0 0).data = 0 ∧ hdr_total_size (item0 0).data < 11 ∧
    (mespnow_read s_one (fun j => j) 1 11 50).src_addr = (item0 0).addr ∧
    ∃ more, (mespnow_read s_one (fun j => j) 1 11 50).data
      = hdr_payload (item0 0).data (hdr_size (item0 0).data) ++ more :=
  ⟨by decide, by decide, by decide, by decide, by simp, by decide, by decide,
    (mespnow_read_begins_with_fitting_first_fragment s_one (fun j => j) 1 11 50 [] []
      (item0 0) (by decide) (by decide) (by decide) (by decide) (by simp) (by decide)).1
      (by decide)⟩

/-! ### C18 -/

theorem read_rest_size (tick : Nat → Nat) (pipe size wait_ticks total_size : Nat)
    (src : List Nat) :
    ∀ (q : List QItem) (e r c : Nat) (buf : List Nat) (tr : List Call),
      (read_rest tick pipe size wait_ticks total_size src q e r c buf tr).ret = MdfErr.MDF_OK →
      ∃ k, k ≤ q.length ∧
        (read_rest tick pipe size wait_ticks total_size src q e r c buf tr).queue = q.drop k ∧
        (read_rest tick pipe size wait_ticks total_size src q e r c buf tr).size
          = r + sizes_sum (q.take k) ∧
        total_size ≤ r + sizes_sum (q.take k) ∧
        ∀ j, j < k → r + sizes_sum (q.take j) < total_size := by
  intro q
  induction q with
  | nil =>
    intro e r c buf tr h
    by_cases h1 : r < total_size
    · simp [read_rest, h1] at h
    · simp only [read_rest, h1, if_false]
      exact ⟨0, Nat.le_refl _, rfl, rfl, by simpa [sizes_sum] using h1,
        fun j hj => absurd hj (Nat.not_lt_zero j)⟩
  | cons x q ih =>
    intro e r c buf tr h
    by_cases h1 : r < total_size
    · by_cases h2 : hdr_seq x.data = e
      · simp only [read_rest, h1, h2, if_true, ne_eq, not_true_eq_false, if_false] at h ⊢
        obtain ⟨k, hk, hq, hs, ht, hj⟩ := ih (e + 1) (r + hdr_size x.data) (c + 1)
          (buf ++ hdr_payload x.data (hdr_size x.data))
          (tr ++ [Call.xQueueReceive pipe (ticks_at tick wait_ticks c)]) h
        refine ⟨k + 1, by simpa using hk, by simpa using hq, ?_, ?_, ?_⟩
        · rw [hs]
          simp only [List.take_succ_cons, sizes_sum]
          omega
        · simp only [List.take_succ_cons, sizes_sum]
          omega
        · intro j hlt
          cases j with
          | zero => simpa [sizes_sum] using h1
          | succ j =>
            have := hj j (by omega)
            simp only [List.take_succ_cons, sizes_sum]
            omega
      · simp [read_rest, h1, h2] at h
    · simp only [read_rest, h1, if_false]
      exact ⟨0, Nat.zero_le _, rfl, rfl, by simpa [sizes_sum] using h1,
        fun j hj => absurd hj (Nat.not_lt_zero j)⟩

/-- C18, counterexample. The control queue holds the first frame of a six-byte
message (fragment of four bytes) followed by the second frame of another
message (sequence 1, fragment of four bytes). `mespnow_read` returns `MDF_OK`
and reports eight bytes, while the accepted first fragment declared a total of
six. -/
theorem read_size_exceeds_declared_total :
    hdr_total_size itemA0.data = 6 ∧
    (mespnow_read s_mixed (fun j => j) 1 64 50).ret = MdfErr.MDF_OK ∧
    (mespnow_read s_mixed (fun j => j) 1 64 50).size = 8 ∧
    (mespnow_read s_mixed (fun j => j) 1 64 50).data = [1, 2, 3, 4, 14, 15, 16, 17] := by
  decide

/-- C18, amended. When `mespnow_read` returns success after accepting the first
fragment `f0`, the reported size is the sum of the fragment lengths of `f0`
and of the `k` frames consumed after it; that sum is at least the total length
declared by `f0`, and `k` is the least number of frames for which it is. The
reported size equals the declared total length exactly when the fragment
lengths add up to it. -/
theorem mespnow_read_size_is_sum_of_fragments (s : State) (tick : Nat → Nat)
    (pipe size wait_ticks : Nat) (pre tl : List QItem) (f0 : QItem)
    (hq : s.g_espnow_queue pipe = pre ++ f0 :: tl)
    (hsize : size ≠ 0) (hpipe : pipe < MESPNOW_TRANS_PIPE_MAX)
    (hinit : s.g_espnow_init_flag = true)
    (hpre : ∀ x ∈ pre, discarded size x)
    (hseq : hdr_seq f0.data = 0) (hfit : hdr_total_size f0.data < size)
    (hok : (mespnow_read s tick pipe size wait_ticks).ret = MdfErr.MDF_OK) :
    ∃ k, k ≤ tl.length ∧
      (mespnow_read s tick pipe size wait_ticks).queue = tl.drop k ∧
      (mespnow_read s tick pipe size wait_ticks).size
        = hdr_size f0.data + sizes_sum (tl.take k) ∧
      hdr_total_size f0.data ≤ (mespnow_read s tick pipe size wait_ticks).size ∧
      (∀ j, j < k → hdr_size f0.data + sizes_sum (tl.take j) < hdr_total_size f0.data) ∧
      ((mespnow_read s tick pipe size wait_ticks).size = hdr_total_size f0.data ↔
        hdr_size f0.data + sizes_sum (tl.take k) = hdr_total_size f0.data) := by
  obtain ⟨c2, tr2, h1⟩ := read_first_skip tick pipe size wait_ticks f0 tl ⟨hseq, hfit⟩
    pre 0 [] hpre
  have hread : mespnow_read s tick pipe size wait_ticks
      = read_rest tick pipe size wait_ticks (hdr_total_size f0.data) f0.addr tl 1
          (hdr_size f0.data) c2 (hdr_payload f0.data (hdr_size f0.data)) tr2 := by
    simp only [mespnow_read, hsize, hpipe, hinit, hq, h1, if_false, not_true_eq_false,
      Bool.not_true, Bool.false_eq_true]
  rw [hread] at hok ⊢
  obtain ⟨k, hk, hq2, hs, ht, hj⟩ := read_rest_size tick pipe size wait_ticks
    (hdr_total_size f0.data) f0.addr tl 1 (hdr_size f0.data) c2
    (hdr_payload f0.data (hdr_size f0.data)) tr2 hok
  exact ⟨k, hk, hq2, hs, by rw [hs]; exact ht, hj, by rw [hs]⟩

/-- Witness for C18 (amended): the queue of `s_mixed` read into a buffer of 64
bytes. -/
theorem mespnow_read_size_is_sum_of_fragments_witness :
    s_mixed.g_espnow_queue 1 = [] ++ itemA0 :: [item0 1] ∧ 64 ≠ 0 ∧
    1 < MESPNOW_TRANS_PIPE_MAX ∧ s_mixed.g_espnow_init_flag = true ∧
    (∀ x ∈ ([] : List QItem), discarded 64 x) ∧
    hdr_seq itemA0.data = 0 ∧ hdr_total_size itemA0.data < 64 ∧
    (mespnow_read s_mixed (fun j => j) 1 64 50).ret = MdfErr.MDF_OK ∧
    ∃ k, k ≤ [item0 1].length ∧
      (mespnow_read s_mixed (fun j => j) 1 64 50).queue = [item0 1].drop k ∧
      (mespnow_read s_mixed (fun j => j) 1 64 50).size
        = hdr_size itemA0.data + sizes_sum ([item0 1].take k) ∧
      hdr_total_size itemA0.data ≤ (mespnow_read s_mixed (fun j => j) 1 64 50).size ∧
      (∀ j, j < k →
        hdr_size itemA0.data + sizes_sum ([item0 1].take j) < hdr_total_size itemA0.data) ∧
      ((mespnow_read s_mixed (fun j => j) 1 64 50).size = hdr_total_size itemA0.data ↔
        hdr_size itemA0.data + sizes_sum ([item0 1].take k) = hdr_total_size itemA0.data) :=
  ⟨by decide, by decide, by decide, by decide, by simp, by decide, by decide, by decide,
    mespnow_read_size_is_sum_of_fragments s_mixed (fun j => j) 1 64 50 [] [item0 1] itemA0
      (by decide) (by decide) (by decide) (by decide) (by simp) (by decide) (by decide)
      (by decide)⟩

/-! ### C19 -/

theorem remaining_ticks_single_reading (wait_ticks start now : Nat)
    (hfin : wait_ticks ≠ portMAX_DELAY) (hT : wait_ticks < U32) :
    remaining_ticks wait_ticks start now now
      = (if sub32 now start < wait_ticks then wait_ticks - sub32 now start else 0) ∧
    remaining_ticks wait_ticks start now now ≤ wait_ticks := by
  unfold remaining_ticks
  simp only [hfin, if_false]
  split_ifs with h
  · have : sub32 wait_ticks (sub32 now start) = wait_ticks - sub32 now start := by
      unfold sub32 at h ⊢
      unfold U32 at hT h ⊢
      omega
    rw [this]
    exact ⟨rfl, Nat.sub_le _ _⟩
  · exact ⟨rfl, Nat.zero_le _⟩

/-- C19, evaluation at the failing input. With a timeout of 10 ticks and a call
that starts at tick 0, the deadline expression reads the tick counter twice;
when the first reading is 9 and the second 12, the test `9 < 10` passes and the
wait handed to `xQueueReceive` is `10 - 12` as a 32-bit unsigned value,
4294967294 ticks, far above the timeout of 10. -/
theorem wait_exceeds_timeout_between_readings :
    remaining_ticks 10 0 9 12 = 4294967294 ∧
    (mespnow_read init_state tick_race 1 64 10).trace = [Call.xQueueReceive 1 4294967294] ∧
    ¬ (4294967294 ≤ 10) := by
  decide

/-! ### C21 -/

theorem attempts_bounded (env : WriteEnv) (dest frame : List Nat) (wait_ticks : Nat) :
    ∀ (r wt k c : Nat) (tr : List Call), 0 < r →
      ∃ a n, send_attempts env dest frame wait_ticks r wt k c tr = some a ∧
        1 ≤ n ∧ n ≤ r ∧ a.k = k + n ∧
        radio_frames a.trace = radio_frames tr ++ List.replicate n frame ∧
        ((a.ret = MdfErr.MDF_OK ∧ a.acked = true) ↔ acked env (k + n - 1)) := by
  intro r
  induction r with
  | zero => intro wt k c tr h; omega
  | succ r ih =>
    intro wt k c tr _
    by_cases hsend : env.esp_now_send k = MdfErr.MDF_OK
    · by_cases hack : env.xEventGroupWaitBits k &&& SEND_CB_OK = SEND_CB_OK
      · have ha : send_attempts env dest frame wait_ticks (r + 1) wt k c tr =
            some { ret := MdfErr.MDF_OK, acked := true, k := k + 1, c := c + 1,
                   trace := tr ++ [Call.esp_now_send dest frame] ++
                     [Call.xEventGroupWaitBits wt] } := by
          simp [send_attempts, hsend, hack]
        refine ⟨_, 1, ha, Nat.le_refl _, by omega, rfl, ?_, ?_⟩
        · simp [radio_frames_append, radio_frames]
        · simp [acked, hsend, hack]
      · by_cases hr : r = 0
        · have ha : send_attempts env dest frame wait_ticks (r + 1) wt k c tr =
              some { ret := MdfErr.MDF_OK, acked := false, k := k + 1, c := c + 1,
                     trace := tr ++ [Call.esp_now_send dest frame] ++
                       [Call.xEventGroupWaitBits wt] } := by
            simp [send_attempts, hsend, hack, hr]
          refine ⟨_, 1, ha, Nat.le_refl _, by omega, rfl, ?_, ?_⟩
          · simp [radio_frames_append, radio_frames]
          · simp [acked, hack]
        · obtain ⟨a, n, h1, h2, h3, h4, h5, h6⟩ := ih
            (ticks_at env.xTaskGetTickCount wait_ticks c) (k + 1) (c + 1)
            (tr ++ [Call.esp_now_send dest frame] ++ [Call.xEventGroupWaitBits wt])
            (Nat.pos_of_ne_zero hr)
          refine ⟨a, n + 1, ?_, by omega, by omega, by omega, ?_, ?_⟩
          · rw [send_attempts]
            simp only [hsend, hack, hr, ne_eq, not_true_eq_false, if_false]
            exact h1
          · rw [h5, radio_frames_append, radio_frames_append]
            simp [radio_frames, List.replicate_succ]
          · have e : k + (n + 1) - 1 = k + 1 + n - 1 := by omega
            rw [e]
            exact h6
    · have ha : send_attempts env dest frame wait_ticks (r + 1) wt k c tr =
          some { ret := env.esp_now_send k, acked := false, k := k + 1, c := c,
                 trace := tr ++ [Call.esp_now_send dest frame] } := by
        simp [send_attempts, hsend]
      refine ⟨_, 1, ha, Nat.le_refl _, by omega, rfl, ?_, ?_⟩
      · simp [radio_frames_append, radio_frames]
      · simp [acked, hsend]

theorem write_frames_bounded (K : Consts) (env : WriteEnv) (pipe : Nat) (dest msg : List Nat)
    (wait_ticks : Nat) (hP : 0 < K.MESPNOW_PAYLOAD_LEN) (hP8 : K.MESPNOW_PAYLOAD_LEN ≤ 255)
    (hR : 1 ≤ K.CONFIG_MESPNOW_RETRANSMIT_NUM) :
    ∀ (fuel i k c : Nat) (tr : List Call), i * K.MESPNOW_PAYLOAD_LEN < msg.length →
      msg.length - i * K.MESPNOW_PAYLOAD_LEN ≤ fuel →
      ∃ ret tr2 ns, write_frames K env pipe dest (msg.length % 65536) wait_ticks fuel
          (msg.drop (i * K.MESPNOW_PAYLOAD_LEN)) i k c tr = some (ret, tr2) ∧
        radio_frames tr2 = radio_frames tr ++
          repeated (frame_of K pipe msg env.esp_random) i ns ∧
        (∀ n ∈ ns, 1 ≤ n ∧ n ≤ K.CONFIG_MESPNOW_RETRANSMIT_NUM) ∧
        1 ≤ ns.length ∧ i + ns.length ≤ frame_count K msg.length ∧
        (∀ j, j + 1 < ns.length → acked env (k + (ns.take (j + 1)).sum - 1)) ∧
        (ret = MdfErr.MDF_OK ↔
          (i + ns.length = frame_count K msg.length ∧ acked env (k + ns.sum - 1))) := by
  intro fuel
  induction fuel with
  | zero => intro i k c tr h1 h2; omega
  | succ fuel ih =>
    intro i k c tr h1 h2
    have hi : i < frame_count K msg.length := (lt_frame_count K _ i hP).2 h1
    have hlen : (msg.drop (i * K.MESPNOW_PAYLOAD_LEN)).length
        = msg.length - i * K.MESPNOW_PAYLOAD_LEN := List.length_drop _ _
    have hsize : min (msg.drop (i * K.MESPNOW_PAYLOAD_LEN)).length K.MESPNOW_PAYLOAD_LEN % 256
        = min (msg.drop (i * K.MESPNOW_PAYLOAD_LEN)).length K.MESPNOW_PAYLOAD_LEN := by
      apply Nat.mod_eq_of_lt
      omega
    have htake : (msg.drop (i * K.MESPNOW_PAYLOAD_LEN)).take
        (min (msg.drop (i * K.MESPNOW_PAYLOAD_LEN)).length K.MESPNOW_PAYLOAD_LEN)
        = slice K msg i := by
      rw [take_min_length]
      rfl
    have hsl : min (msg.drop (i * K.MESPNOW_PAYLOAD_LEN)).length K.MESPNOW_PAYLOAD_LEN
        = (slice K msg i).length := by
      rw [slice_length, hlen, Nat.min_comm]
    have hframe : encode_head pipe (crc8 K (slice K msg i)) i (slice K msg i).length
        (msg.length % 65536) (env.esp_random i % U32) ++ slice K msg i
        = frame_of K pipe msg env.esp_random i := rfl
    have hsz2 : min (msg.drop (i * K.MESPNOW_PAYLOAD_LEN)).length K.MESPNOW_PAYLOAD_LEN % 256
        = (slice K msg i).length := hsize.trans hsl
    have htake2 : (msg.drop (i * K.MESPNOW_PAYLOAD_LEN)).take (slice K msg i).length
        = slice K msg i := by
      rw [← hsl]
      exact htake
    obtain ⟨a, n, ha, hn1, hn2, hk, hrf, hiff⟩ := attempts_bounded env dest
      (frame_of K pipe msg env.esp_random i) wait_ticks K.CONFIG_MESPNOW_RETRANSMIT_NUM
      (ticks_at env.xTaskGetTickCount wait_ticks c) k (c + 1) tr hR
    unfold write_frames
    simp only [hsz2, htake2, hframe, ha]
    have hone : ∀ (ret : MdfErr), ret ≠ MdfErr.MDF_OK → ¬ acked env (k + n - 1) →
        ∃ ret2 tr2 ns, some (ret, a.trace) = some (ret2, tr2) ∧
          radio_frames tr2 = radio_frames tr ++
            repeated (frame_of K pipe msg env.esp_random) i ns ∧
          (∀ m ∈ ns, 1 ≤ m ∧ m ≤ K.CONFIG_MESPNOW_RETRANSMIT_NUM) ∧
          1 ≤ ns.length ∧ i + ns.length ≤ frame_count K msg.length ∧
          (∀ j, j + 1 < ns.length → acked env (k + (ns.take (j + 1)).sum - 1)) ∧
          (ret2 = MdfErr.MDF_OK ↔
            (i + ns.length = frame_count K msg.length ∧ acked env (k + ns.sum - 1))) := by
      intro ret hret hnack
      refine ⟨ret, a.trace, [n], rfl, ?_, ?_, by simp, by simpa using hi, ?_, ?_⟩
      · rw [hrf]
        simp [repeated]
      · intro m hm
        simp only [List.mem_singleton] at hm
        rw [hm]
        exact ⟨hn1, hn2⟩
      · intro j hj
        simp at hj
      · constructor
        · intro h
          exact absurd h hret
        · intro h
          simp only [List.sum_cons, List.sum_nil, Nat.add_zero] at h
          exact absurd h.2 hnack
    by_cases hret : a.ret = MdfErr.MDF_OK
    · by_cases hacked : a.acked = true
      · have hk1 : acked env (k + n - 1) := hiff.1 ⟨hret, hacked⟩
        simp only [hret, hacked, ne_eq, not_true_eq_false, if_false, Bool.not_true,
          Bool.false_eq_true]
        by_cases hmore : (msg.drop (i * K.MESPNOW_PAYLOAD_LEN)).length > K.MESPNOW_PAYLOAD_LEN
        · rw [if_pos hmore]
          have hnext : (i + 1) * K.MESPNOW_PAYLOAD_LEN < msg.length := by
            rw [Nat.add_mul]; omega
          have hdrop : (msg.drop (i * K.MESPNOW_PAYLOAD_LEN)).drop K.MESPNOW_PAYLOAD_LEN
              = msg.drop ((i + 1) * K.MESPNOW_PAYLOAD_LEN) := by
            rw [List.drop_drop, Nat.add_mul, Nat.one_mul]
          rw [hdrop]
          obtain ⟨ret, tr2, ns, r1, r2, r3, r4, r5, r6, r7⟩ := ih (i + 1) a.k a.c a.trace hnext
            (by rw [Nat.add_mul] at hnext ⊢; omega)
          refine ⟨ret, tr2, n :: ns, r1, ?_, ?_, by simp, ?_, ?_, ?_⟩
          · rw [r2, hrf]
            simp [repeated]
          · intro m hm
            rcases List.mem_cons.1 hm with h | h
            · rw [h]
              exact ⟨hn1, hn2⟩
            · exact r3 m h
          · simp only [List.length_cons]
            omega
          · intro j hj
            cases j with
            | zero =>
              simpa using hk1
            | succ j =>
              have hj2 : j + 1 < ns.length := by
                simp only [List.length_cons] at hj
                omega
              have := r6 j hj2
              rw [hk] at this
              simp only [List.take_succ_cons, List.sum_cons]
              have e : k + (n + (List.take (j + 1) ns).sum) - 1
                  = k + n + (List.take (j + 1) ns).sum - 1 := by omega
              rw [e]
              exact this
          · rw [r7, hk]
            simp only [List.length_cons, List.sum_cons]
            have e1 : i + (ns.length + 1) = i + 1 + ns.length := by omega
            have e2 : k + (n + ns.sum) - 1 = k + n + ns.sum - 1 := by omega
            rw [e1, e2]
        · rw [if_neg hmore]
          have hlast : ¬ (i + 1) * K.MESPNOW_PAYLOAD_LEN < msg.length := by
            rw [Nat.add_mul]; omega
          have hi1 : ¬ i + 1 < frame_count K msg.length := fun h =>
            hlast ((lt_frame_count K _ (i + 1) hP).1 h)
          refine ⟨MdfErr.MDF_OK, a.trace, [n], rfl, ?_, ?_, by simp, by simpa using hi, ?_, ?_⟩
          · rw [hrf]
            simp [repeated]
          · intro m hm
            simp only [List.mem_singleton] at hm
            rw [hm]
            exact ⟨hn1, hn2⟩
          · intro j hj
            simp at hj
          · simp only [List.length_singleton, List.sum_cons, List.sum_nil, Nat.add_zero,
              true_iff]
            exact ⟨by omega, hk1⟩
      · have hnack : ¬ acked env (k + n - 1) := fun h => hacked (hiff.2 h).2
        have hacked2 : a.acked = false := by
          cases h : a.acked
          · rfl
          · exact absurd h hacked
        simp only [hret, hacked2, ne_eq, not_true_eq_false, if_false, Bool.not_false, if_true]
        exact hone MdfErr.ESP_FAIL (by decide) hnack
    · have hnack : ¬ acked env (k + n - 1) := fun h => hret (hiff.2 h).1
      simp only [ne_eq, hret, not_false_eq_true, if_true]
      exact hone a.ret hret hnack

/-- C21. Bounded retry in `mespnow_write`: with a retry budget
`CONFIG_MESPNOW_RETRANSMIT_NUM` of at least one, every valid call that obtains
the lock and the frame buffer returns, and the frames handed to
`esp_now_send` are frame 0, frame 1, ... of the message, frame `j` repeated
`ns[j]` times with `1 ≤ ns[j] ≤` budget. Every frame but the last one put on
the air was signalled successful at its last transmission, so frame `j + 1` is
transmitted only after the success of frame `j`; the call returns `MDF_OK`
exactly when all frames of the message were sent and the last transmission was
signalled successful, so a frame whose transmissions all stay without success
ends the call with an error and nothing is sent after it. -/
theorem mespnow_write_bounded_retry (K : Consts) (env : WriteEnv) (s : State) (pipe : Nat)
    (dest msg : List Nat) (wait_ticks : Nat)
    (hP : 0 < K.MESPNOW_PAYLOAD_LEN) (hP8 : K.MESPNOW_PAYLOAD_LEN ≤ 255)
    (hR : 1 ≤ K.CONFIG_MESPNOW_RETRANSMIT_NUM)
    (hne : msg ≠ []) (hpipe : pipe < MESPNOW_TRANS_PIPE_MAX)
    (hinit : s.g_espnow_init_flag = true)
    (hlock : env.xSemaphoreTake = true) (hmalloc : env.malloc_ok = true) :
    ∃ ret tr ns, mespnow_write K env s pipe dest msg wait_ticks = some (ret, tr) ∧
      radio_frames tr = repeated (frame_of K pipe msg env.esp_random) 0 ns ∧
      (∀ n ∈ ns, 1 ≤ n ∧ n ≤ K.CONFIG_MESPNOW_RETRANSMIT_NUM) ∧
      1 ≤ ns.length ∧ ns.length ≤ frame_count K msg.length ∧
      (∀ j, j + 1 < ns.length → acked env ((ns.take (j + 1)).sum - 1)) ∧
      (ret = MdfErr.MDF_OK ↔
        (ns.length = frame_count K msg.length ∧ acked env (ns.sum - 1))) := by
  have hlen : msg.length ≠ 0 := by
    intro h
    exact hne (List.length_eq_zero.1 h)
  obtain ⟨ret, tr2, ns, r1, r2, r3, r4, r5, r6, r7⟩ := write_frames_bounded K env pipe dest msg
    wait_ticks hP hP8 hR msg.length 0 0 0 [Call.xSemaphoreTake wait_ticks] (by omega) (by omega)
  simp only [Nat.zero_mul, List.drop_zero, Nat.zero_add] at r1 r2 r5 r6 r7
  have hrf0 : radio_frames [Call.xSemaphoreTake wait_ticks] = [] := rfl
  rw [hrf0, List.nil_append] at r2
  by_cases hret : ret = MdfErr.MDF_OK
  · by_cases hdbg : pipe = MESPNOW_TRANS_PIPE_DEBUG
    · refine ⟨ret, tr2 ++ [Call.xSemaphoreGive], ns, ?_, ?_, r3, r4, r5, r6, r7⟩
      · simp [mespnow_write, hlen, hpipe, hinit, hlock, hmalloc, r1, hret]
        exact hdbg
      · rw [radio_frames_append, r2]
        simp [radio_frames]
    · refine ⟨ret, tr2 ++ [Call.mdf_event_loop_send MdfEvent.MDF_EVENT_MESPNOW_SEND pipe,
        Call.xSemaphoreGive], ns, ?_, ?_, r3, r4, r5, r6, r7⟩
      · simp [mespnow_write, hlen, hpipe, hinit, hlock, hmalloc, r1, hret, hdbg]
      · rw [radio_frames_append, r2]
        simp [radio_frames]
  · refine ⟨ret, tr2 ++ [Call.xSemaphoreGive], ns, ?_, ?_, r3, r4, r5, r6, r7⟩
    · simp [mespnow_write, hlen, hpipe, hinit, hlock, hmalloc, r1, hret]
    · rw [radio_frames_append, r2]
      simp [radio_frames]

/-- Witness for C21: the ten bytes of `msg0` when no completion signal ever
arrives, with a budget of three transmissions. -/
theorem mespnow_write_bounded_retry_witness :
    0 < K0.MESPNOW_PAYLOAD_LEN ∧ K0.MESPNOW_PAYLOAD_LEN ≤ 255 ∧
    1 ≤ K0.CONFIG_MESPNOW_RETRANSMIT_NUM ∧ msg0 ≠ [] ∧ 1 < MESPNOW_TRANS_PIPE_MAX ∧
    init_state.g_espnow_init_flag = true ∧ wenv_silent.xSemaphoreTake = true ∧
    wenv_silent.malloc_ok = true ∧
    ∃ ret tr ns, mespnow_write K0 wenv_silent init_state 1 addr0 msg0 50 = some (ret, tr) ∧
      radio_frames tr = repeated (frame_of K0 1 msg0 wenv_silent.esp_random) 0 ns ∧
      (∀ n ∈ ns, 1 ≤ n ∧ n ≤ K0.CONFIG_MESPNOW_RETRANSMIT_NUM) ∧
      1 ≤ ns.length ∧ ns.length ≤ frame_count K0 msg0.length ∧
      (∀ j, j + 1 < ns.length → acked wenv_silent ((ns.take (j + 1)).sum - 1)) ∧
      (ret = MdfErr.MDF_OK ↔
        (ns.length = frame_count K0 msg0.length ∧ acked wenv_silent (ns.sum - 1))) :=
  ⟨by decide, by decide, by decide, by decide, by decide, rfl, rfl, rfl,
    mespnow_write_bounded_retry K0 wenv_silent init_state 1 addr0 msg0 50 (by decide)
      (by decide) (by decide) (by decide) (by decide) rfl rfl rfl⟩

/-! ### C22 -/

theorem recv_records_token_before_checksum (K : Consts) (b : Bool) (s : State)
    (addr d : List Nat) (hlen : HEAD_LEN ≤ d.length)
    (hpipe : hdr_pipe d < MESPNOW_TRANS_PIPE_MAX) (houi : hdr_oui d = g_oui)
    (htok : s.g_last_magic (hdr_pipe d) ≠ hdr_magic d)
    (hcrc : hdr_crc d ≠ crc8 K (hdr_payload d (hdr_size d))) :
    (mespnow_recv_cb K b s addr d).g_last_magic (hdr_pipe d) = hdr_magic d ∧
    (mespnow_recv_cb K b s addr d).g_espnow_queue = s.g_espnow_queue := by
  have h1 : ¬ d.length < HEAD_LEN := by omega
  have h2 : ¬ hdr_pipe d ≥ MESPNOW_TRANS_PIPE_MAX := by omega
  simp [mespnow_recv_cb, h1, h2, houi, htok, hcrc]

/-- C22, evaluation at the failing input. A frame of the control channel with
token 7 whose checksum byte is wrong reaches a freshly initialised receiver:
nothing is enqueued, yet the token slot of the channel changes from 0 to 7.
The intact frame with the same token 7 that arrives next is dropped as a
duplicate, while the same intact frame alone would have been enqueued. -/
theorem decode_error_overwrites_token :
    hdr_crc frame_badcrc ≠ crc8 K0 (hdr_payload frame_badcrc (hdr_size frame_badcrc)) ∧
    init_state.g_last_magic 1 = 0 ∧
    (mespnow_recv_cb K0 true init_state addr0 frame_badcrc).g_last_magic 1 = 7 ∧
    (mespnow_recv_cb K0 true init_state addr0 frame_badcrc).g_espnow_queue 1 = [] ∧
    well_formed K0 1 frameA ∧ hdr_magic frameA = 7 ∧
    (deliver K0 true init_state addr0 [frame_badcrc, frameA]).g_espnow_queue 1 = [] ∧
    (deliver K0 true init_state addr0 [frameA]).g_espnow_queue 1
      = [{ addr := addr0, data := frameA }] := by
  decide

/-! ### C24 -/

theorem lock_released_after_buffer (K : Consts) (env : WriteEnv) (s : State) (pipe : Nat)
    (dest msg : List Nat) (wait_ticks : Nat) (ret : MdfErr) (tr : List Call)
    (hne : msg ≠ []) (hpipe : pipe < MESPNOW_TRANS_PIPE_MAX)
    (hinit : s.g_espnow_init_flag = true)
    (hlock : env.xSemaphoreTake = true) (hmalloc : env.malloc_ok = true)
    (h : mespnow_write K env s pipe dest msg wait_ticks = some (ret, tr)) :
    tr.getLast? = some Call.xSemaphoreGive := by
  have hlen : msg.length ≠ 0 := by
    intro h
    exact hne (List.length_eq_zero.1 h)
  simp only [mespnow_write, hlen, hpipe, hinit, hlock, hmalloc, if_false, not_true_eq_false,
    Bool.not_true, Bool.false_eq_true] at h
  cases hw : write_frames K env pipe dest (msg.length % 65536) wait_ticks msg.length msg 0 0 0
      [Call.xSemaphoreTake wait_ticks] with
  | none => simp [hw] at h
  | some r =>
    obtain ⟨ret2, tr2⟩ := r
    simp only [hw] at h
    split_ifs at h
    all_goals
      simp only [Option.some.injEq, Prod.mk.injEq] at h
      rw [← h.2]
      simp

/-- C24, evaluation at the failing input. The send lock is obtained and the
allocation of the frame buffer fails: `mespnow_write` returns
`MDF_ERR_NO_MEM` and the only call it made on the lock is `xSemaphoreTake`;
`xSemaphoreGive` is not called, so the lock stays taken after the return. -/
theorem lock_kept_on_allocation_failure :
    wenv_nomem.xSemaphoreTake = true ∧ wenv_nomem.malloc_ok = false ∧
    mespnow_write K0 wenv_nomem init_state 1 addr0 msg0 50
      = some (MdfErr.MDF_ERR_NO_MEM, [Call.xSemaphoreTake 50]) ∧
    ((mespnow_write K0 wenv_nomem init_state 1 addr0 msg0 50).map
      (fun r => r.2.count Call.xSemaphoreGive)) = some 0 := by
  decide

/-! ### C26 -/

/-- C26, counterexample. The first frame that reaches a freshly initialised
receiver is well formed and carries the dedup token 0, the value the token
slot holds initially: it is dropped as a duplicate, nothing is enqueued and no
event is raised. -/
theorem first_frame_with_token_zero_is_dropped :
    well_formed K0 1 frame_zero ∧ hdr_magic frame_zero = 0 ∧
    init_state.g_last_magic 1 = 0 ∧ init_state.g_espnow_queue 1 = [] ∧
    (mespnow_recv_cb K0 true init_state addr0 frame_zero).g_espnow_queue 1 = [] ∧
    (mespnow_recv_cb K0 true init_state addr0 frame_zero).events = [] := by
  decide

/-- C26, amended. On a channel whose token slot still holds its initial value
0 and whose queue is empty (capacity at least one, allocation succeeding), a
well-formed frame is enqueued by `mespnow_recv_cb` when its dedup token is not
0; a well-formed frame with token 0 is dropped as a duplicate and leaves the
state unchanged. -/
theorem first_frame_enqueued_unless_token_zero (K : Consts) (s : State) (addr d : List Nat)
    (pipe : Nat) (hw : well_formed K pipe d) (hslot : s.g_last_magic pipe = 0)
    (hq : s.g_espnow_queue pipe = []) (hroom : 0 < K.g_espnow_queue_size pipe) :
    (hdr_magic d ≠ 0 →
      (mespnow_recv_cb K true s addr d).g_espnow_queue pipe = [{ addr := addr, data := d }]) ∧
    (hdr_magic d = 0 → mespnow_recv_cb K true s addr d = s) := by
  constructor
  · intro hm
    have h := (recv_accept K s addr d pipe hw (by rw [hslot]; exact fun e => hm e.symm)
      (by rw [hq]; exact hroom)).1
    rw [h, hq]
    rfl
  · intro hm
    apply recv_duplicate
    rw [hw.2.1, hslot, hm]

/-- Witness for C26 (amended): frame `A` with token 7 on a freshly initialised
receiver. -/
theorem first_frame_enqueued_unless_token_zero_witness :
    well_formed K0 1 frameA ∧ init_state.g_last_magic 1 = 0 ∧
    init_state.g_espnow_queue 1 = [] ∧ 0 < K0.g_espnow_queue_size 1 ∧ hdr_magic frameA ≠ 0 ∧
    (mespnow_recv_cb K0 true init_state addr0 frameA).g_espnow_queue 1
      = [{ addr := addr0, data := frameA }] :=
  ⟨by decide, rfl, rfl, by decide, by decide,
    (first_frame_enqueued_unless_token_zero K0 init_state addr0 frameA 1 (by decide) rfl rfl
      (by decide)).1 (by decide)⟩

/-! ### C30 -/

theorem add_peer_success_cases (env : PeerEnv) (peers : List (List Nat))
    (a : List Nat) (h : (mespnow_add_peer env peers (some a)).1 = MdfErr.MDF_OK) :
    (a ∉ peers → (mespnow_add_peer env peers (some a)).2 = a :: peers) ∧
    (a ∈ peers → a ∉ (mespnow_add_peer env peers (some a)).2) := by
  unfold mespnow_add_peer at h ⊢
  by_cases hin : a ∈ peers
  · simp only [hin, if_true] at h ⊢
    by_cases h1 : env.esp_now_del_peer = MdfErr.MDF_OK
    · simp [h1]
    · simp only [ne_eq, h1, not_false_eq_true, if_true] at h
  · simp only [hin, if_false] at h ⊢
    by_cases h1 : env.esp_wifi_get_channel = MdfErr.MDF_OK
    · by_cases h2 : env.esp_now_add_peer = MdfErr.MDF_OK
      · simp [h1, h2]
      · simp only [ne_eq, h1, not_true_eq_false, if_false, h2, not_false_eq_true,
          if_true] at h
    · simp only [ne_eq, h1, not_false_eq_true, if_true] at h

/-- C30, evaluation at the failing input. The address is in the peer list and
every collaborator call succeeds: `mespnow_add_peer` deletes the peer and
returns `MDF_OK`, and the address is not in the peer list afterwards. The same
call for an address that is not in the list adds it, so two calls in a row for
one address leave the list without it. -/
theorem add_peer_removes_known_peer :
    addr0 ∈ [addr0] ∧
    mespnow_add_peer penv0 [addr0] (some addr0) = (MdfErr.MDF_OK, []) ∧
    addr0 ∉ (mespnow_add_peer penv0 [addr0] (some addr0)).2 ∧
    mespnow_add_peer penv0 [] (some addr0) = (MdfErr.MDF_OK, [addr0]) ∧
    mespnow_add_peer penv0 (mespnow_add_peer penv0 [] (some addr0)).2 (some addr0)
      = (MdfErr.MDF_OK, []) := by
  decide

/-! ### C29 -/

theorem read_fails_at_frame_256 :
    (mespnow_read
      (deliver K1 true init_state addr0
        ((List.range 257).map (frame_of K1 1 msg257 wenv0.esp_random)))
      (fun j => j) 1 1000 50).ret = MdfErr.ESP_FAIL := by
  have htok : ∀ i, wenv0.esp_random (i + 1) % U32 ≠ wenv0.esp_random i % U32 := by
    intro i
    show (i + 1 + 1) % U32 ≠ (i + 1) % U32
    unfold U32
    omega
  have hd := (deliver_frames K1 1 addr0 msg257 wenv0.esp_random (by decide) (by decide) htok
    257 0 init_state (by decide) (by decide)).1
  have hi := (deliver_frames K1 1 addr0 msg257 wenv0.esp_random (by decide) (by decide) htok
    257 0 init_state (by decide) (by decide)).2
  rw [← List.range_eq_range'] at hd hi
  have hsplit : (List.range 257).map
        (fun j => ({ addr := addr0, data := frame_of K1 1 msg257 wenv0.esp_random j } : QItem))
      = { addr := addr0, data := frame_of K1 1 msg257 wenv0.esp_random 0 } ::
        ((List.range' 1 255).map
          (fun j => ({ addr := addr0, data := frame_of K1 1 msg257 wenv0.esp_random j } : QItem))
          ++ { addr := addr0, data := frame_of K1 1 msg257 wenv0.esp_random 256 } :: []) := by
    rfl
  have hq : (deliver K1 true init_state addr0
      ((List.range 257).map (frame_of K1 1 msg257 wenv0.esp_random))).g_espnow_queue 1
      = [] ++ { addr := addr0, data := frame_of K1 1 msg257 wenv0.esp_random 0 } ::
        ((List.range' 1 255).map
          (fun j => ({ addr := addr0, data := frame_of K1 1 msg257 wenv0.esp_random j } : QItem))
          ++ { addr := addr0, data := frame_of K1 1 msg257 wenv0.esp_random 256 } :: []) := by
    rw [hd, ← hsplit]
    rfl
  obtain ⟨c2, tr2, h1⟩ := read_first_skip (fun j => j) 1 1000 50
    { addr := addr0, data := frame_of K1 1 msg257 wenv0.esp_random 0 }
    ((List.range' 1 255).map
      (fun j => ({ addr := addr0, data := frame_of K1 1 msg257 wenv0.esp_random j } : QItem))
      ++ { addr := addr0, data := frame_of K1 1 msg257 wenv0.esp_random 256 } :: [])
    (by decide) [] 0 [] (by simp)
  have hinit : (deliver K1 true init_state addr0
      ((List.range 257).map (frame_of K1 1 msg257 wenv0.esp_random))).g_espnow_init_flag
      = true := by
    rw [hi]
    rfl
  have hread : mespnow_read
      (deliver K1 true init_state addr0
        ((List.range 257).map (frame_of K1 1 msg257 wenv0.esp_random)))
      (fun j => j) 1 1000 50
      = read_rest (fun j => j) 1 1000 50
          (hdr_total_size (frame_of K1 1 msg257 wenv0.esp_random 0)) addr0
          ((List.range' 1 255).map
            (fun j => ({ addr := addr0, data := frame_of K1 1 msg257 wenv0.esp_random j } : QItem))
            ++ { addr := addr0, data := frame_of K1 1 msg257 wenv0.esp_random 256 } :: [])
          1 (hdr_size (frame_of K1 1 msg257 wenv0.esp_random 0)) c2
          (hdr_payload (frame_of K1 1 msg257 wenv0.esp_random 0)
            (hdr_size (frame_of K1 1 msg257 wenv0.esp_random 0))) tr2 := by
    have hsize : (1000 : Nat) ≠ 0 := by decide
    have hpipe : 1 < MESPNOW_TRANS_PIPE_MAX := by decide
    simp only [mespnow_read, hsize, hpipe, hinit, hq, h1, if_false, not_true_eq_false,
      Bool.not_true, Bool.false_eq_true]
  rw [hread]
  apply read_rest_mismatch
  · decide
  · decide
  · decide

/-- C29, counterexample. With payloads of one byte a message of 257 bytes
takes 257 frames, all acknowledged: frame 256 leaves with the sequence field
0, not 256, and `mespnow_read` on the frames delivered in order fails at that
frame with `ESP_FAIL`. A message of 65536 bytes leaves with the field
`total_size` 0 in its first frame. -/
theorem header_fields_wrap :
    frame_count K1 msg257.length = 257 ∧
    (∃ tr, mespnow_write K1 wenv0 init_state 1 addr0 msg257 50 = some (MdfErr.MDF_OK, tr) ∧
      hdr_seq ((radio_frames tr).getD 256 []) = 0) ∧
    (mespnow_read
      (deliver K1 true init_state addr0
        ((List.range 257).map (frame_of K1 1 msg257 wenv0.esp_random)))
      (fun j => j) 1 1000 50).ret = MdfErr.ESP_FAIL ∧
    msg65536.length = 65536 ∧
    (∃ tr, mespnow_write K0 wenv0 init_state 1 addr0 msg65536 50 = some (MdfErr.MDF_OK, tr) ∧
      hdr_total_size ((radio_frames tr).getD 0 []) = 0) := by
  have hl : msg65536.length = 65536 := List.length_replicate 65536 1
  have hne : msg65536 ≠ [] := by
    intro h
    rw [h] at hl
    exact absurd hl (by decide)
  refine ⟨by decide, ?_, read_fails_at_frame_256, hl, ?_⟩
  · obtain ⟨tr, h1, h2⟩ := mespnow_write_acked K1 wenv0 init_state 1 addr0 msg257 50
      (by decide) (by decide) (by decide) (by decide) rfl rfl rfl (fun _ => rfl)
      (fun _ => (by decide : SEND_CB_OK &&& SEND_CB_OK = SEND_CB_OK))
    refine ⟨tr, h1, ?_⟩
    rw [h2, getD_map_range _ _ _ (by decide)]
    exact (frame_of_fields K1 1 msg257 wenv0.esp_random 256 (by decide) (by decide)).2.2.2.1
  · obtain ⟨tr, h1, h2⟩ := mespnow_write_acked K0 wenv0 init_state 1 addr0 msg65536 50
      (by decide) (by decide) hne (by decide) rfl rfl rfl (fun _ => rfl)
      (fun _ => (by decide : SEND_CB_OK &&& SEND_CB_OK = SEND_CB_OK))
    refine ⟨tr, h1, ?_⟩
    rw [h2, getD_map_range _ _ _ (by rw [hl]; decide)]
    rw [(frame_of_fields K0 1 msg65536 wenv0.esp_random 0 (by decide) (by decide)).2.2.2.2.2.1, hl]

/-- C29, amended. For every non-empty message of length `L` sent by
`mespnow_write` with every transmission acknowledged, frame `i` carries the
sequence field `i mod 256` and the field `total_size` `L mod 65536`: the
sequence equals the fragment index exactly for the first 256 frames, and
`total_size` equals `L` exactly when `L < 65536`. -/
theorem mespnow_write_header_fields (K : Consts) (env : WriteEnv) (s : State) (pipe : Nat)
    (dest msg : List Nat) (wait_ticks : Nat)
    (hP : 0 < K.MESPNOW_PAYLOAD_LEN) (hP8 : K.MESPNOW_PAYLOAD_LEN ≤ 255)
    (hne : msg ≠ []) (hpipe : pipe < MESPNOW_TRANS_PIPE_MAX)
    (hinit : s.g_espnow_init_flag = true)
    (hlock : env.xSemaphoreTake = true) (hmalloc : env.malloc_ok = true)
    (hsend : ∀ k, env.esp_now_send k = MdfErr.MDF_OK)
    (hack : ∀ k, env.xEventGroupWaitBits k &&& SEND_CB_OK = SEND_CB_OK) :
    ∃ tr, mespnow_write K env s pipe dest msg wait_ticks = some (MdfErr.MDF_OK, tr) ∧
      (radio_frames tr).length = frame_count K msg.length ∧
      (∀ i, i < frame_count K msg.length →
        hdr_seq ((radio_frames tr).getD i []) = i % 256 ∧
        hdr_total_size ((radio_frames tr).getD i []) = msg.length % 65536 ∧
        (hdr_seq ((radio_frames tr).getD i []) = i ↔ i < 256) ∧
        (hdr_total_size ((radio_frames tr).getD i []) = msg.length ↔ msg.length < 65536)) := by
  obtain ⟨tr, h1, h2⟩ := mespnow_write_acked K env s pipe dest msg wait_ticks hP hP8 hne hpipe
    hinit hlock hmalloc hsend hack
  refine ⟨tr, h1, by rw [h2]; simp, ?_⟩
  intro i hi
  rw [h2, getD_map_range _ _ _ hi]
  obtain ⟨_, _, _, hs, _, ht, _⟩ := frame_of_fields K pipe msg env.esp_random i hP8 hpipe
  rw [hs, ht]
  refine ⟨rfl, rfl, ?_, ?_⟩
  · constructor
    · intro h
      have := Nat.mod_lt i (by decide : 256 > 0)
      omega
    · intro h
      exact Nat.mod_eq_of_lt h
  · constructor
    · intro h
      have := Nat.mod_lt msg.length (by decide : 65536 > 0)
      omega
    · intro h
      exact Nat.mod_eq_of_lt h

/-- Witness for C29 (amended): the ten bytes of `msg0` in three frames. -/
theorem mespnow_write_header_fields_witness :
    0 < K0.MESPNOW_PAYLOAD_LEN ∧ K0.MESPNOW_PAYLOAD_LEN ≤ 255 ∧ msg0 ≠ [] ∧
    1 < MESPNOW_TRANS_PIPE_MAX ∧ init_state.g_espnow_init_flag = true ∧
    wenv0.xSemaphoreTake = true ∧ wenv0.malloc_ok = true ∧
    (∀ k, wenv0.esp_now_send k = MdfErr.MDF_OK) ∧
    (∀ k, wenv0.xEventGroupWaitBits k &&& SEND_CB_OK = SEND_CB_OK) ∧
    ∃ tr, mespnow_write K0 wenv0 init_state 1 addr0 msg0 50 = some (MdfErr.MDF_OK, tr) ∧
      (radio_frames tr).length = frame_count K0 msg0.length ∧
      (∀ i, i < frame_count K0 msg0.length →
        hdr_seq ((radio_frames tr).getD i []) = i % 256 ∧
        hdr_total_size ((radio_frames tr).getD i []) = msg0.length % 65536 ∧
        (hdr_seq ((radio_frames tr).getD i []) = i ↔ i < 256) ∧
        (hdr_total_size ((radio_frames tr).getD i []) = msg0.length ↔ msg0.length < 65536)) :=
  ⟨by decide, by decide, by decide, by decide, rfl, rfl, rfl, fun _ => rfl,
    fun _ => (by decide : SEND_CB_OK &&& SEND_CB_OK = SEND_CB_OK),
    mespnow_write_header_fields K0 wenv0 init_state 1 addr0 msg0 50 (by decide) (by decide)
      (by decide) (by decide) rfl rfl rfl (fun _ => rfl)
      (fun _ => (by decide : SEND_CB_OK &&& SEND_CB_OK = SEND_CB_OK))⟩

/-! ### C1 -/

theorem write_ok_frames (K : Consts) (env : WriteEnv) (s : State) (pipe : Nat)
    (dest msg : List Nat) (wait_ticks : Nat) (tr : List Call)
    (hP : 0 < K.MESPNOW_PAYLOAD_LEN) (hP8 : K.MESPNOW_PAYLOAD_LEN ≤ 255)
    (hR : 1 ≤ K.CONFIG_MESPNOW_RETRANSMIT_NUM) (hne : msg ≠ [])
    (hpipe : pipe < MESPNOW_TRANS_PIPE_MAX)
    (hw : mespnow_write K env s pipe dest msg wait_ticks = some (MdfErr.MDF_OK, tr)) :
    ∃ ns, radio_frames tr = repeated (frame_of K pipe msg env.esp_random) 0 ns ∧
      ns.length = frame_count K msg.length ∧
      (∀ n ∈ ns, 1 ≤ n ∧ n ≤ K.CONFIG_MESPNOW_RETRANSMIT_NUM) := by
  have hlen : msg.length ≠ 0 := by
    intro h
    exact hne (List.length_eq_zero.1 h)
  obtain ⟨ret, tr2, ns, r1, r2, r3, _, _, _, r7⟩ := write_frames_bounded K env pipe dest msg
    wait_ticks hP hP8 hR msg.length 0 0 0 [Call.xSemaphoreTake wait_ticks] (by omega) (by omega)
  simp only [Nat.zero_mul, List.drop_zero, Nat.zero_add] at r1 r2 r7
  have hrf0 : radio_frames [Call.xSemaphoreTake wait_ticks] = [] := rfl
  rw [hrf0, List.nil_append] at r2
  cases hinit : s.g_espnow_init_flag with
  | false => simp [mespnow_write, hlen, hpipe, hinit] at hw
  | true =>
    cases hlock : env.xSemaphoreTake with
    | false => simp [mespnow_write, hlen, hpipe, hinit, hlock] at hw
    | true =>
      cases hmalloc : env.malloc_ok with
      | false => simp [mespnow_write, hlen, hpipe, hinit, hlock, hmalloc] at hw
      | true =>
        simp only [mespnow_write, hlen, hpipe, hinit, hlock, hmalloc, if_false,
          not_true_eq_false, Bool.not_true, Bool.false_eq_true, r1] at hw
        split_ifs at hw with h1 h2
        · simp only [Option.some.injEq, Prod.mk.injEq] at hw
          exact absurd hw.1 h1
        · simp only [Option.some.injEq, Prod.mk.injEq, true_and] at hw
          refine ⟨ns, ?_, (r7.1 (not_not.1 h1)).1, r3⟩
          rw [← hw, radio_frames_append, r2]
          simp [radio_frames]
        · simp only [Option.some.injEq, Prod.mk.injEq, true_and] at hw
          refine ⟨ns, ?_, (r7.1 (not_not.1 h1)).1, r3⟩
          rw [← hw, radio_frames_append, r2]
          simp [radio_frames]

theorem deliver_append (K : Consts) (b : Bool) (s : State) (src : List Nat)
    (a c : List (List Nat)) :
    deliver K b s src (a ++ c) = deliver K b (deliver K b s src a) src c := by
  simp [deliver, List.foldl_append]

theorem deliver_replicate (K : Consts) (s : State) (src d : List Nat) (pipe : Nat)
    (hw : well_formed K pipe d) (htok : s.g_last_magic pipe ≠ hdr_magic d)
    (hroom : (s.g_espnow_queue pipe).length < K.g_espnow_queue_size pipe) :
    ∀ n, deliver K true s src (List.replicate (n + 1) d) = mespnow_recv_cb K true s src d := by
  intro n
  induction n with
  | zero => simp [deliver]
  | succ n ih =>
    rw [List.replicate_succ', deliver_append, ih]
    have hslot := (recv_accept K s src d pipe hw htok hroom).2.1
    show mespnow_recv_cb K true (mespnow_recv_cb K true s src d) src d
      = mespnow_recv_cb K true s src d
    apply recv_duplicate
    rw [hw.2.1, hslot]

theorem deliver_repeated (K : Consts) (pipe : Nat) (src msg : List Nat) (rand : Nat → Nat)
    (total : Nat) (hP8 : K.MESPNOW_PAYLOAD_LEN ≤ 255) (hpipe : pipe < MESPNOW_TRANS_PIPE_MAX)
    (htok : ∀ i, i < total - 1 → rand (i + 1) % U32 ≠ rand i % U32) :
    ∀ (ns : List Nat) (i : Nat) (s : State), (∀ n ∈ ns, 1 ≤ n) → i + ns.length ≤ total →
      (s.g_espnow_queue pipe).length + ns.length ≤ K.g_espnow_queue_size pipe →
      (0 < ns.length → s.g_last_magic pipe ≠ rand i % U32) →
      (deliver K true s src (repeated (frame_of K pipe msg rand) i ns)).g_espnow_queue pipe
        = s.g_espnow_queue pipe ++
          (List.range' i ns.length).map
            (fun j => { addr := src, data := frame_of K pipe msg rand j }) ∧
      (deliver K true s src (repeated (frame_of K pipe msg rand) i ns)).g_espnow_init_flag
        = s.g_espnow_init_flag := by
  intro ns
  induction ns with
  | nil => intro i s _ _ _ _; simp [deliver, repeated]
  | cons n ns ih =>
    intro i s hn htot hroom h0
    simp only [List.length_cons] at htot hroom
    have hn1 : 1 ≤ n := hn n (List.mem_cons_self n ns)
    obtain ⟨n', hn'⟩ : ∃ n', n = n' + 1 := ⟨n - 1, by omega⟩
    have hm : hdr_magic (frame_of K pipe msg rand i) = rand i % U32 :=
      (frame_of_fields K pipe msg rand i hP8 hpipe).2.2.2.2.2.2.1
    have hwf := frame_of_well_formed K pipe msg rand i hP8 hpipe
    have hlt : (s.g_espnow_queue pipe).length < K.g_espnow_queue_size pipe := by omega
    have hslot : s.g_last_magic pipe ≠ hdr_magic (frame_of K pipe msg rand i) := by
      rw [hm]
      exact h0 (by simp)
    obtain ⟨a1, a2, a3⟩ := recv_accept K s src (frame_of K pipe msg rand i) pipe hwf hslot hlt
    obtain ⟨b1, b2⟩ := ih (i + 1) (mespnow_recv_cb K true s src (frame_of K pipe msg rand i))
      (fun m hmem => hn m (List.mem_cons_of_mem n hmem)) (by omega)
      (by rw [a1]; simp only [List.length_append, List.length_cons, List.length_nil]; omega)
      (by
        intro hpos
        rw [a2, hm]
        exact fun h => htok i (by omega) h.symm)
    have hstep : deliver K true s src (repeated (frame_of K pipe msg rand) i (n :: ns))
        = deliver K true (mespnow_recv_cb K true s src (frame_of K pipe msg rand i)) src
            (repeated (frame_of K pipe msg rand) (i + 1) ns) := by
      rw [repeated, deliver_append, hn', deliver_replicate K s src _ pipe hwf hslot hlt n']
    rw [hstep, b1, b2, a1, a3]
    simp [List.range'_succ]

theorem repeated_ones (f : Nat → List Nat) :
    ∀ (m i : Nat), repeated f i (List.replicate m 1) = (List.range' i m).map f := by
  intro m
  induction m with
  | zero => intro i; simp [repeated]
  | succ m ih =>
    intro i
    rw [List.replicate_succ, repeated, ih (i + 1), List.range'_succ]
    simp

theorem read_of_delivered (K : Consts) (pipe : Nat) (src msg : List Nat) (rand : Nat → Nat)
    (tick : Nat → Nat) (size wait_r : Nat) (s : State) (stale : List QItem)
    (hP : 0 < K.MESPNOW_PAYLOAD_LEN) (hP8 : K.MESPNOW_PAYLOAD_LEN ≤ 255)
    (hne : msg ≠ []) (hpipe : pipe < MESPNOW_TRANS_PIPE_MAX)
    (h16 : msg.length < 65536) (h8 : frame_count K msg.length ≤ 256)
    (hinit : s.g_espnow_init_flag = true)
    (hq : s.g_espnow_queue pipe = stale ++
      (List.range' 0 (frame_count K msg.length)).map
        (fun j => { addr := src, data := frame_of K pipe msg rand j }))
    (hstale : ∀ x ∈ stale, discarded size x) (hbuf : msg.length < size) :
    (mespnow_read s tick pipe size wait_r).ret = MdfErr.MDF_OK ∧
    (mespnow_read s tick pipe size wait_r).data = msg ∧
    (mespnow_read s tick pipe size wait_r).size = msg.length ∧
    (mespnow_read s tick pipe size wait_r).src_addr = src := by
  have hn : 0 < frame_count K msg.length := by
    rw [lt_frame_count K msg.length 0 hP]
    have : msg.length ≠ 0 := fun h => hne (List.length_eq_zero.1 h)
    omega
  have hcnt : frame_count K msg.length = (frame_count K msg.length - 1) + 1 := by omega
  obtain ⟨_, _, _, e4, e5, e6, _, e8, _⟩ := frame_of_fields K pipe msg rand 0 hP8 hpipe
  have htot : hdr_total_size (frame_of K pipe msg rand 0) = msg.length := by
    rw [e6]
    omega
  have hs0 : slice K msg 0 = msg.take (1 * K.MESPNOW_PAYLOAD_LEN) := by
    simp [slice]
  have hsize : size ≠ 0 := by omega
  have hq2 : s.g_espnow_queue pipe = stale ++
      ({ addr := src, data := frame_of K pipe msg rand 0 } : QItem) ::
        (List.range' 1 (frame_count K msg.length - 1)).map
          (fun j => ({ addr := src, data := frame_of K pipe msg rand j } : QItem)) := by
    have hrange : List.range' 0 (frame_count K msg.length)
        = 0 :: List.range' 1 (frame_count K msg.length - 1) := by
      conv_lhs => rw [hcnt]
      rw [List.range'_succ]
    rw [hq, hrange, List.map_cons]
  obtain ⟨c2, tr2, h1⟩ := read_first_skip tick pipe size wait_r
    ({ addr := src, data := frame_of K pipe msg rand 0 } : QItem)
    ((List.range' 1 (frame_count K msg.length - 1)).map
      (fun j => ({ addr := src, data := frame_of K pipe msg rand j } : QItem)))
    ⟨by rw [e4], by rw [htot]; exact hbuf⟩ stale 0 [] hstale
  have hr := read_rest_frames K pipe src msg rand tick size wait_r hP hP8 hpipe h8
    (frame_count K msg.length - 1) 1 c2 tr2 (by omega)
  have hread : mespnow_read s tick pipe size wait_r
      = read_rest tick pipe size wait_r msg.length src
        ((List.range' 1 (frame_count K msg.length - 1)).map
          (fun j => { addr := src, data := frame_of K pipe msg rand j }))
        1 (msg.take (1 * K.MESPNOW_PAYLOAD_LEN)).length c2
        (msg.take (1 * K.MESPNOW_PAYLOAD_LEN)) tr2 := by
    have e8b : hdr_payload (frame_of K pipe msg rand 0)
        (msg.take (1 * K.MESPNOW_PAYLOAD_LEN)).length = msg.take (1 * K.MESPNOW_PAYLOAD_LEN) := by
      rw [← hs0]
      exact e8
    simp only [mespnow_read, hsize, hpipe, hinit, hq2, h1, if_false, not_true_eq_false,
      Bool.not_true, Bool.false_eq_true, htot, e5, hs0, e8b]
  rw [hread]
  exact hr

/-- C1, counterexample. The ten bytes of `msg0` are sent in three frames, each
acknowledged at its first transmission, and delivered once and in order to a
receiver whose control queue still holds the first frame of an earlier message
(sequence 0, total length 6). The tokens 1, 2, 3 of the frames differ from one
another and from the token 40 accepted last, and all three frames are
enqueued behind the old one. `mespnow_read` with a buffer of 64 bytes starts
with the old first fragment, meets frame 0 of `msg0` where it expects sequence
1, and returns `ESP_FAIL`. -/
theorem stale_first_fragment_breaks_roundtrip :
    (mespnow_write K0 wenv0 init_state 1 addr0 msg0 50).map (fun r => (r.1, radio_frames r.2))
      = some (MdfErr.MDF_OK, (List.range 3).map (frame_of K0 1 msg0 wenv0.esp_random)) ∧
    s_stale.g_last_magic 1 = 40 ∧
    (List.range 3).map (fun i => hdr_magic (frame_of K0 1 msg0 wenv0.esp_random i)) = [1, 2, 3] ∧
    s_stale.g_espnow_queue 1 = [itemA0] ∧
    (deliver K0 true s_stale addr0
        ((List.range 3).map (frame_of K0 1 msg0 wenv0.esp_random))).g_espnow_queue 1
      = [itemA0, item0 0, item0 1, item0 2] ∧
    msg0.length < 64 ∧
    (mespnow_read
        (deliver K0 true s_stale addr0
          ((List.range 3).map (frame_of K0 1 msg0 wenv0.esp_random)))
        (fun j => j) 1 64 50).ret = MdfErr.ESP_FAIL := by
  decide

/-- C1, amended. Round trip of `mespnow_write` followed by `mespnow_read`: a
non-empty message fits the 16-bit `total_size` field and takes at most 256
frames, and `mespnow_write` returns `MDF_OK`, so every frame was acknowledged
within the retry budget. The frames reach `mespnow_recv_cb` in order, either
each frame once or every transmission of it; the token of each frame differs
from the token accepted before it, no frame is dropped for a full queue, and
the frames still queued on the channel are ones `mespnow_read` discards (their
sequence is not 0 or their total length does not fit below the buffer). Then
`mespnow_read` with a buffer larger than the message returns `MDF_OK`, the
bytes returned are the message, the size reported is the message length, and
the source address is the one delivered. -/
theorem mespnow_write_read_roundtrip (K : Consts) (wenv : WriteEnv) (ws rs : State)
    (pipe : Nat) (dest src msg : List Nat) (wait_w : Nat) (tr : List Call) (tick : Nat → Nat)
    (size wait_r : Nat)
    (hP : 0 < K.MESPNOW_PAYLOAD_LEN) (hP8 : K.MESPNOW_PAYLOAD_LEN ≤ 255)
    (hR : 1 ≤ K.CONFIG_MESPNOW_RETRANSMIT_NUM)
    (hne : msg ≠ []) (hpipe : pipe < MESPNOW_TRANS_PIPE_MAX)
    (h16 : msg.length < 65536) (h8 : frame_count K msg.length ≤ 256)
    (hw : mespnow_write K wenv ws pipe dest msg wait_w = some (MdfErr.MDF_OK, tr))
    (hrinit : rs.g_espnow_init_flag = true)
    (htok0 : rs.g_last_magic pipe ≠ wenv.esp_random 0 % U32)
    (htok : ∀ i, i < frame_count K msg.length - 1 →
      wenv.esp_random (i + 1) % U32 ≠ wenv.esp_random i % U32)
    (hstale : ∀ x ∈ rs.g_espnow_queue pipe, discarded size x)
    (hcap : (rs.g_espnow_queue pipe).length + frame_count K msg.length
      ≤ K.g_espnow_queue_size pipe)
    (hbuf : msg.length < size) :
    (∃ ns, radio_frames tr = repeated (frame_of K pipe msg wenv.esp_random) 0 ns ∧
      ns.length = frame_count K msg.length ∧
      (∀ n ∈ ns, 1 ≤ n ∧ n ≤ K.CONFIG_MESPNOW_RETRANSMIT_NUM)) ∧
    ((mespnow_read
        (deliver K true rs src
          ((List.range (frame_count K msg.length)).map (frame_of K pipe msg wenv.esp_random)))
        tick pipe size wait_r).ret = MdfErr.MDF_OK ∧
      (mespnow_read
        (deliver K true rs src
          ((List.range (frame_count K msg.length)).map (frame_of K pipe msg wenv.esp_random)))
        tick pipe size wait_r).data = msg ∧
      (mespnow_read
        (deliver K true rs src
          ((List.range (frame_count K msg.length)).map (frame_of K pipe msg wenv.esp_random)))
        tick pipe size wait_r).size = msg.length ∧
      (mespnow_read
        (deliver K true rs src
          ((List.range (frame_count K msg.length)).map (frame_of K pipe msg wenv.esp_random)))
        tick pipe size wait_r).src_addr = src) ∧
    ((mespnow_read (deliver K true rs src (radio_frames tr)) tick pipe size wait_r).ret
        = MdfErr.MDF_OK ∧
      (mespnow_read (deliver K true rs src (radio_frames tr)) tick pipe size wait_r).data
        = msg ∧
      (mespnow_read (deliver K true rs src (radio_frames tr)) tick pipe size wait_r).size
        = msg.length ∧
      (mespnow_read (deliver K true rs src (radio_frames tr)) tick pipe size wait_r).src_addr
        = src) := by
  obtain ⟨ns, n1, n2, n3⟩ := write_ok_frames K wenv ws pipe dest msg wait_w tr hP hP8 hR hne
    hpipe hw
  refine ⟨⟨ns, n1, n2, n3⟩, ?_, ?_⟩
  · obtain ⟨d1, d2⟩ := deliver_repeated K pipe src msg wenv.esp_random
      (frame_count K msg.length) hP8 hpipe htok
      (List.replicate (frame_count K msg.length) 1) 0 rs
      (fun n hn => by rw [List.eq_of_mem_replicate hn])
      (by simp) (by simpa using hcap) (fun _ => htok0)
    rw [repeated_ones] at d1 d2
    rw [List.length_replicate] at d1
    rw [List.range_eq_range']
    exact read_of_delivered K pipe src msg wenv.esp_random tick size wait_r _
      (rs.g_espnow_queue pipe) hP hP8 hne hpipe h16 h8 (by rw [d2]; exact hrinit) d1 hstale hbuf
  · obtain ⟨d1, d2⟩ := deliver_repeated K pipe src msg wenv.esp_random
      (frame_count K msg.length) hP8 hpipe htok ns 0 rs (fun n hn => (n3 n hn).1)
      (by rw [n2]; omega) (by rw [n2]; exact hcap) (fun _ => htok0)
    rw [n2] at d1
    rw [n1]
    exact read_of_delivered K pipe src msg wenv.esp_random tick size wait_r _
      (rs.g_espnow_queue pipe) hP hP8 hne hpipe h16 h8 (by rw [d2]; exact hrinit) d1 hstale hbuf

/-- Witness for C1 (amended): the ten bytes of `msg0` sent in three frames, the
first of them transmitted twice, to a receiver whose control queue still holds
a frame with sequence 2, and read back into a buffer of 64 bytes. -/
theorem mespnow_write_read_roundtrip_witness :
    0 < K0.MESPNOW_PAYLOAD_LEN ∧ K0.MESPNOW_PAYLOAD_LEN ≤ 255 ∧
    1 ≤ K0.CONFIG_MESPNOW_RETRANSMIT_NUM ∧ msg0 ≠ [] ∧
    1 < MESPNOW_TRANS_PIPE_MAX ∧ msg0.length < 65536 ∧ frame_count K0 msg0.length ≤ 256 ∧
    mespnow_write K0 wenv_retry init_state 1 addr0 msg0 50 = some (MdfErr.MDF_OK, tr_retry) ∧
    (radio_frames tr_retry).length = 4 ∧
    s_tail.g_espnow_init_flag = true ∧
    s_tail.g_last_magic 1 ≠ wenv_retry.esp_random 0 % U32 ∧
    (∀ i, i < frame_count K0 msg0.length - 1 →
      wenv_retry.esp_random (i + 1) % U32 ≠ wenv_retry.esp_random i % U32) ∧
    (∀ x ∈ s_tail.g_espnow_queue 1, discarded 64 x) ∧
    (s_tail.g_espnow_queue 1).length + frame_count K0 msg0.length ≤ K0.g_espnow_queue_size 1 ∧
    msg0.length < 64 ∧
    (mespnow_read (deliver K0 true s_tail addr0 (radio_frames tr_retry))
      (fun j => j) 1 64 50).ret = MdfErr.MDF_OK ∧
    (mespnow_read (deliver K0 true s_tail addr0 (radio_frames tr_retry))
      (fun j => j) 1 64 50).data = msg0 ∧
    (mespnow_read (deliver K0 true s_tail addr0 (radio_frames tr_retry))
      (fun j => j) 1 64 50).size = msg0.length ∧
    (mespnow_read (deliver K0 true s_tail addr0 (radio_frames tr_retry))
      (fun j => j) 1 64 50).src_addr = addr0 :=
  have htok : ∀ i, i < frame_count K0 msg0.length - 1 →
      wenv_retry.esp_random (i + 1) % U32 ≠ wenv_retry.esp_random i % U32 := by
    intro i _
    show (i + 1 + 1) % U32 ≠ (i + 1) % U32
    unfold U32
    omega
  ⟨by decide, by decide, by decide, by decide, by decide, by decide, by decide, by decide,
    by decide, by decide, by decide, htok, by decide, by decide, by decide,
    (mespnow_write_read_roundtrip K0 wenv_retry init_state s_tail 1 addr0 addr0 msg0 50
      tr_retry (fun j => j) 64 50 (by decide) (by decide) (by decide) (by decide) (by decide)
      (by decide) (by decide) (by decide) (by decide) (by decide) htok (by decide) (by decide)
      (by decide)).2.2⟩

end Mespnow
